import Mathlib

/-!
Verification of the CSV-ledger consistency logic of the team-banners scripts.

The Python sources are shallowly embedded as Lean functions:

* a CSV file on disk is `Option Csv` — `none` models a file that does not
  exist, `some records` models the parsed comma-separated records of an
  existing file (one inner list of cell strings per record, as produced by
  the `csv` module);
* the filesystem seen by the rename/copy steps is an association list from
  `FsPath` (directory name × file name) to file contents;
* user input and network responses are passed in as explicit values or
  oracles so that the control flow of the scripts can be reproduced exactly.

Every definition mirrors the corresponding Python function in
`team_banners.py` (the CLI/GUI variants named in the claims are verbatim
copies of the same logic, as noted per definition).
-/

/-- A parsed CSV file: the list of its records, each record a list of
cell strings, exactly as `csv.reader` yields them. -/
abbrev Csv := List (List String)

/-- Adding an element to a Python `set`, modelled on lists: keep the
element list duplicate-free. -/
def setAdd (s : List String) (x : String) : List String :=
  if x ∈ s then s else s ++ [x]

/-- `read_uploaded_originals` (team_banners.py lines 477-517, identically in
team_banners_lite.py lines 157-181): collect into a set the cell at index 1
of every data record that has more than one cell; return the empty set when
the file is absent, the file is empty, or the header has at most one
column. -/
def read_uploaded_originals : Option Csv → List String
  | none => []
  | some [] => []
  | some (header :: rest) =>
    if header = [] then []
    else if header.length ≤ 1 then []
    else
      rest.foldl (fun acc row =>
        match row with
        | _ :: x :: _ => setAdd acc x
        | _ => acc) []

/-- Result of `get_csv_data`: the returned `(header, data)` pair together
with the malformed-row counter the function computes and reports. -/
structure CsvReadResult where
  header : Option (List String)
  rows : List (List String)
  malformedCount : Nat
deriving DecidableEq, Repr

/-- `get_csv_data` (team_banners.py lines 835-880, identically in
team_banners_Tkinter.py lines 450-487): `(None, [])` when the file does not
exist or has no header row; otherwise keep exactly the data records whose
cell count equals the header's, counting the others as malformed. -/
def get_csv_data : Option Csv → CsvReadResult
  | none => ⟨none, [], 0⟩
  | some [] => ⟨none, [], 0⟩
  | some (header :: rest) =>
    if header = [] then ⟨none, [], 0⟩
    else
      ⟨some header,
       rest.filter (fun row => row.length == header.length),
       rest.countP (fun row => !(row.length == header.length))⟩

/-- The fixed ledger header written by `write_to_csv`. -/
def CSV_HEADER : List String := ["Timestamp", "Original", "Renamed", "URL"]

/-- `write_to_csv` (team_banners.py lines 806-828): no write at all when
there is nothing to log; otherwise append one record per tuple, writing the
fixed header first iff the file is absent or empty. -/
def write_to_csv (file : Option Csv) (upload_data : List (String × String × String × String)) :
    Option Csv :=
  match upload_data with
  | [] => file
  | _ =>
    let newRows := upload_data.map fun e => [e.1, e.2.1, e.2.2.1, e.2.2.2]
    match file with
    | none => some (CSV_HEADER :: newRows)
    | some [] => some (CSV_HEADER :: newRows)
    | some old => some (old ++ newRows)

/-- The duplicate filter applied to a directory listing
(`[f for f in local_files if f not in uploaded_originals]`,
team_banners.py line 1598; the drive-download variant at line 557 feeds it
the sorted listing). -/
def filter_files (candidates : List String) (originals : List String) : List String :=
  candidates.filter (fun f => !(originals.contains f))

/-- Python string `<` on code points, on the underlying character lists. -/
def pyStrLt : List Char → List Char → Bool
  | [], [] => false
  | [], _ :: _ => true
  | _ :: _, [] => false
  | a :: as, b :: bs =>
    if a.toNat < b.toNat then true
    else if b.toNat < a.toNat then false
    else pyStrLt as bs

/-- Python string `<=` (total preorder used by `sorted`). -/
def pyStrLe (a b : String) : Bool := !(pyStrLt b.toList a.toList)

/-- Stable insertion into a list sorted by `pyStrLe`. -/
def insertSorted (x : String) : List String → List String
  | [] => [x]
  | y :: ys => if pyStrLe x y then x :: y :: ys else y :: insertSorted x ys

/-- Python `sorted` on strings (ascending code-point order). -/
def sortStrings : List String → List String
  | [] => []
  | x :: xs => insertSorted x (sortStrings xs)

/-- Decidable check that a list of strings is in ascending `pyStrLe`
order. -/
def isSortedStr : List String → Bool
  | [] => true
  | [_] => true
  | x :: y :: rest => pyStrLe x y && isSortedStr (y :: rest)

-- sanity checks of the string order
example : pyStrLt "a.jpg".toList "b.jpg".toList = true := by decide
example : sortStrings ["b.jpg", "a.jpg"] = ["a.jpg", "b.jpg"] := by decide

/-- A file location: the directory it lives in and its file name
(`os.path.join(dir, name)`). -/
structure FsPath where
  dir : String
  base : String
deriving DecidableEq, Repr

/-- The filesystem as seen by the scripts: an association of paths to file
contents. -/
abbrev FS := List (FsPath × String)

/-- `os.path.exists` / `os.path.isfile`. -/
def existsFS (fs : FS) (p : FsPath) : Bool :=
  fs.any (fun e => decide (e.1 = p))

/-- Reading a file's contents (`none` when the path is not a file). -/
def readFS (fs : FS) (p : FsPath) : Option String :=
  (fs.find? (fun e => decide (e.1 = p))).map (fun e => e.2)

/-- `shutil.copy2`'s effect at the destination: overwrite the file if it
exists, create it otherwise. -/
def writeFS (fs : FS) (p : FsPath) (c : String) : FS :=
  if existsFS fs p then fs.map (fun e => if e.1 = p then (p, c) else e)
  else fs ++ [(p, c)]

/-- Index of the last `'.'` of a character list, if any. -/
def lastDotIdx (cs : List Char) : Option Nat :=
  ((cs.enum.filter (fun e => decide (e.2 = '.'))).getLast?).map (fun e => e.1)

/-- `os.path.splitext` on a bare file name: split at the last dot unless
every character before it is itself a dot (so dot-files have no
extension). -/
def splitext (s : String) : String × String :=
  let cs := s.toList
  match lastDotIdx cs with
  | none => (s, "")
  | some p =>
    if (cs.take p).all (fun c => decide (c = '.')) then (s, "")
    else (String.mk (cs.take p), String.mk (cs.drop p))

example : splitext "a.jpg" = ("a", ".jpg") := by decide
example : splitext "archive.tar.gz" = ("archive.tar", ".gz") := by decide
example : splitext ".bashrc" = (".bashrc", "") := by decide
example : splitext "noext" = ("noext", "") := by decide

/-- Python `f"{n:0{width}d}"` for a natural number: decimal digits,
left-padded with zeros to at least `width` characters. -/
def zeroPad (width n : Nat) : String :=
  let s := toString n
  String.mk (List.replicate (width - s.length) '0') ++ s

example : zeroPad 2 3 = "03" := by decide
example : zeroPad 2 11 = "11" := by decide
example : zeroPad 1 3 = "3" := by decide

/-- `IMPORT_FOLDER` constant of the scripts. -/
def IMPORT_FOLDER : String := "Images import"

/-- `EXPORT_FOLDER` constant of the scripts. -/
def EXPORT_FOLDER : String := "Images export"

/-- `start_number = 1` in `bulk_rename_files`. -/
def BULK_START_NUMBER : Nat := 1

/-- `num_digits = 2` in `bulk_rename_files` (team_banners.py line 687):
a fixed two-digit padding, not derived from the file count. -/
def BULK_NUM_DIGITS : Nat := 2

/-- `num_digits = len(str(len(data) + start_number - 1))` in
`run_bulk_rename_existing` (team_banners.py line 1749): padding width
derived from the item count. -/
def num_digits_existing (count : Nat) : Nat :=
  (toString (count + BULK_START_NUMBER - 1)).length

/-- The conflict `while` loop of `bulk_rename_files` (team_banners.py lines
708-722): while the destination exists, retry with
`newBase ++ "_conflict_" ++ counter ++ ext`; after the counter passes 5 the
file is skipped (`none`). -/
def bulk_conflict_loop (fs : FS) (exportPath newBase ext : String)
    (name : String) (counter : Nat) : Option String :=
  if existsFS fs ⟨exportPath, name⟩ then
    let name2 := newBase ++ "_conflict_" ++ toString counter ++ ext
    if counter + 1 > 5 then none
    else bulk_conflict_loop fs exportPath newBase ext name2 (counter + 1)
  else some name
termination_by 6 - counter
decreasing_by omega

/-- The per-file loop of `bulk_rename_files` (team_banners.py lines
692-739): `i` is the `enumerate` index; a missing source or an exhausted
conflict loop skips the file; otherwise `shutil.copy2` the source content
to the resolved destination and record the
`(original, new_name, dest_path)` triple. -/
def bulk_rename_go (importPath exportPath baseName : String) :
    List String → Nat → FS → FS × List (String × String × FsPath)
  | [], _, fs => (fs, [])
  | f :: rest, i, fs =>
    match readFS fs ⟨importPath, f⟩ with
    | none => bulk_rename_go importPath exportPath baseName rest (i + 1) fs
    | some content =>
      let ext := (splitext f).2
      let newBase := baseName ++ zeroPad BULK_NUM_DIGITS (i + BULK_START_NUMBER)
      match bulk_conflict_loop fs exportPath newBase ext (newBase ++ ext) 1 with
      | none => bulk_rename_go importPath exportPath baseName rest (i + 1) fs
      | some newName =>
        let fs2 := writeFS fs ⟨exportPath, newName⟩ content
        let res := bulk_rename_go importPath exportPath baseName rest (i + 1) fs2
        (res.1, (f, newName, ⟨exportPath, newName⟩) :: res.2)

/-- `bulk_rename_files` (team_banners.py lines 665-743): iterate the
per-file loop over the sorted candidate list. -/
def bulk_rename_files (importPath exportPath baseName : String)
    (files_to_process : List String) (fs : FS) :
    FS × List (String × String × FsPath) :=
  bulk_rename_go importPath exportPath baseName (sortStrings files_to_process) 0 fs

/-- The conflict `while` loop of `prompt_rename_images` (team_banners.py
lines 623-643): while the destination exists and differs from the source,
ask about overwriting (`ow counter`); answering yes keeps the colliding
name (overwrite), otherwise retry with `base2 ++ "_" ++ counter ++ ext`;
after the counter passes 10 the file is skipped. -/
def prompt_conflict_loop (fs : FS) (src : FsPath) (exportPath base2 ext : String)
    (ow : Nat → Bool) (name : String) (counter : Nat) : Option String :=
  if existsFS fs ⟨exportPath, name⟩ ∧ FsPath.mk exportPath name ≠ src then
    if ow counter then some name
    else
      let name2 := base2 ++ "_" ++ toString counter ++ ext
      if counter + 1 > 10 then none
      else prompt_conflict_loop fs src exportPath base2 ext ow name2 (counter + 1)
  else some name
termination_by 11 - counter
decreasing_by omega

/-- The per-file loop of `prompt_rename_images` (team_banners.py lines
607-663): `nameOf i` is the base name the user types for the i-th sorted
file (blank keeps the original name), `ow i` the per-file overwrite
answers. -/
def prompt_rename_go (importPath exportPath : String) (nameOf : Nat → String)
    (ow : Nat → Nat → Bool) :
    List String → Nat → FS → FS × List (String × String × FsPath)
  | [], _, fs => (fs, [])
  | f :: rest, i, fs =>
    match readFS fs ⟨importPath, f⟩ with
    | none => prompt_rename_go importPath exportPath nameOf ow rest (i + 1) fs
    | some content =>
      let base := nameOf i
      let ext := (splitext f).2
      let name0 := if base = "" then f else base ++ ext
      let base2 := if base = "" then (splitext f).1 else base
      match prompt_conflict_loop fs ⟨importPath, f⟩ exportPath base2 ext (ow i) name0 1 with
      | none => prompt_rename_go importPath exportPath nameOf ow rest (i + 1) fs
      | some newName =>
        let fs2 := writeFS fs ⟨exportPath, newName⟩ content
        let res := prompt_rename_go importPath exportPath nameOf ow rest (i + 1) fs2
        (res.1, (f, newName, ⟨exportPath, newName⟩) :: res.2)

/-- `prompt_rename_images` (team_banners.py lines 589-663): iterate the
interactive per-file loop over the sorted candidate list. -/
def prompt_rename_images (importPath exportPath : String) (nameOf : Nat → String)
    (ow : Nat → Nat → Bool) (files_to_process : List String) (fs : FS) :
    FS × List (String × String × FsPath) :=
  prompt_rename_go importPath exportPath nameOf ow (sortStrings files_to_process) 0 fs

/-- The two precondition exceptions `upload_to_sul` raises before touching
the network: `ValueError` for a missing API key, `FileNotFoundError` for a
missing file. -/
inductive UploadPrecondError where
  | missingKey
  | fileNotFound
deriving DecidableEq, Repr

/-- The environment's answer to the single HTTP POST: a timeout, a
connection error, or a response with a status code and a JSON body
(`none` models a body that is not valid JSON; object fields are an
association list). -/
inductive NetOutcome where
  | timeout
  | connError
  | resp (status : Nat) (json : Option (List (String × String)))
deriving DecidableEq, Repr

/-- The request `upload_to_sul` sends (team_banners.py line 762):
endpoint, timeout and form fields are fixed. -/
structure UploadRequest where
  endpointUrl : String
  timeoutSeconds : Nat
  wizard : String
  key : String
deriving DecidableEq, Repr

/-- `requests.post("https://s-ul.eu/api/v1/upload", data={"wizard": "true",
"key": str(api_key)}, files=..., timeout=60)`. -/
def upload_request (api_key : String) : UploadRequest :=
  ⟨"https://s-ul.eu/api/v1/upload", 60, "true", api_key⟩

/-- `res.raise_for_status()`: raises exactly for status codes 400-599. -/
def raise_for_status_raises (status : Nat) : Bool :=
  400 ≤ status && status < 600

/-- The `"url"` field of the decoded JSON body, when the body decoded and
has one. -/
def jsonUrl (json : Option (List (String × String))) : Option String :=
  match json with
  | none => none
  | some fields => fields.lookup "url"

/-- `upload_to_sul` (team_banners.py lines 746-803, identically in
team_banners_lite.py lines 311-367): raise on an empty key or a missing
file before the POST; afterwards a timeout, a connection error, an
HTTP-error status or an absent `url` field all yield `None`, and an
accepted status with a `url` field yields that URL. -/
def upload_to_sul (api_key : String) (fileOnDisk : Bool) (net : NetOutcome) :
    Except UploadPrecondError (Option String) :=
  if api_key = "" then .error .missingKey
  else if !fileOnDisk then .error .fileNotFound
  else
    match net with
    | .timeout => .ok none
    | .connError => .ok none
    | .resp status json =>
      if raise_for_status_raises status then .ok none
      else
        match jsonUrl json with
        | some u => .ok (some u)
        | none => .ok none

/-- `str(url or "")` applied to the outcome of the guarded
`upload_to_sul` call in the main pipeline (a raised precondition error is
caught there and leaves `url = None`). -/
def url_or_empty : Except UploadPrecondError (Option String) → String
  | .ok (some u) => u
  | _ => ""

/-- The upload-and-log loop of `start_script` (team_banners.py lines
1676-1694, identically in team_banners_lite.py lines 447-461): one
`(timestamp, original, renamed, url-or-empty)` tuple is appended per
renamed file, whatever the upload outcome; `ts i` is the timestamp taken
at iteration `i` and `outcome i` the result of the `upload_to_sul` call
for the i-th file. -/
def upload_and_log (ts : Nat → String)
    (outcome : Nat → Except UploadPrecondError (Option String)) :
    List (String × String × FsPath) → Nat → List (String × String × String × String)
  | [], _ => []
  | e :: rest, i =>
    (ts i, e.1, e.2.1, url_or_empty (outcome i)) :: upload_and_log ts outcome rest (i + 1)

/-! ## Helper lemmas -/

theorem countP_partition {α : Type} (p : α → Bool) (l : List α) :
    l.countP p + l.countP (fun a => !(p a)) = l.length := by
  induction l with
  | nil => rfl
  | cons x xs ih =>
    by_cases h : p x = true <;> simp [List.countP_cons, h] <;> omega

theorem get_csv_data_some_cons (header : List String) (rows : List (List String))
    (hne : header ≠ []) :
    get_csv_data (some (header :: rows)) =
      ⟨some header, rows.filter (fun r => r.length == header.length),
       rows.countP (fun r => !(r.length == header.length))⟩ := by
  simp only [get_csv_data, if_neg hne]

theorem get_csv_data_header_none (file : Option Csv) (h : (get_csv_data file).header = none) :
    (get_csv_data file).rows = [] := by
  match file with
  | none => rfl
  | some [] => rfl
  | some (hd :: rest) =>
    by_cases hh : hd = []
    · simp [get_csv_data, hh]
    · simp [get_csv_data, hh] at h

/-! ## Claim theorems -/

/-- Claim C2 (amended): the ledger reader returns `(None, [])` when the file
does not exist or the header row is missing, and exactly then; header
contents are not validated, so a mismatched header does not yield
`(None, [])` (see the counterexample).  Whenever the header comes back
`None`, no rows are surfaced. -/
theorem C2_missing_file_and_header (file : Option Csv) :
    get_csv_data none = ⟨none, [], 0⟩ ∧
    get_csv_data (some []) = ⟨none, [], 0⟩ ∧
    (∀ rest : List (List String), get_csv_data (some ([] :: rest)) = ⟨none, [], 0⟩) ∧
    ((get_csv_data file).header = none ↔
      file = none ∨ file = some [] ∨ ∃ rest, file = some ([] :: rest)) ∧
    ((get_csv_data file).header = none → (get_csv_data file).rows = []) := by
  refine ⟨rfl, rfl, fun rest => by simp [get_csv_data], ?_, get_csv_data_header_none file⟩
  match file with
  | none => simp [get_csv_data]
  | some [] => simp [get_csv_data]
  | some (hd :: rest) =>
    by_cases hh : hd = []
    · subst hh; simp [get_csv_data]
    · simp [get_csv_data, hh]

/-- Claim C2, witness: the characterization applied to a concrete absent
file and a concrete one-row ledger. -/
theorem C2_missing_file_and_header_witness :
    (get_csv_data (none : Option Csv)).header = none ∧
    (get_csv_data (some [["A", "B"], ["x", "y"]])).header ≠ none := by
  constructor
  · exact (C2_missing_file_and_header none).2.2.2.1.mpr (Or.inl rfl)
  · intro h
    rcases (C2_missing_file_and_header (some [["A", "B"], ["x", "y"]])).2.2.2.1.mp h with
      h' | h' | ⟨rest, h'⟩ <;> simp at h'

/-- Claim C2, counterexample to the claim as stated: a ledger whose header
does not match the fixed `Timestamp,Original,Renamed,URL` header is read
as that header plus its well-formed rows, not as `(None, [])`. -/
theorem C2_header_mismatch_counterexample :
    (get_csv_data (some [["Wrong", "Header"], ["x", "y"]])).header = some ["Wrong", "Header"] ∧
    ["Wrong", "Header"] ≠ CSV_HEADER ∧
    (get_csv_data (some [["Wrong", "Header"], ["x", "y"]])).rows = [["x", "y"]] := by
  refine ⟨?_, ?_, ?_⟩ <;> decide

/-- Claim C3: for a CSV with a k-column header, the reader keeps exactly
the data rows with k cells, in file order, and counts the others as
malformed; kept plus malformed accounts for every data row. -/
theorem C3_reader_partition (header : List String) (rows : List (List String))
    (hne : header ≠ []) :
    (get_csv_data (some (header :: rows))).header = some header ∧
    (get_csv_data (some (header :: rows))).rows =
      rows.filter (fun r => r.length == header.length) ∧
    List.Sublist (get_csv_data (some (header :: rows))).rows rows ∧
    (∀ r ∈ (get_csv_data (some (header :: rows))).rows, r.length = header.length) ∧
    (∀ r ∈ rows, r.length = header.length → r ∈ (get_csv_data (some (header :: rows))).rows) ∧
    (get_csv_data (some (header :: rows))).rows.length =
      rows.countP (fun r => r.length == header.length) ∧
    (get_csv_data (some (header :: rows))).malformedCount =
      rows.countP (fun r => !(r.length == header.length)) ∧
    (get_csv_data (some (header :: rows))).rows.length +
      (get_csv_data (some (header :: rows))).malformedCount = rows.length := by
  rw [get_csv_data_some_cons header rows hne]
  refine ⟨rfl, rfl, List.filter_sublist _, ?_, ?_, ?_, rfl, ?_⟩
  · intro r hr
    have := List.of_mem_filter hr
    simpa using this
  · intro r hr hlen
    exact List.mem_filter.mpr ⟨hr, by simpa using hlen⟩
  · exact (List.countP_eq_length_filter _ _).symm
  · rw [← List.countP_eq_length_filter]
    exact countP_partition _ rows

/-- Claim C3, witness: a 4-column header with two well-formed and two
malformed rows interleaved: the two well-formed rows come back in order
and two rows are reported skipped. -/
theorem C3_reader_partition_witness :
    (get_csv_data (some [CSV_HEADER, ["t1", "a", "b", "u"], ["bad"],
      ["t2", "c", "d", "v"], ["x", "y"]])).rows =
      [["t1", "a", "b", "u"], ["t2", "c", "d", "v"]] ∧
    (get_csv_data (some [CSV_HEADER, ["t1", "a", "b", "u"], ["bad"],
      ["t2", "c", "d", "v"], ["x", "y"]])).malformedCount = 2 := by
  have h := C3_reader_partition CSV_HEADER
    [["t1", "a", "b", "u"], ["bad"], ["t2", "c", "d", "v"], ["x", "y"]] (by decide)
  exact ⟨h.2.1.trans (by decide), h.2.2.2.2.2.2.1.trans (by decide)⟩

/-- Claim C4: appending one row to an absent or empty ledger writes the
fixed header first and then the row, and re-reading yields exactly that
header and that single row. -/
theorem C4_append_roundtrip (ts o r u : String) (file : Option Csv)
    (h : file = none ∨ file = some []) :
    write_to_csv file [(ts, o, r, u)] = some (CSV_HEADER :: [[ts, o, r, u]]) ∧
    get_csv_data (write_to_csv file [(ts, o, r, u)]) =
      ⟨some CSV_HEADER, [[ts, o, r, u]], 0⟩ := by
  have hw : write_to_csv file [(ts, o, r, u)] = some (CSV_HEADER :: [[ts, o, r, u]]) := by
    rcases h with h | h <;> subst h <;> rfl
  refine ⟨hw, ?_⟩
  rw [hw]
  rfl

/-- Claim C4, witness: the round trip at the spec's example row on an
absent ledger. -/
theorem C4_append_roundtrip_witness :
    write_to_csv none [("ts1", "a.png", "b.png", "http://x/y")] =
      some [CSV_HEADER, ["ts1", "a.png", "b.png", "http://x/y"]] ∧
    get_csv_data (write_to_csv none [("ts1", "a.png", "b.png", "http://x/y")]) =
      ⟨some CSV_HEADER, [["ts1", "a.png", "b.png", "http://x/y"]], 0⟩ :=
  C4_append_roundtrip "ts1" "a.png" "b.png" "http://x/y" none (Or.inl rfl)

/-- Claim C10: the duplicate-filter scan and the ledger reader disagree on
rows with at least 2 but not exactly 4 cells under a 4-column header: the
reader discards such a row, yet its second cell enters the set of
already-processed originals, so a candidate with that name is filtered
out even though the reader surfaces no row at all. -/
theorem C10_two_readings (h row : List String) (x : String) (hh : h.length = 4)
    (hx : row.get? 1 = some x) (hr : row.length ≠ 4) :
    x ∈ read_uploaded_originals (some [h, row]) ∧
    (get_csv_data (some [h, row])).rows = [] ∧
    (get_csv_data (some [h, row])).malformedCount = 1 ∧
    filter_files [x] (read_uploaded_originals (some [h, row])) = [] := by
  have hne : h ≠ [] := by intro e; subst e; simp at hh
  obtain ⟨a, t, hrow⟩ : ∃ a t, row = a :: x :: t := by
    cases row with
    | nil => simp at hx
    | cons a t1 =>
      cases t1 with
      | nil => simp at hx
      | cons b t =>
        refine ⟨a, t, ?_⟩
        simp at hx
        rw [hx]
  subst hrow
  have horig : read_uploaded_originals (some [h, a :: x :: t]) = [x] := by
    simp [read_uploaded_originals, hne, hh, setAdd]
  have hlen : ((a :: x :: t).length == h.length) = false := by
    rw [hh]
    simpa using hr
  have hgc : get_csv_data (some [h, a :: x :: t]) = ⟨some h, [], 1⟩ := by
    rw [get_csv_data_some_cons h [a :: x :: t] hne]
    simp only [List.length_cons] at hr
    simp [List.filter_cons, List.countP_cons, hlen, hh]
    omega
  refine ⟨by rw [horig]; exact List.mem_singleton.mpr rfl, ?_, ?_, ?_⟩
  · rw [hgc]
  · rw [hgc]
  · rw [horig]
    simp [filter_files]

/-- Claim C10, witness: under the standard header, the two-cell row
`["t", "A.jpg"]` is dropped by the reader but still marks `A.jpg` as
already processed, so candidate `A.jpg` is skipped. -/
theorem C10_two_readings_witness :
    "A.jpg" ∈ read_uploaded_originals (some [CSV_HEADER, ["t", "A.jpg"]]) ∧
    (get_csv_data (some [CSV_HEADER, ["t", "A.jpg"]])).rows = [] ∧
    (get_csv_data (some [CSV_HEADER, ["t", "A.jpg"]])).malformedCount = 1 ∧
    filter_files ["A.jpg"] (read_uploaded_originals (some [CSV_HEADER, ["t", "A.jpg"]])) = [] :=
  C10_two_readings CSV_HEADER ["t", "A.jpg"] "A.jpg" (by decide) (by decide) (by decide)

theorem upload_and_log_length (ts : Nat → String)
    (outcome : Nat → Except UploadPrecondError (Option String))
    (renamed : List (String × String × FsPath)) :
    ∀ i : Nat, (upload_and_log ts outcome renamed i).length = renamed.length := by
  induction renamed with
  | nil => intro i; rfl
  | cons e rest ih => intro i; simpa [upload_and_log] using ih (i + 1)

theorem upload_and_log_get? (ts : Nat → String)
    (outcome : Nat → Except UploadPrecondError (Option String))
    (renamed : List (String × String × FsPath)) :
    ∀ i k : Nat, (upload_and_log ts outcome renamed i).get? k =
      (renamed.get? k).map
        (fun e => (ts (i + k), e.1, e.2.1, url_or_empty (outcome (i + k)))) := by
  induction renamed with
  | nil => intro i k; simp [upload_and_log]
  | cons e rest ih =>
    intro i k
    cases k with
    | zero => simp [upload_and_log]
    | succ k =>
      have h := ih (i + 1) k
      simp only [upload_and_log, List.get?_cons_succ, h]
      have harith : i + 1 + k = i + (k + 1) := by omega
      rw [harith]

/-- Claim C6: in the upload-and-log loop of the main pipeline, exactly one
ledger tuple is produced per renamed file whatever the upload outcome, and
any outcome other than a URL (a `None` return or a caught precondition
error) puts the empty string in the URL column. -/
theorem C6_row_per_file (ts : Nat → String)
    (outcome : Nat → Except UploadPrecondError (Option String))
    (renamed : List (String × String × FsPath)) :
    (upload_and_log ts outcome renamed 0).length = renamed.length ∧
    (∀ k e, renamed.get? k = some e →
      (upload_and_log ts outcome renamed 0).get? k =
        some (ts k, e.1, e.2.1, url_or_empty (outcome k))) ∧
    (∀ r : Except UploadPrecondError (Option String),
      (∀ u, r ≠ .ok (some u)) → url_or_empty r = "") ∧
    (∀ (old : Csv) (t : String × String × String × String)
      (ts2 : List (String × String × String × String)), old ≠ [] →
      write_to_csv (some old) (t :: ts2) =
        some (old ++ (t :: ts2).map (fun e => [e.1, e.2.1, e.2.2.1, e.2.2.2]))) := by
  refine ⟨upload_and_log_length ts outcome renamed 0, ?_, ?_, ?_⟩
  · intro k e he
    have h := upload_and_log_get? ts outcome renamed 0 k
    rw [he] at h
    simpa using h
  · intro r hr
    match r with
    | .ok (some u) => exact absurd rfl (hr u)
    | .ok none => rfl
    | .error _ => rfl
  · intro old t ts' hold
    match old, hold with
    | o :: os, _ => rfl

/-- Claim C6, witness: a single renamed file whose upload fails (`None`)
still produces its ledger tuple, with an empty URL column. -/
theorem C6_row_per_file_witness :
    (upload_and_log (fun _ => "T") (fun _ => Except.ok none)
      [("a.jpg", "b.png", ⟨"Images export", "b.png"⟩)] 0).get? 0 =
      some ("T", "a.jpg", "b.png", "") ∧
    (upload_and_log (fun _ => "T") (fun _ => Except.ok none)
      [("a.jpg", "b.png", ⟨"Images export", "b.png"⟩)] 0).length = 1 ∧
    write_to_csv (some [CSV_HEADER]) (upload_and_log (fun _ => "T") (fun _ => Except.ok none)
      [("a.jpg", "b.png", ⟨"Images export", "b.png"⟩)] 0) =
      some [CSV_HEADER, ["T", "a.jpg", "b.png", ""]] := by
  have h := C6_row_per_file (fun _ => "T") (fun _ => Except.ok none)
    [("a.jpg", "b.png", ⟨"Images export", "b.png"⟩)]
  refine ⟨h.2.1 0 ("a.jpg", "b.png", ⟨"Images export", "b.png"⟩) rfl, h.1, ?_⟩
  exact (h.2.2.2 [CSV_HEADER] ("T", "a.jpg", "b.png", "") [] (by decide)).trans (by decide)

/-- Claim C5 (amended): with a non-empty key and an existing file, the
upload returns the URL exactly when `raise_for_status` does not raise
(status outside 400-599) and the JSON body has a `url` field; timeouts,
connection errors, HTTP-error statuses and missing/undecodable `url`
fields all collapse to a `None` result; an empty key or a missing file is
rejected before the request, independently of the network; the request
itself is a POST to the fixed endpoint with a fixed 60-second timeout. -/
theorem upload_to_sul_ok_key (k : String) (hk : k ≠ "") (net : NetOutcome) :
    upload_to_sul k true net =
      match net with
      | .timeout => .ok none
      | .connError => .ok none
      | .resp status json =>
        if raise_for_status_raises status then .ok none
        else
          match jsonUrl json with
          | some u => .ok (some u)
          | none => .ok none := by
  simp [upload_to_sul, hk]

theorem C5_upload_outcomes (k : String) (hk : k ≠ "") (status : Nat)
    (json : Option (List (String × String))) (u : String) :
    (∀ (fe : Bool) (n1 n2 : NetOutcome),
      upload_to_sul "" fe n1 = .error .missingKey ∧
      upload_to_sul "" fe n1 = upload_to_sul "" fe n2) ∧
    (∀ n1 n2 : NetOutcome,
      upload_to_sul k false n1 = .error .fileNotFound ∧
      upload_to_sul k false n1 = upload_to_sul k false n2) ∧
    (upload_request k).timeoutSeconds = 60 ∧
    (upload_request k).endpointUrl = "https://s-ul.eu/api/v1/upload" ∧
    upload_to_sul k true .timeout = .ok none ∧
    upload_to_sul k true .connError = .ok none ∧
    (raise_for_status_raises status = true →
      upload_to_sul k true (.resp status json) = .ok none) ∧
    (jsonUrl json = none → upload_to_sul k true (.resp status json) = .ok none) ∧
    (upload_to_sul k true (.resp status json) = .ok (some u) ↔
      raise_for_status_raises status = false ∧ jsonUrl json = some u) ∧
    upload_to_sul k true (.resp 200 json) = .ok (jsonUrl json) := by
  refine ⟨fun fe n1 n2 => ⟨by simp [upload_to_sul], by simp [upload_to_sul]⟩,
    fun n1 n2 => ⟨by simp [upload_to_sul, hk], by simp [upload_to_sul, hk]⟩,
    rfl, rfl, by simp [upload_to_sul, hk], by simp [upload_to_sul, hk], ?_, ?_, ?_, ?_⟩
  · intro hs
    simp [upload_to_sul, hk, hs]
  · intro hj
    rw [upload_to_sul_ok_key k hk]
    cases hraise : raise_for_status_raises status <;> simp [hj]
  · rw [upload_to_sul_ok_key k hk]
    cases hraise : raise_for_status_raises status <;> cases hj : jsonUrl json <;>
      simp [hraise, hj]
  · rw [upload_to_sul_ok_key k hk]
    cases hj : jsonUrl json <;> simp [hj, raise_for_status_raises]

/-- Claim C5, witness: the characterization at concrete outcomes: missing
key and missing file rejected up front; a timeout, a 500 status and a
bodyless 200 give `None`; a 200 with a `url` field gives the URL. -/
theorem C5_upload_outcomes_witness :
    upload_to_sul "" true .timeout = .error .missingKey ∧
    upload_to_sul "key" false .timeout = .error .fileNotFound ∧
    upload_to_sul "key" true .timeout = .ok none ∧
    upload_to_sul "key" true (.resp 500 (some [("url", "http://x/y")])) = .ok none ∧
    upload_to_sul "key" true (.resp 200 none) = .ok none ∧
    upload_to_sul "key" true (.resp 200 (some [("url", "http://x/y")])) =
      .ok (some "http://x/y") := by
  have h1 := C5_upload_outcomes "key" (by decide) 500 (some [("url", "http://x/y")]) "http://x/y"
  have h2 := C5_upload_outcomes "key" (by decide) 200 none "http://x/y"
  have h3 := C5_upload_outcomes "key" (by decide) 200 (some [("url", "http://x/y")]) "http://x/y"
  refine ⟨(h1.1 true .timeout .timeout).1, (h1.2.1 .timeout .timeout).1,
    h1.2.2.2.2.1, h1.2.2.2.2.2.2.1 (by decide), h2.2.2.2.2.2.2.2.1 rfl,
    h3.2.2.2.2.2.2.2.2.2.trans (by rfl)⟩

/-- Claim C5, counterexample to the claim as stated: "the URL is returned
exactly when the response is HTTP 200" fails — a 304 response whose JSON
body has a `url` field also returns the URL (`raise_for_status` only
raises for 400-599), so a non-200, non-2xx outcome does not always yield
`None`. -/
theorem C5_non200_url_counterexample :
    upload_to_sul "key" true (.resp 304 (some [("url", "http://x/y")])) =
      .ok (some "http://x/y") ∧ (304 : Nat) ≠ 200 := by
  refine ⟨?_, by decide⟩
  rfl

theorem readFS_cons (e : FsPath × String) (fs : FS) (p : FsPath) :
    readFS (e :: fs) p = if e.1 = p then some e.2 else readFS fs p := by
  by_cases h : e.1 = p
  · simp [readFS, List.find?_cons_of_pos, h]
  · simp [readFS, List.find?_cons_of_neg, h]

theorem existsFS_iff (fs : FS) (p : FsPath) :
    existsFS fs p = true ↔ ∃ e ∈ fs, e.1 = p := by
  simp [existsFS]

theorem readFS_map_update (fs : FS) (q : FsPath) (c : String) (p : FsPath) (h : p ≠ q) :
    readFS (fs.map (fun e => if e.1 = q then (q, c) else e)) p = readFS fs p := by
  induction fs with
  | nil => rfl
  | cons e rest ih =>
    by_cases he : e.1 = q
    · simp only [List.map_cons, if_pos he]
      rw [readFS_cons, readFS_cons]
      rw [if_neg (fun hq => h hq.symm), if_neg (fun hq => h (he ▸ hq).symm)]
      exact ih
    · simp only [List.map_cons, if_neg he]
      rw [readFS_cons, readFS_cons]
      by_cases hep : e.1 = p <;> simp [hep, ih]

theorem readFS_append_one (fs : FS) (q : FsPath) (c : String) (p : FsPath) (h : p ≠ q) :
    readFS (fs ++ [(q, c)]) p = readFS fs p := by
  induction fs with
  | nil =>
    simp only [List.nil_append]
    rw [readFS_cons, if_neg (fun hq => h hq.symm)]
  | cons e rest ih =>
    rw [List.cons_append, readFS_cons, readFS_cons]
    by_cases hep : e.1 = p <;> simp [hep, ih]

theorem readFS_writeFS_ne (fs : FS) (q : FsPath) (c : String) (p : FsPath) (h : p ≠ q) :
    readFS (writeFS fs q c) p = readFS fs p := by
  unfold writeFS
  by_cases hex : existsFS fs q = true
  · rw [if_pos hex]
    exact readFS_map_update fs q c p h
  · rw [if_neg hex]
    exact readFS_append_one fs q c p h

theorem existsFS_writeFS_of (fs : FS) (q : FsPath) (c : String) (p : FsPath)
    (h : existsFS fs p = true) : existsFS (writeFS fs q c) p = true := by
  obtain ⟨e, he, hep⟩ := (existsFS_iff fs p).mp h
  unfold writeFS
  by_cases hex : existsFS fs q = true
  · rw [if_pos hex, existsFS_iff]
    refine ⟨if e.1 = q then (q, c) else e, List.mem_map_of_mem _ he, ?_⟩
    by_cases heq : e.1 = q
    · rw [if_pos heq]
      rw [← heq, hep]
    · rw [if_neg heq]
      exact hep
  · rw [if_neg hex, existsFS_iff]
    exact ⟨e, List.mem_append_left _ he, hep⟩

theorem bulk_conflict_loop_not_exists (fs : FS) (ep nb ext : String) (name : String)
    (counter : Nat) :
    ∀ r : String, bulk_conflict_loop fs ep nb ext name counter = some r →
      existsFS fs ⟨ep, r⟩ = false := by
  induction name, counter using bulk_conflict_loop.induct fs ep nb ext with
  | case1 name counter hmem hc =>
    intro r h
    rw [bulk_conflict_loop] at h
    simp only [if_pos hmem, if_pos hc] at h
    cases h
  | case2 name counter hmem name2 hc ih =>
    intro r h
    rw [bulk_conflict_loop] at h
    simp only [if_pos hmem, if_neg hc] at h
    exact ih r h
  | case3 name counter hmem =>
    intro r h
    rw [bulk_conflict_loop, if_neg hmem] at h
    cases h
    simpa using hmem

theorem bulk_conflict_loop_form (fs : FS) (ep nb ext : String) (name : String)
    (counter : Nat) :
    ∀ r : String, bulk_conflict_loop fs ep nb ext name counter = some r →
      r = name ∨ ∃ n : Nat, counter ≤ n ∧ r = nb ++ "_conflict_" ++ toString n ++ ext := by
  induction name, counter using bulk_conflict_loop.induct fs ep nb ext with
  | case1 name counter hmem hc =>
    intro r h
    rw [bulk_conflict_loop] at h
    simp only [if_pos hmem, if_pos hc] at h
    cases h
  | case2 name counter hmem name2 hc ih =>
    intro r h
    rw [bulk_conflict_loop] at h
    simp only [if_pos hmem, if_neg hc] at h
    rcases ih r h with h1 | ⟨n, hn, he⟩
    · exact Or.inr ⟨counter, Nat.le_refl counter, h1⟩
    · exact Or.inr ⟨n, by omega, he⟩
  | case3 name counter hmem =>
    intro r h
    rw [bulk_conflict_loop, if_neg hmem] at h
    cases h
    exact Or.inl rfl

theorem bulk_conflict_loop_free (fs : FS) (ep nb ext name : String) (counter : Nat)
    (h : existsFS fs ⟨ep, name⟩ = false) :
    bulk_conflict_loop fs ep nb ext name counter = some name := by
  rw [bulk_conflict_loop, if_neg (by simp [h])]

theorem bulk_rename_go_cons (ip ep bn f : String) (rest : List String) (i : Nat) (fs : FS) :
    bulk_rename_go ip ep bn (f :: rest) i fs =
      match readFS fs ⟨ip, f⟩ with
      | none => bulk_rename_go ip ep bn rest (i + 1) fs
      | some content =>
        match bulk_conflict_loop fs ep (bn ++ zeroPad BULK_NUM_DIGITS (i + BULK_START_NUMBER))
            (splitext f).2
            (bn ++ zeroPad BULK_NUM_DIGITS (i + BULK_START_NUMBER) ++ (splitext f).2) 1 with
        | none => bulk_rename_go ip ep bn rest (i + 1) fs
        | some newName =>
          let res := bulk_rename_go ip ep bn rest (i + 1) (writeFS fs ⟨ep, newName⟩ content)
          (res.1, (f, newName, ⟨ep, newName⟩) :: res.2) := rfl

theorem bulk_rename_go_preserves (ip ep bn : String) (files : List String) :
    ∀ (i : Nat) (fs : FS) (p : FsPath), existsFS fs p = true →
      readFS (bulk_rename_go ip ep bn files i fs).1 p = readFS fs p := by
  induction files with
  | nil => intro i fs p _; rfl
  | cons f rest ih =>
    intro i fs p h
    rw [bulk_rename_go_cons]
    split
    · exact ih (i + 1) fs p h
    · split
      · exact ih (i + 1) fs p h
      · rename_i _ content _ _ newName hc
        show readFS (bulk_rename_go ip ep bn rest (i + 1)
          (writeFS fs ⟨ep, newName⟩ content)).1 p = readFS fs p
        have hfresh : existsFS fs ⟨ep, newName⟩ = false :=
          bulk_conflict_loop_not_exists fs ep _ _ _ _ newName hc
        have hne : p ≠ ⟨ep, newName⟩ := by
          intro he
          rw [he] at h
          rw [hfresh] at h
          cases h
        have h2 : existsFS (writeFS fs ⟨ep, newName⟩ content) p = true :=
          existsFS_writeFS_of fs ⟨ep, newName⟩ content p h
        calc readFS (bulk_rename_go ip ep bn rest (i + 1)
              (writeFS fs ⟨ep, newName⟩ content)).1 p
            = readFS (writeFS fs ⟨ep, newName⟩ content) p := ih (i + 1) _ p h2
          _ = readFS fs p := readFS_writeFS_ne fs ⟨ep, newName⟩ content p hne

theorem bulk_rename_go_frame_dir (ip ep bn : String) (files : List String) :
    ∀ (i : Nat) (fs : FS) (p : FsPath), p.dir ≠ ep →
      readFS (bulk_rename_go ip ep bn files i fs).1 p = readFS fs p := by
  induction files with
  | nil => intro i fs p _; rfl
  | cons f rest ih =>
    intro i fs p hp
    rw [bulk_rename_go_cons]
    split
    · exact ih (i + 1) fs p hp
    · split
      · exact ih (i + 1) fs p hp
      · rename_i _ content _ _ newName _
        show readFS (bulk_rename_go ip ep bn rest (i + 1)
          (writeFS fs ⟨ep, newName⟩ content)).1 p = readFS fs p
        have hne : p ≠ ⟨ep, newName⟩ := fun he => hp (congrArg FsPath.dir he)
        calc readFS (bulk_rename_go ip ep bn rest (i + 1)
              (writeFS fs ⟨ep, newName⟩ content)).1 p
            = readFS (writeFS fs ⟨ep, newName⟩ content) p := ih (i + 1) _ p hp
          _ = readFS fs p := readFS_writeFS_ne fs ⟨ep, newName⟩ content p hne

theorem prompt_rename_go_cons (ip ep : String) (nameOf : Nat → String)
    (ow : Nat → Nat → Bool) (f : String) (rest : List String) (i : Nat) (fs : FS) :
    prompt_rename_go ip ep nameOf ow (f :: rest) i fs =
      match readFS fs ⟨ip, f⟩ with
      | none => prompt_rename_go ip ep nameOf ow rest (i + 1) fs
      | some content =>
        match prompt_conflict_loop fs ⟨ip, f⟩ ep
            (if nameOf i = "" then (splitext f).1 else nameOf i) (splitext f).2 (ow i)
            (if nameOf i = "" then f else nameOf i ++ (splitext f).2) 1 with
        | none => prompt_rename_go ip ep nameOf ow rest (i + 1) fs
        | some newName =>
          let res := prompt_rename_go ip ep nameOf ow rest (i + 1)
            (writeFS fs ⟨ep, newName⟩ content)
          (res.1, (f, newName, ⟨ep, newName⟩) :: res.2) := rfl

theorem prompt_rename_go_frame_dir (ip ep : String) (nameOf : Nat → String)
    (ow : Nat → Nat → Bool) (files : List String) :
    ∀ (i : Nat) (fs : FS) (p : FsPath), p.dir ≠ ep →
      readFS (prompt_rename_go ip ep nameOf ow files i fs).1 p = readFS fs p := by
  induction files with
  | nil => intro i fs p _; rfl
  | cons f rest ih =>
    intro i fs p hp
    rw [prompt_rename_go_cons]
    split
    · exact ih (i + 1) fs p hp
    · split
      · exact ih (i + 1) fs p hp
      · rename_i _ content _ _ newName _
        show readFS (prompt_rename_go ip ep nameOf ow rest (i + 1)
          (writeFS fs ⟨ep, newName⟩ content)).1 p = readFS fs p
        have hne : p ≠ ⟨ep, newName⟩ := fun he => hp (congrArg FsPath.dir he)
        calc readFS (prompt_rename_go ip ep nameOf ow rest (i + 1)
              (writeFS fs ⟨ep, newName⟩ content)).1 p
            = readFS (writeFS fs ⟨ep, newName⟩ content) p := ih (i + 1) _ p hp
          _ = readFS fs p := readFS_writeFS_ne fs ⟨ep, newName⟩ content p hne

/-- Claim C9: both rename/copy policies only ever write into the export
directory, so when the import and export directories differ (as the
scripts' `Images import` / `Images export` constants do), every file of
the import directory still has its original content after either step:
sources are copied, never moved, deleted or modified. -/
theorem C9_sources_untouched (ip ep bn : String) (nameOf : Nat → String)
    (ow : Nat → Nat → Bool) (files : List String) (fs : FS) (p : FsPath)
    (hp : p.dir = ip) (hne : ip ≠ ep) :
    readFS (bulk_rename_files ip ep bn files fs).1 p = readFS fs p ∧
    readFS (prompt_rename_images ip ep nameOf ow files fs).1 p = readFS fs p ∧
    IMPORT_FOLDER ≠ EXPORT_FOLDER := by
  have hdir : p.dir ≠ ep := by rw [hp]; exact hne
  exact ⟨bulk_rename_go_frame_dir ip ep bn (sortStrings files) 0 fs p hdir,
    prompt_rename_go_frame_dir ip ep nameOf ow (sortStrings files) 0 fs p hdir,
    by decide⟩

/-- Claim C9, witness: a concrete import file keeps its content through
both the bulk and the interactive step. -/
theorem C9_sources_untouched_witness :
    readFS (bulk_rename_files IMPORT_FOLDER EXPORT_FOLDER "TEAM" ["a.jpg"]
      [(⟨IMPORT_FOLDER, "a.jpg"⟩, "C")]).1 ⟨IMPORT_FOLDER, "a.jpg"⟩ = some "C" ∧
    readFS (prompt_rename_images IMPORT_FOLDER EXPORT_FOLDER (fun _ => "newname")
      (fun _ _ => false) ["a.jpg"]
      [(⟨IMPORT_FOLDER, "a.jpg"⟩, "C")]).1 ⟨IMPORT_FOLDER, "a.jpg"⟩ = some "C" := by
  have h := C9_sources_untouched IMPORT_FOLDER EXPORT_FOLDER "TEAM" (fun _ => "newname")
    (fun _ _ => false) ["a.jpg"] [(⟨IMPORT_FOLDER, "a.jpg"⟩, "C")]
    ⟨IMPORT_FOLDER, "a.jpg"⟩ rfl (by decide)
  exact ⟨h.1.trans (by rfl), h.2.1.trans (by rfl)⟩

/-- Claim C8: in bulk mode a resolved destination name never collides with
an existing export file (the conflict loop only ever returns a free name,
of the `_conflict_N` shape when the generated name was taken), so no
pre-existing file — in particular a pre-existing `TEAM01.jpg` — is ever
overwritten: every file present anywhere before the bulk step still reads
the same afterwards. -/
theorem C8_bulk_no_overwrite (ip ep bn : String) (files : List String) (fs : FS)
    (p : FsPath) (hex : existsFS fs p = true) :
    readFS (bulk_rename_files ip ep bn files fs).1 p = readFS fs p ∧
    (∀ nb ext r, bulk_conflict_loop fs ep nb ext (nb ++ ext) 1 = some r →
      existsFS fs ⟨ep, r⟩ = false) ∧
    (∀ nb ext r, existsFS fs ⟨ep, nb ++ ext⟩ = true →
      bulk_conflict_loop fs ep nb ext (nb ++ ext) 1 = some r →
      ∃ n : Nat, 1 ≤ n ∧ r = nb ++ "_conflict_" ++ toString n ++ ext) := by
  refine ⟨bulk_rename_go_preserves ip ep bn (sortStrings files) 0 fs p hex, ?_, ?_⟩
  · intro nb ext r h
    exact bulk_conflict_loop_not_exists fs ep nb ext (nb ++ ext) 1 r h
  · intro nb ext r hcol h
    rcases bulk_conflict_loop_form fs ep nb ext (nb ++ ext) 1 r h with h1 | ⟨n, hn, he⟩
    · exfalso
      have hfree := bulk_conflict_loop_not_exists fs ep nb ext (nb ++ ext) 1 r h
      rw [h1, hcol] at hfree
      cases hfree
    · exact ⟨n, hn, he⟩

set_option maxHeartbeats 1000000 in
/-- Claim C7 (amended): bulk rename of new files (`bulk_rename_files`)
uses a fixed two-digit zero-padding (`num_digits = 2`) regardless of the
file count; only the separate existing-items flow
(`run_bulk_rename_existing`) derives the width from the item count
(3 items give 1 digit, 11 items give 2 digits). Generated names are
`base ++ zero-padded index ++ original extension` over the candidate
files in sorted order: with 11 files and base `TEAM` the names are
`TEAM01.jpg` through `TEAM11.jpg`, pairwise distinct (no collisions) on
an empty export folder. -/
theorem C7_bulk_padding :
    BULK_NUM_DIGITS = 2 ∧
    num_digits_existing 3 = 1 ∧
    num_digits_existing 11 = 2 ∧
    (bulk_rename_files IMPORT_FOLDER EXPORT_FOLDER "TEAM"
      ["k10.jpg", "k01.jpg", "k02.jpg", "k03.jpg", "k04.jpg", "k05.jpg", "k06.jpg",
       "k07.jpg", "k08.jpg", "k09.jpg", "k11.jpg"]
      [(⟨IMPORT_FOLDER, "k01.jpg"⟩, "c1"),
       (⟨IMPORT_FOLDER, "k02.jpg"⟩, "c2"),
       (⟨IMPORT_FOLDER, "k03.jpg"⟩, "c3"),
       (⟨IMPORT_FOLDER, "k04.jpg"⟩, "c4"),
       (⟨IMPORT_FOLDER, "k05.jpg"⟩, "c5"),
       (⟨IMPORT_FOLDER, "k06.jpg"⟩, "c6"),
       (⟨IMPORT_FOLDER, "k07.jpg"⟩, "c7"),
       (⟨IMPORT_FOLDER, "k08.jpg"⟩, "c8"),
       (⟨IMPORT_FOLDER, "k09.jpg"⟩, "c9"),
       (⟨IMPORT_FOLDER, "k10.jpg"⟩, "c10"),
       (⟨IMPORT_FOLDER, "k11.jpg"⟩, "c11")]).2.map (fun e => (e.1, e.2.1)) =
      [("k01.jpg", "TEAM01.jpg"), ("k02.jpg", "TEAM02.jpg"), ("k03.jpg", "TEAM03.jpg"),
       ("k04.jpg", "TEAM04.jpg"), ("k05.jpg", "TEAM05.jpg"), ("k06.jpg", "TEAM06.jpg"),
       ("k07.jpg", "TEAM07.jpg"), ("k08.jpg", "TEAM08.jpg"), ("k09.jpg", "TEAM09.jpg"),
       ("k10.jpg", "TEAM10.jpg"), ("k11.jpg", "TEAM11.jpg")] ∧
    (((bulk_rename_files IMPORT_FOLDER EXPORT_FOLDER "TEAM"
      ["k10.jpg", "k01.jpg", "k02.jpg", "k03.jpg", "k04.jpg", "k05.jpg", "k06.jpg",
       "k07.jpg", "k08.jpg", "k09.jpg", "k11.jpg"]
      [(⟨IMPORT_FOLDER, "k01.jpg"⟩, "c1"),
       (⟨IMPORT_FOLDER, "k02.jpg"⟩, "c2"),
       (⟨IMPORT_FOLDER, "k03.jpg"⟩, "c3"),
       (⟨IMPORT_FOLDER, "k04.jpg"⟩, "c4"),
       (⟨IMPORT_FOLDER, "k05.jpg"⟩, "c5"),
       (⟨IMPORT_FOLDER, "k06.jpg"⟩, "c6"),
       (⟨IMPORT_FOLDER, "k07.jpg"⟩, "c7"),
       (⟨IMPORT_FOLDER, "k08.jpg"⟩, "c8"),
       (⟨IMPORT_FOLDER, "k09.jpg"⟩, "c9"),
       (⟨IMPORT_FOLDER, "k10.jpg"⟩, "c10"),
       (⟨IMPORT_FOLDER, "k11.jpg"⟩, "c11")]).2.map
      (fun e => (e.1, e.2.1))).map (fun x => x.2)).Nodup := by
  have hmain :
      (bulk_rename_files IMPORT_FOLDER EXPORT_FOLDER "TEAM"
        ["k10.jpg", "k01.jpg", "k02.jpg", "k03.jpg", "k04.jpg", "k05.jpg", "k06.jpg",
         "k07.jpg", "k08.jpg", "k09.jpg", "k11.jpg"]
        [(⟨IMPORT_FOLDER, "k01.jpg"⟩, "c1"),
         (⟨IMPORT_FOLDER, "k02.jpg"⟩, "c2"),
         (⟨IMPORT_FOLDER, "k03.jpg"⟩, "c3"),
         (⟨IMPORT_FOLDER, "k04.jpg"⟩, "c4"),
         (⟨IMPORT_FOLDER, "k05.jpg"⟩, "c5"),
         (⟨IMPORT_FOLDER, "k06.jpg"⟩, "c6"),
         (⟨IMPORT_FOLDER, "k07.jpg"⟩, "c7"),
         (⟨IMPORT_FOLDER, "k08.jpg"⟩, "c8"),
         (⟨IMPORT_FOLDER, "k09.jpg"⟩, "c9"),
         (⟨IMPORT_FOLDER, "k10.jpg"⟩, "c10"),
         (⟨IMPORT_FOLDER, "k11.jpg"⟩, "c11")]).2.map (fun e => (e.1, e.2.1)) =
        [("k01.jpg", "TEAM01.jpg"), ("k02.jpg", "TEAM02.jpg"), ("k03.jpg", "TEAM03.jpg"),
         ("k04.jpg", "TEAM04.jpg"), ("k05.jpg", "TEAM05.jpg"), ("k06.jpg", "TEAM06.jpg"),
         ("k07.jpg", "TEAM07.jpg"), ("k08.jpg", "TEAM08.jpg"), ("k09.jpg", "TEAM09.jpg"),
         ("k10.jpg", "TEAM10.jpg"), ("k11.jpg", "TEAM11.jpg")] := by
    have h11 : bulk_rename_go IMPORT_FOLDER EXPORT_FOLDER "TEAM" [] 11
        [(⟨IMPORT_FOLDER, "k01.jpg"⟩, "c1"),
         (⟨IMPORT_FOLDER, "k02.jpg"⟩, "c2"),
         (⟨IMPORT_FOLDER, "k03.jpg"⟩, "c3"),
         (⟨IMPORT_FOLDER, "k04.jpg"⟩, "c4"),
         (⟨IMPORT_FOLDER, "k05.jpg"⟩, "c5"),
         (⟨IMPORT_FOLDER, "k06.jpg"⟩, "c6"),
         (⟨IMPORT_FOLDER, "k07.jpg"⟩, "c7"),
         (⟨IMPORT_FOLDER, "k08.jpg"⟩, "c8"),
         (⟨IMPORT_FOLDER, "k09.jpg"⟩, "c9"),
         (⟨IMPORT_FOLDER, "k10.jpg"⟩, "c10"),
         (⟨IMPORT_FOLDER, "k11.jpg"⟩, "c11"),
         (⟨EXPORT_FOLDER, "TEAM01.jpg"⟩, "c1"),
         (⟨EXPORT_FOLDER, "TEAM02.jpg"⟩, "c2"),
         (⟨EXPORT_FOLDER, "TEAM03.jpg"⟩, "c3"),
         (⟨EXPORT_FOLDER, "TEAM04.jpg"⟩, "c4"),
         (⟨EXPORT_FOLDER, "TEAM05.jpg"⟩, "c5"),
         (⟨EXPORT_FOLDER, "TEAM06.jpg"⟩, "c6"),
         (⟨EXPORT_FOLDER, "TEAM07.jpg"⟩, "c7"),
         (⟨EXPORT_FOLDER, "TEAM08.jpg"⟩, "c8"),
         (⟨EXPORT_FOLDER, "TEAM09.jpg"⟩, "c9"),
         (⟨EXPORT_FOLDER, "TEAM10.jpg"⟩, "c10"),
         (⟨EXPORT_FOLDER, "TEAM11.jpg"⟩, "c11")] = ([(⟨IMPORT_FOLDER, "k01.jpg"⟩, "c1"),
         (⟨IMPORT_FOLDER, "k02.jpg"⟩, "c2"),
         (⟨IMPORT_FOLDER, "k03.jpg"⟩, "c3"),
         (⟨IMPORT_FOLDER, "k04.jpg"⟩, "c4"),
         (⟨IMPORT_FOLDER, "k05.jpg"⟩, "c5"),
         (⟨IMPORT_FOLDER, "k06.jpg"⟩, "c6"),
         (⟨IMPORT_FOLDER, "k07.jpg"⟩, "c7"),
         (⟨IMPORT_FOLDER, "k08.jpg"⟩, "c8"),
         (⟨IMPORT_FOLDER, "k09.jpg"⟩, "c9"),
         (⟨IMPORT_FOLDER, "k10.jpg"⟩, "c10"),
         (⟨IMPORT_FOLDER, "k11.jpg"⟩, "c11"),
         (⟨EXPORT_FOLDER, "TEAM01.jpg"⟩, "c1"),
         (⟨EXPORT_FOLDER, "TEAM02.jpg"⟩, "c2"),
         (⟨EXPORT_FOLDER, "TEAM03.jpg"⟩, "c3"),
         (⟨EXPORT_FOLDER, "TEAM04.jpg"⟩, "c4"),
         (⟨EXPORT_FOLDER, "TEAM05.jpg"⟩, "c5"),
         (⟨EXPORT_FOLDER, "TEAM06.jpg"⟩, "c6"),
         (⟨EXPORT_FOLDER, "TEAM07.jpg"⟩, "c7"),
         (⟨EXPORT_FOLDER, "TEAM08.jpg"⟩, "c8"),
         (⟨EXPORT_FOLDER, "TEAM09.jpg"⟩, "c9"),
         (⟨EXPORT_FOLDER, "TEAM10.jpg"⟩, "c10"),
         (⟨EXPORT_FOLDER, "TEAM11.jpg"⟩, "c11")], []) := rfl
    have h10 : bulk_rename_go IMPORT_FOLDER EXPORT_FOLDER "TEAM" ["k11.jpg"] 10
        [(⟨IMPORT_FOLDER, "k01.jpg"⟩, "c1"),
         (⟨IMPORT_FOLDER, "k02.jpg"⟩, "c2"),
         (⟨IMPORT_FOLDER, "k03.jpg"⟩, "c3"),
         (⟨IMPORT_FOLDER, "k04.jpg"⟩, "c4"),
         (⟨IMPORT_FOLDER, "k05.jpg"⟩, "c5"),
         (⟨IMPORT_FOLDER, "k06.jpg"⟩, "c6"),
         (⟨IMPORT_FOLDER, "k07.jpg"⟩, "c7"),
         (⟨IMPORT_FOLDER, "k08.jpg"⟩, "c8"),
         (⟨IMPORT_FOLDER, "k09.jpg"⟩, "c9"),
         (⟨IMPORT_FOLDER, "k10.jpg"⟩, "c10"),
         (⟨IMPORT_FOLDER, "k11.jpg"⟩, "c11"),
         (⟨EXPORT_FOLDER, "TEAM01.jpg"⟩, "c1"),
         (⟨EXPORT_FOLDER, "TEAM02.jpg"⟩, "c2"),
         (⟨EXPORT_FOLDER, "TEAM03.jpg"⟩, "c3"),
         (⟨EXPORT_FOLDER, "TEAM04.jpg"⟩, "c4"),
         (⟨EXPORT_FOLDER, "TEAM05.jpg"⟩, "c5"),
         (⟨EXPORT_FOLDER, "TEAM06.jpg"⟩, "c6"),
         (⟨EXPORT_FOLDER, "TEAM07.jpg"⟩, "c7"),
         (⟨EXPORT_FOLDER, "TEAM08.jpg"⟩, "c8"),
         (⟨EXPORT_FOLDER, "TEAM09.jpg"⟩, "c9"),
         (⟨EXPORT_FOLDER, "TEAM10.jpg"⟩, "c10")] =
        ([(⟨IMPORT_FOLDER, "k01.jpg"⟩, "c1"),
         (⟨IMPORT_FOLDER, "k02.jpg"⟩, "c2"),
         (⟨IMPORT_FOLDER, "k03.jpg"⟩, "c3"),
         (⟨IMPORT_FOLDER, "k04.jpg"⟩, "c4"),
         (⟨IMPORT_FOLDER, "k05.jpg"⟩, "c5"),
         (⟨IMPORT_FOLDER, "k06.jpg"⟩, "c6"),
         (⟨IMPORT_FOLDER, "k07.jpg"⟩, "c7"),
         (⟨IMPORT_FOLDER, "k08.jpg"⟩, "c8"),
         (⟨IMPORT_FOLDER, "k09.jpg"⟩, "c9"),
         (⟨IMPORT_FOLDER, "k10.jpg"⟩, "c10"),
         (⟨IMPORT_FOLDER, "k11.jpg"⟩, "c11"),
         (⟨EXPORT_FOLDER, "TEAM01.jpg"⟩, "c1"),
         (⟨EXPORT_FOLDER, "TEAM02.jpg"⟩, "c2"),
         (⟨EXPORT_FOLDER, "TEAM03.jpg"⟩, "c3"),
         (⟨EXPORT_FOLDER, "TEAM04.jpg"⟩, "c4"),
         (⟨EXPORT_FOLDER, "TEAM05.jpg"⟩, "c5"),
         (⟨EXPORT_FOLDER, "TEAM06.jpg"⟩, "c6"),
         (⟨EXPORT_FOLDER, "TEAM07.jpg"⟩, "c7"),
         (⟨EXPORT_FOLDER, "TEAM08.jpg"⟩, "c8"),
         (⟨EXPORT_FOLDER, "TEAM09.jpg"⟩, "c9"),
         (⟨EXPORT_FOLDER, "TEAM10.jpg"⟩, "c10"),
         (⟨EXPORT_FOLDER, "TEAM11.jpg"⟩, "c11")],
         [("k11.jpg", "TEAM11.jpg", ⟨EXPORT_FOLDER, "TEAM11.jpg"⟩)]) := by
      have hr : readFS [(⟨IMPORT_FOLDER, "k01.jpg"⟩, "c1"),
         (⟨IMPORT_FOLDER, "k02.jpg"⟩, "c2"),
         (⟨IMPORT_FOLDER, "k03.jpg"⟩, "c3"),
         (⟨IMPORT_FOLDER, "k04.jpg"⟩, "c4"),
         (⟨IMPORT_FOLDER, "k05.jpg"⟩, "c5"),
         (⟨IMPORT_FOLDER, "k06.jpg"⟩, "c6"),
         (⟨IMPORT_FOLDER, "k07.jpg"⟩, "c7"),
         (⟨IMPORT_FOLDER, "k08.jpg"⟩, "c8"),
         (⟨IMPORT_FOLDER, "k09.jpg"⟩, "c9"),
         (⟨IMPORT_FOLDER, "k10.jpg"⟩, "c10"),
         (⟨IMPORT_FOLDER, "k11.jpg"⟩, "c11"),
         (⟨EXPORT_FOLDER, "TEAM01.jpg"⟩, "c1"),
         (⟨EXPORT_FOLDER, "TEAM02.jpg"⟩, "c2"),
         (⟨EXPORT_FOLDER, "TEAM03.jpg"⟩, "c3"),
         (⟨EXPORT_FOLDER, "TEAM04.jpg"⟩, "c4"),
         (⟨EXPORT_FOLDER, "TEAM05.jpg"⟩, "c5"),
         (⟨EXPORT_FOLDER, "TEAM06.jpg"⟩, "c6"),
         (⟨EXPORT_FOLDER, "TEAM07.jpg"⟩, "c7"),
         (⟨EXPORT_FOLDER, "TEAM08.jpg"⟩, "c8"),
         (⟨EXPORT_FOLDER, "TEAM09.jpg"⟩, "c9"),
         (⟨EXPORT_FOLDER, "TEAM10.jpg"⟩, "c10")] ⟨IMPORT_FOLDER, "k11.jpg"⟩ = some "c11" := by decide
      have hl := bulk_conflict_loop_free [(⟨IMPORT_FOLDER, "k01.jpg"⟩, "c1"),
         (⟨IMPORT_FOLDER, "k02.jpg"⟩, "c2"),
         (⟨IMPORT_FOLDER, "k03.jpg"⟩, "c3"),
         (⟨IMPORT_FOLDER, "k04.jpg"⟩, "c4"),
         (⟨IMPORT_FOLDER, "k05.jpg"⟩, "c5"),
         (⟨IMPORT_FOLDER, "k06.jpg"⟩, "c6"),
         (⟨IMPORT_FOLDER, "k07.jpg"⟩, "c7"),
         (⟨IMPORT_FOLDER, "k08.jpg"⟩, "c8"),
         (⟨IMPORT_FOLDER, "k09.jpg"⟩, "c9"),
         (⟨IMPORT_FOLDER, "k10.jpg"⟩, "c10"),
         (⟨IMPORT_FOLDER, "k11.jpg"⟩, "c11"),
         (⟨EXPORT_FOLDER, "TEAM01.jpg"⟩, "c1"),
         (⟨EXPORT_FOLDER, "TEAM02.jpg"⟩, "c2"),
         (⟨EXPORT_FOLDER, "TEAM03.jpg"⟩, "c3"),
         (⟨EXPORT_FOLDER, "TEAM04.jpg"⟩, "c4"),
         (⟨EXPORT_FOLDER, "TEAM05.jpg"⟩, "c5"),
         (⟨EXPORT_FOLDER, "TEAM06.jpg"⟩, "c6"),
         (⟨EXPORT_FOLDER, "TEAM07.jpg"⟩, "c7"),
         (⟨EXPORT_FOLDER, "TEAM08.jpg"⟩, "c8"),
         (⟨EXPORT_FOLDER, "TEAM09.jpg"⟩, "c9"),
         (⟨EXPORT_FOLDER, "TEAM10.jpg"⟩, "c10")] EXPORT_FOLDER
        ("TEAM" ++ zeroPad BULK_NUM_DIGITS (10 + BULK_START_NUMBER)) ((splitext "k11.jpg").2)
        ("TEAM" ++ zeroPad BULK_NUM_DIGITS (10 + BULK_START_NUMBER) ++ (splitext "k11.jpg").2) 1 (by decide)
      have hw : writeFS [(⟨IMPORT_FOLDER, "k01.jpg"⟩, "c1"),
         (⟨IMPORT_FOLDER, "k02.jpg"⟩, "c2"),
         (⟨IMPORT_FOLDER, "k03.jpg"⟩, "c3"),
         (⟨IMPORT_FOLDER, "k04.jpg"⟩, "c4"),
         (⟨IMPORT_FOLDER, "k05.jpg"⟩, "c5"),
         (⟨IMPORT_FOLDER, "k06.jpg"⟩, "c6"),
         (⟨IMPORT_FOLDER, "k07.jpg"⟩, "c7"),
         (⟨IMPORT_FOLDER, "k08.jpg"⟩, "c8"),
         (⟨IMPORT_FOLDER, "k09.jpg"⟩, "c9"),
         (⟨IMPORT_FOLDER, "k10.jpg"⟩, "c10"),
         (⟨IMPORT_FOLDER, "k11.jpg"⟩, "c11"),
         (⟨EXPORT_FOLDER, "TEAM01.jpg"⟩, "c1"),
         (⟨EXPORT_FOLDER, "TEAM02.jpg"⟩, "c2"),
         (⟨EXPORT_FOLDER, "TEAM03.jpg"⟩, "c3"),
         (⟨EXPORT_FOLDER, "TEAM04.jpg"⟩, "c4"),
         (⟨EXPORT_FOLDER, "TEAM05.jpg"⟩, "c5"),
         (⟨EXPORT_FOLDER, "TEAM06.jpg"⟩, "c6"),
         (⟨EXPORT_FOLDER, "TEAM07.jpg"⟩, "c7"),
         (⟨EXPORT_FOLDER, "TEAM08.jpg"⟩, "c8"),
         (⟨EXPORT_FOLDER, "TEAM09.jpg"⟩, "c9"),
         (⟨EXPORT_FOLDER, "TEAM10.jpg"⟩, "c10")]
          ⟨EXPORT_FOLDER, "TEAM" ++ zeroPad BULK_NUM_DIGITS (10 + BULK_START_NUMBER) ++ (splitext "k11.jpg").2⟩ "c11" =
          [(⟨IMPORT_FOLDER, "k01.jpg"⟩, "c1"),
         (⟨IMPORT_FOLDER, "k02.jpg"⟩, "c2"),
         (⟨IMPORT_FOLDER, "k03.jpg"⟩, "c3"),
         (⟨IMPORT_FOLDER, "k04.jpg"⟩, "c4"),
         (⟨IMPORT_FOLDER, "k05.jpg"⟩, "c5"),
         (⟨IMPORT_FOLDER, "k06.jpg"⟩, "c6"),
         (⟨IMPORT_FOLDER, "k07.jpg"⟩, "c7"),
         (⟨IMPORT_FOLDER, "k08.jpg"⟩, "c8"),
         (⟨IMPORT_FOLDER, "k09.jpg"⟩, "c9"),
         (⟨IMPORT_FOLDER, "k10.jpg"⟩, "c10"),
         (⟨IMPORT_FOLDER, "k11.jpg"⟩, "c11"),
         (⟨EXPORT_FOLDER, "TEAM01.jpg"⟩, "c1"),
         (⟨EXPORT_FOLDER, "TEAM02.jpg"⟩, "c2"),
         (⟨EXPORT_FOLDER, "TEAM03.jpg"⟩, "c3"),
         (⟨EXPORT_FOLDER, "TEAM04.jpg"⟩, "c4"),
         (⟨EXPORT_FOLDER, "TEAM05.jpg"⟩, "c5"),
         (⟨EXPORT_FOLDER, "TEAM06.jpg"⟩, "c6"),
         (⟨EXPORT_FOLDER, "TEAM07.jpg"⟩, "c7"),
         (⟨EXPORT_FOLDER, "TEAM08.jpg"⟩, "c8"),
         (⟨EXPORT_FOLDER, "TEAM09.jpg"⟩, "c9"),
         (⟨EXPORT_FOLDER, "TEAM10.jpg"⟩, "c10"),
         (⟨EXPORT_FOLDER, "TEAM11.jpg"⟩, "c11")] := by decide
      simp only [bulk_rename_go_cons, hr, hl, hw, show (10 : Nat) + 1 = 11 from rfl, h11]
      decide
    have h9 : bulk_rename_go IMPORT_FOLDER EXPORT_FOLDER "TEAM" ["k10.jpg", "k11.jpg"] 9
        [(⟨IMPORT_FOLDER, "k01.jpg"⟩, "c1"),
         (⟨IMPORT_FOLDER, "k02.jpg"⟩, "c2"),
         (⟨IMPORT_FOLDER, "k03.jpg"⟩, "c3"),
         (⟨IMPORT_FOLDER, "k04.jpg"⟩, "c4"),
         (⟨IMPORT_FOLDER, "k05.jpg"⟩, "c5"),
         (⟨IMPORT_FOLDER, "k06.jpg"⟩, "c6"),
         (⟨IMPORT_FOLDER, "k07.jpg"⟩, "c7"),
         (⟨IMPORT_FOLDER, "k08.jpg"⟩, "c8"),
         (⟨IMPORT_FOLDER, "k09.jpg"⟩, "c9"),
         (⟨IMPORT_FOLDER, "k10.jpg"⟩, "c10"),
         (⟨IMPORT_FOLDER, "k11.jpg"⟩, "c11"),
         (⟨EXPORT_FOLDER, "TEAM01.jpg"⟩, "c1"),
         (⟨EXPORT_FOLDER, "TEAM02.jpg"⟩, "c2"),
         (⟨EXPORT_FOLDER, "TEAM03.jpg"⟩, "c3"),
         (⟨EXPORT_FOLDER, "TEAM04.jpg"⟩, "c4"),
         (⟨EXPORT_FOLDER, "TEAM05.jpg"⟩, "c5"),
         (⟨EXPORT_FOLDER, "TEAM06.jpg"⟩, "c6"),
         (⟨EXPORT_FOLDER, "TEAM07.jpg"⟩, "c7"),
         (⟨EXPORT_FOLDER, "TEAM08.jpg"⟩, "c8"),
         (⟨EXPORT_FOLDER, "TEAM09.jpg"⟩, "c9")] =
        ([(⟨IMPORT_FOLDER, "k01.jpg"⟩, "c1"),
         (⟨IMPORT_FOLDER, "k02.jpg"⟩, "c2"),
         (⟨IMPORT_FOLDER, "k03.jpg"⟩, "c3"),
         (⟨IMPORT_FOLDER, "k04.jpg"⟩, "c4"),
         (⟨IMPORT_FOLDER, "k05.jpg"⟩, "c5"),
         (⟨IMPORT_FOLDER, "k06.jpg"⟩, "c6"),
         (⟨IMPORT_FOLDER, "k07.jpg"⟩, "c7"),
         (⟨IMPORT_FOLDER, "k08.jpg"⟩, "c8"),
         (⟨IMPORT_FOLDER, "k09.jpg"⟩, "c9"),
         (⟨IMPORT_FOLDER, "k10.jpg"⟩, "c10"),
         (⟨IMPORT_FOLDER, "k11.jpg"⟩, "c11"),
         (⟨EXPORT_FOLDER, "TEAM01.jpg"⟩, "c1"),
         (⟨EXPORT_FOLDER, "TEAM02.jpg"⟩, "c2"),
         (⟨EXPORT_FOLDER, "TEAM03.jpg"⟩, "c3"),
         (⟨EXPORT_FOLDER, "TEAM04.jpg"⟩, "c4"),
         (⟨EXPORT_FOLDER, "TEAM05.jpg"⟩, "c5"),
         (⟨EXPORT_FOLDER, "TEAM06.jpg"⟩, "c6"),
         (⟨EXPORT_FOLDER, "TEAM07.jpg"⟩, "c7"),
         (⟨EXPORT_FOLDER, "TEAM08.jpg"⟩, "c8"),
         (⟨EXPORT_FOLDER, "TEAM09.jpg"⟩, "c9"),
         (⟨EXPORT_FOLDER, "TEAM10.jpg"⟩, "c10"),
         (⟨EXPORT_FOLDER, "TEAM11.jpg"⟩, "c11")],
         [("k10.jpg", "TEAM10.jpg", ⟨EXPORT_FOLDER, "TEAM10.jpg"⟩), ("k11.jpg", "TEAM11.jpg", ⟨EXPORT_FOLDER, "TEAM11.jpg"⟩)]) := by
      have hr : readFS [(⟨IMPORT_FOLDER, "k01.jpg"⟩, "c1"),
         (⟨IMPORT_FOLDER, "k02.jpg"⟩, "c2"),
         (⟨IMPORT_FOLDER, "k03.jpg"⟩, "c3"),
         (⟨IMPORT_FOLDER, "k04.jpg"⟩, "c4"),
         (⟨IMPORT_FOLDER, "k05.jpg"⟩, "c5"),
         (⟨IMPORT_FOLDER, "k06.jpg"⟩, "c6"),
         (⟨IMPORT_FOLDER, "k07.jpg"⟩, "c7"),
         (⟨IMPORT_FOLDER, "k08.jpg"⟩, "c8"),
         (⟨IMPORT_FOLDER, "k09.jpg"⟩, "c9"),
         (⟨IMPORT_FOLDER, "k10.jpg"⟩, "c10"),
         (⟨IMPORT_FOLDER, "k11.jpg"⟩, "c11"),
         (⟨EXPORT_FOLDER, "TEAM01.jpg"⟩, "c1"),
         (⟨EXPORT_FOLDER, "TEAM02.jpg"⟩, "c2"),
         (⟨EXPORT_FOLDER, "TEAM03.jpg"⟩, "c3"),
         (⟨EXPORT_FOLDER, "TEAM04.jpg"⟩, "c4"),
         (⟨EXPORT_FOLDER, "TEAM05.jpg"⟩, "c5"),
         (⟨EXPORT_FOLDER, "TEAM06.jpg"⟩, "c6"),
         (⟨EXPORT_FOLDER, "TEAM07.jpg"⟩, "c7"),
         (⟨EXPORT_FOLDER, "TEAM08.jpg"⟩, "c8"),
         (⟨EXPORT_FOLDER, "TEAM09.jpg"⟩, "c9")] ⟨IMPORT_FOLDER, "k10.jpg"⟩ = some "c10" := by decide
      have hl := bulk_conflict_loop_free [(⟨IMPORT_FOLDER, "k01.jpg"⟩, "c1"),
         (⟨IMPORT_FOLDER, "k02.jpg"⟩, "c2"),
         (⟨IMPORT_FOLDER, "k03.jpg"⟩, "c3"),
         (⟨IMPORT_FOLDER, "k04.jpg"⟩, "c4"),
         (⟨IMPORT_FOLDER, "k05.jpg"⟩, "c5"),
         (⟨IMPORT_FOLDER, "k06.jpg"⟩, "c6"),
         (⟨IMPORT_FOLDER, "k07.jpg"⟩, "c7"),
         (⟨IMPORT_FOLDER, "k08.jpg"⟩, "c8"),
         (⟨IMPORT_FOLDER, "k09.jpg"⟩, "c9"),
         (⟨IMPORT_FOLDER, "k10.jpg"⟩, "c10"),
         (⟨IMPORT_FOLDER, "k11.jpg"⟩, "c11"),
         (⟨EXPORT_FOLDER, "TEAM01.jpg"⟩, "c1"),
         (⟨EXPORT_FOLDER, "TEAM02.jpg"⟩, "c2"),
         (⟨EXPORT_FOLDER, "TEAM03.jpg"⟩, "c3"),
         (⟨EXPORT_FOLDER, "TEAM04.jpg"⟩, "c4"),
         (⟨EXPORT_FOLDER, "TEAM05.jpg"⟩, "c5"),
         (⟨EXPORT_FOLDER, "TEAM06.jpg"⟩, "c6"),
         (⟨EXPORT_FOLDER, "TEAM07.jpg"⟩, "c7"),
         (⟨EXPORT_FOLDER, "TEAM08.jpg"⟩, "c8"),
         (⟨EXPORT_FOLDER, "TEAM09.jpg"⟩, "c9")] EXPORT_FOLDER
        ("TEAM" ++ zeroPad BULK_NUM_DIGITS (9 + BULK_START_NUMBER)) ((splitext "k10.jpg").2)
        ("TEAM" ++ zeroPad BULK_NUM_DIGITS (9 + BULK_START_NUMBER) ++ (splitext "k10.jpg").2) 1 (by decide)
      have hw : writeFS [(⟨IMPORT_FOLDER, "k01.jpg"⟩, "c1"),
         (⟨IMPORT_FOLDER, "k02.jpg"⟩, "c2"),
         (⟨IMPORT_FOLDER, "k03.jpg"⟩, "c3"),
         (⟨IMPORT_FOLDER, "k04.jpg"⟩, "c4"),
         (⟨IMPORT_FOLDER, "k05.jpg"⟩, "c5"),
         (⟨IMPORT_FOLDER, "k06.jpg"⟩, "c6"),
         (⟨IMPORT_FOLDER, "k07.jpg"⟩, "c7"),
         (⟨IMPORT_FOLDER, "k08.jpg"⟩, "c8"),
         (⟨IMPORT_FOLDER, "k09.jpg"⟩, "c9"),
         (⟨IMPORT_FOLDER, "k10.jpg"⟩, "c10"),
         (⟨IMPORT_FOLDER, "k11.jpg"⟩, "c11"),
         (⟨EXPORT_FOLDER, "TEAM01.jpg"⟩, "c1"),
         (⟨EXPORT_FOLDER, "TEAM02.jpg"⟩, "c2"),
         (⟨EXPORT_FOLDER, "TEAM03.jpg"⟩, "c3"),
         (⟨EXPORT_FOLDER, "TEAM04.jpg"⟩, "c4"),
         (⟨EXPORT_FOLDER, "TEAM05.jpg"⟩, "c5"),
         (⟨EXPORT_FOLDER, "TEAM06.jpg"⟩, "c6"),
         (⟨EXPORT_FOLDER, "TEAM07.jpg"⟩, "c7"),
         (⟨EXPORT_FOLDER, "TEAM08.jpg"⟩, "c8"),
         (⟨EXPORT_FOLDER, "TEAM09.jpg"⟩, "c9")]
          ⟨EXPORT_FOLDER, "TEAM" ++ zeroPad BULK_NUM_DIGITS (9 + BULK_START_NUMBER) ++ (splitext "k10.jpg").2⟩ "c10" =
          [(⟨IMPORT_FOLDER, "k01.jpg"⟩, "c1"),
         (⟨IMPORT_FOLDER, "k02.jpg"⟩, "c2"),
         (⟨IMPORT_FOLDER, "k03.jpg"⟩, "c3"),
         (⟨IMPORT_FOLDER, "k04.jpg"⟩, "c4"),
         (⟨IMPORT_FOLDER, "k05.jpg"⟩, "c5"),
         (⟨IMPORT_FOLDER, "k06.jpg"⟩, "c6"),
         (⟨IMPORT_FOLDER, "k07.jpg"⟩, "c7"),
         (⟨IMPORT_FOLDER, "k08.jpg"⟩, "c8"),
         (⟨IMPORT_FOLDER, "k09.jpg"⟩, "c9"),
         (⟨IMPORT_FOLDER, "k10.jpg"⟩, "c10"),
         (⟨IMPORT_FOLDER, "k11.jpg"⟩, "c11"),
         (⟨EXPORT_FOLDER, "TEAM01.jpg"⟩, "c1"),
         (⟨EXPORT_FOLDER, "TEAM02.jpg"⟩, "c2"),
         (⟨EXPORT_FOLDER, "TEAM03.jpg"⟩, "c3"),
         (⟨EXPORT_FOLDER, "TEAM04.jpg"⟩, "c4"),
         (⟨EXPORT_FOLDER, "TEAM05.jpg"⟩, "c5"),
         (⟨EXPORT_FOLDER, "TEAM06.jpg"⟩, "c6"),
         (⟨EXPORT_FOLDER, "TEAM07.jpg"⟩, "c7"),
         (⟨EXPORT_FOLDER, "TEAM08.jpg"⟩, "c8"),
         (⟨EXPORT_FOLDER, "TEAM09.jpg"⟩, "c9"),
         (⟨EXPORT_FOLDER, "TEAM10.jpg"⟩, "c10")] := by decide
      simp only [bulk_rename_go_cons, hr, hl, hw, show (9 : Nat) + 1 = 10 from rfl, h10]
      decide
    have h8 : bulk_rename_go IMPORT_FOLDER EXPORT_FOLDER "TEAM" ["k09.jpg", "k10.jpg", "k11.jpg"] 8
        [(⟨IMPORT_FOLDER, "k01.jpg"⟩, "c1"),
         (⟨IMPORT_FOLDER, "k02.jpg"⟩, "c2"),
         (⟨IMPORT_FOLDER, "k03.jpg"⟩, "c3"),
         (⟨IMPORT_FOLDER, "k04.jpg"⟩, "c4"),
         (⟨IMPORT_FOLDER, "k05.jpg"⟩, "c5"),
         (⟨IMPORT_FOLDER, "k06.jpg"⟩, "c6"),
         (⟨IMPORT_FOLDER, "k07.jpg"⟩, "c7"),
         (⟨IMPORT_FOLDER, "k08.jpg"⟩, "c8"),
         (⟨IMPORT_FOLDER, "k09.jpg"⟩, "c9"),
         (⟨IMPORT_FOLDER, "k10.jpg"⟩, "c10"),
         (⟨IMPORT_FOLDER, "k11.jpg"⟩, "c11"),
         (⟨EXPORT_FOLDER, "TEAM01.jpg"⟩, "c1"),
         (⟨EXPORT_FOLDER, "TEAM02.jpg"⟩, "c2"),
         (⟨EXPORT_FOLDER, "TEAM03.jpg"⟩, "c3"),
         (⟨EXPORT_FOLDER, "TEAM04.jpg"⟩, "c4"),
         (⟨EXPORT_FOLDER, "TEAM05.jpg"⟩, "c5"),
         (⟨EXPORT_FOLDER, "TEAM06.jpg"⟩, "c6"),
         (⟨EXPORT_FOLDER, "TEAM07.jpg"⟩, "c7"),
         (⟨EXPORT_FOLDER, "TEAM08.jpg"⟩, "c8")] =
        ([(⟨IMPORT_FOLDER, "k01.jpg"⟩, "c1"),
         (⟨IMPORT_FOLDER, "k02.jpg"⟩, "c2"),
         (⟨IMPORT_FOLDER, "k03.jpg"⟩, "c3"),
         (⟨IMPORT_FOLDER, "k04.jpg"⟩, "c4"),
         (⟨IMPORT_FOLDER, "k05.jpg"⟩, "c5"),
         (⟨IMPORT_FOLDER, "k06.jpg"⟩, "c6"),
         (⟨IMPORT_FOLDER, "k07.jpg"⟩, "c7"),
         (⟨IMPORT_FOLDER, "k08.jpg"⟩, "c8"),
         (⟨IMPORT_FOLDER, "k09.jpg"⟩, "c9"),
         (⟨IMPORT_FOLDER, "k10.jpg"⟩, "c10"),
         (⟨IMPORT_FOLDER, "k11.jpg"⟩, "c11"),
         (⟨EXPORT_FOLDER, "TEAM01.jpg"⟩, "c1"),
         (⟨EXPORT_FOLDER, "TEAM02.jpg"⟩, "c2"),
         (⟨EXPORT_FOLDER, "TEAM03.jpg"⟩, "c3"),
         (⟨EXPORT_FOLDER, "TEAM04.jpg"⟩, "c4"),
         (⟨EXPORT_FOLDER, "TEAM05.jpg"⟩, "c5"),
         (⟨EXPORT_FOLDER, "TEAM06.jpg"⟩, "c6"),
         (⟨EXPORT_FOLDER, "TEAM07.jpg"⟩, "c7"),
         (⟨EXPORT_FOLDER, "TEAM08.jpg"⟩, "c8"),
         (⟨EXPORT_FOLDER, "TEAM09.jpg"⟩, "c9"),
         (⟨EXPORT_FOLDER, "TEAM10.jpg"⟩, "c10"),
         (⟨EXPORT_FOLDER, "TEAM11.jpg"⟩, "c11")],
         [("k09.jpg", "TEAM09.jpg", ⟨EXPORT_FOLDER, "TEAM09.jpg"⟩), ("k10.jpg", "TEAM10.jpg", ⟨EXPORT_FOLDER, "TEAM10.jpg"⟩), ("k11.jpg", "TEAM11.jpg", ⟨EXPORT_FOLDER, "TEAM11.jpg"⟩)]) := by
      have hr : readFS [(⟨IMPORT_FOLDER, "k01.jpg"⟩, "c1"),
         (⟨IMPORT_FOLDER, "k02.jpg"⟩, "c2"),
         (⟨IMPORT_FOLDER, "k03.jpg"⟩, "c3"),
         (⟨IMPORT_FOLDER, "k04.jpg"⟩, "c4"),
         (⟨IMPORT_FOLDER, "k05.jpg"⟩, "c5"),
         (⟨IMPORT_FOLDER, "k06.jpg"⟩, "c6"),
         (⟨IMPORT_FOLDER, "k07.jpg"⟩, "c7"),
         (⟨IMPORT_FOLDER, "k08.jpg"⟩, "c8"),
         (⟨IMPORT_FOLDER, "k09.jpg"⟩, "c9"),
         (⟨IMPORT_FOLDER, "k10.jpg"⟩, "c10"),
         (⟨IMPORT_FOLDER, "k11.jpg"⟩, "c11"),
         (⟨EXPORT_FOLDER, "TEAM01.jpg"⟩, "c1"),
         (⟨EXPORT_FOLDER, "TEAM02.jpg"⟩, "c2"),
         (⟨EXPORT_FOLDER, "TEAM03.jpg"⟩, "c3"),
         (⟨EXPORT_FOLDER, "TEAM04.jpg"⟩, "c4"),
         (⟨EXPORT_FOLDER, "TEAM05.jpg"⟩, "c5"),
         (⟨EXPORT_FOLDER, "TEAM06.jpg"⟩, "c6"),
         (⟨EXPORT_FOLDER, "TEAM07.jpg"⟩, "c7"),
         (⟨EXPORT_FOLDER, "TEAM08.jpg"⟩, "c8")] ⟨IMPORT_FOLDER, "k09.jpg"⟩ = some "c9" := by decide
      have hl := bulk_conflict_loop_free [(⟨IMPORT_FOLDER, "k01.jpg"⟩, "c1"),
         (⟨IMPORT_FOLDER, "k02.jpg"⟩, "c2"),
         (⟨IMPORT_FOLDER, "k03.jpg"⟩, "c3"),
         (⟨IMPORT_FOLDER, "k04.jpg"⟩, "c4"),
         (⟨IMPORT_FOLDER, "k05.jpg"⟩, "c5"),
         (⟨IMPORT_FOLDER, "k06.jpg"⟩, "c6"),
         (⟨IMPORT_FOLDER, "k07.jpg"⟩, "c7"),
         (⟨IMPORT_FOLDER, "k08.jpg"⟩, "c8"),
         (⟨IMPORT_FOLDER, "k09.jpg"⟩, "c9"),
         (⟨IMPORT_FOLDER, "k10.jpg"⟩, "c10"),
         (⟨IMPORT_FOLDER, "k11.jpg"⟩, "c11"),
         (⟨EXPORT_FOLDER, "TEAM01.jpg"⟩, "c1"),
         (⟨EXPORT_FOLDER, "TEAM02.jpg"⟩, "c2"),
         (⟨EXPORT_FOLDER, "TEAM03.jpg"⟩, "c3"),
         (⟨EXPORT_FOLDER, "TEAM04.jpg"⟩, "c4"),
         (⟨EXPORT_FOLDER, "TEAM05.jpg"⟩, "c5"),
         (⟨EXPORT_FOLDER, "TEAM06.jpg"⟩, "c6"),
         (⟨EXPORT_FOLDER, "TEAM07.jpg"⟩, "c7"),
         (⟨EXPORT_FOLDER, "TEAM08.jpg"⟩, "c8")] EXPORT_FOLDER
        ("TEAM" ++ zeroPad BULK_NUM_DIGITS (8 + BULK_START_NUMBER)) ((splitext "k09.jpg").2)
        ("TEAM" ++ zeroPad BULK_NUM_DIGITS (8 + BULK_START_NUMBER) ++ (splitext "k09.jpg").2) 1 (by decide)
      have hw : writeFS [(⟨IMPORT_FOLDER, "k01.jpg"⟩, "c1"),
         (⟨IMPORT_FOLDER, "k02.jpg"⟩, "c2"),
         (⟨IMPORT_FOLDER, "k03.jpg"⟩, "c3"),
         (⟨IMPORT_FOLDER, "k04.jpg"⟩, "c4"),
         (⟨IMPORT_FOLDER, "k05.jpg"⟩, "c5"),
         (⟨IMPORT_FOLDER, "k06.jpg"⟩, "c6"),
         (⟨IMPORT_FOLDER, "k07.jpg"⟩, "c7"),
         (⟨IMPORT_FOLDER, "k08.jpg"⟩, "c8"),
         (⟨IMPORT_FOLDER, "k09.jpg"⟩, "c9"),
         (⟨IMPORT_FOLDER, "k10.jpg"⟩, "c10"),
         (⟨IMPORT_FOLDER, "k11.jpg"⟩, "c11"),
         (⟨EXPORT_FOLDER, "TEAM01.jpg"⟩, "c1"),
         (⟨EXPORT_FOLDER, "TEAM02.jpg"⟩, "c2"),
         (⟨EXPORT_FOLDER, "TEAM03.jpg"⟩, "c3"),
         (⟨EXPORT_FOLDER, "TEAM04.jpg"⟩, "c4"),
         (⟨EXPORT_FOLDER, "TEAM05.jpg"⟩, "c5"),
         (⟨EXPORT_FOLDER, "TEAM06.jpg"⟩, "c6"),
         (⟨EXPORT_FOLDER, "TEAM07.jpg"⟩, "c7"),
         (⟨EXPORT_FOLDER, "TEAM08.jpg"⟩, "c8")]
          ⟨EXPORT_FOLDER, "TEAM" ++ zeroPad BULK_NUM_DIGITS (8 + BULK_START_NUMBER) ++ (splitext "k09.jpg").2⟩ "c9" =
          [(⟨IMPORT_FOLDER, "k01.jpg"⟩, "c1"),
         (⟨IMPORT_FOLDER, "k02.jpg"⟩, "c2"),
         (⟨IMPORT_FOLDER, "k03.jpg"⟩, "c3"),
         (⟨IMPORT_FOLDER, "k04.jpg"⟩, "c4"),
         (⟨IMPORT_FOLDER, "k05.jpg"⟩, "c5"),
         (⟨IMPORT_FOLDER, "k06.jpg"⟩, "c6"),
         (⟨IMPORT_FOLDER, "k07.jpg"⟩, "c7"),
         (⟨IMPORT_FOLDER, "k08.jpg"⟩, "c8"),
         (⟨IMPORT_FOLDER, "k09.jpg"⟩, "c9"),
         (⟨IMPORT_FOLDER, "k10.jpg"⟩, "c10"),
         (⟨IMPORT_FOLDER, "k11.jpg"⟩, "c11"),
         (⟨EXPORT_FOLDER, "TEAM01.jpg"⟩, "c1"),
         (⟨EXPORT_FOLDER, "TEAM02.jpg"⟩, "c2"),
         (⟨EXPORT_FOLDER, "TEAM03.jpg"⟩, "c3"),
         (⟨EXPORT_FOLDER, "TEAM04.jpg"⟩, "c4"),
         (⟨EXPORT_FOLDER, "TEAM05.jpg"⟩, "c5"),
         (⟨EXPORT_FOLDER, "TEAM06.jpg"⟩, "c6"),
         (⟨EXPORT_FOLDER, "TEAM07.jpg"⟩, "c7"),
         (⟨EXPORT_FOLDER, "TEAM08.jpg"⟩, "c8"),
         (⟨EXPORT_FOLDER, "TEAM09.jpg"⟩, "c9")] := by decide
      simp only [bulk_rename_go_cons, hr, hl, hw, show (8 : Nat) + 1 = 9 from rfl, h9]
      decide
    have h7 : bulk_rename_go IMPORT_FOLDER EXPORT_FOLDER "TEAM" ["k08.jpg", "k09.jpg", "k10.jpg", "k11.jpg"] 7
        [(⟨IMPORT_FOLDER, "k01.jpg"⟩, "c1"),
         (⟨IMPORT_FOLDER, "k02.jpg"⟩, "c2"),
         (⟨IMPORT_FOLDER, "k03.jpg"⟩, "c3"),
         (⟨IMPORT_FOLDER, "k04.jpg"⟩, "c4"),
         (⟨IMPORT_FOLDER, "k05.jpg"⟩, "c5"),
         (⟨IMPORT_FOLDER, "k06.jpg"⟩, "c6"),
         (⟨IMPORT_FOLDER, "k07.jpg"⟩, "c7"),
         (⟨IMPORT_FOLDER, "k08.jpg"⟩, "c8"),
         (⟨IMPORT_FOLDER, "k09.jpg"⟩, "c9"),
         (⟨IMPORT_FOLDER, "k10.jpg"⟩, "c10"),
         (⟨IMPORT_FOLDER, "k11.jpg"⟩, "c11"),
         (⟨EXPORT_FOLDER, "TEAM01.jpg"⟩, "c1"),
         (⟨EXPORT_FOLDER, "TEAM02.jpg"⟩, "c2"),
         (⟨EXPORT_FOLDER, "TEAM03.jpg"⟩, "c3"),
         (⟨EXPORT_FOLDER, "TEAM04.jpg"⟩, "c4"),
         (⟨EXPORT_FOLDER, "TEAM05.jpg"⟩, "c5"),
         (⟨EXPORT_FOLDER, "TEAM06.jpg"⟩, "c6"),
         (⟨EXPORT_FOLDER, "TEAM07.jpg"⟩, "c7")] =
        ([(⟨IMPORT_FOLDER, "k01.jpg"⟩, "c1"),
         (⟨IMPORT_FOLDER, "k02.jpg"⟩, "c2"),
         (⟨IMPORT_FOLDER, "k03.jpg"⟩, "c3"),
         (⟨IMPORT_FOLDER, "k04.jpg"⟩, "c4"),
         (⟨IMPORT_FOLDER, "k05.jpg"⟩, "c5"),
         (⟨IMPORT_FOLDER, "k06.jpg"⟩, "c6"),
         (⟨IMPORT_FOLDER, "k07.jpg"⟩, "c7"),
         (⟨IMPORT_FOLDER, "k08.jpg"⟩, "c8"),
         (⟨IMPORT_FOLDER, "k09.jpg"⟩, "c9"),
         (⟨IMPORT_FOLDER, "k10.jpg"⟩, "c10"),
         (⟨IMPORT_FOLDER, "k11.jpg"⟩, "c11"),
         (⟨EXPORT_FOLDER, "TEAM01.jpg"⟩, "c1"),
         (⟨EXPORT_FOLDER, "TEAM02.jpg"⟩, "c2"),
         (⟨EXPORT_FOLDER, "TEAM03.jpg"⟩, "c3"),
         (⟨EXPORT_FOLDER, "TEAM04.jpg"⟩, "c4"),
         (⟨EXPORT_FOLDER, "TEAM05.jpg"⟩, "c5"),
         (⟨EXPORT_FOLDER, "TEAM06.jpg"⟩, "c6"),
         (⟨EXPORT_FOLDER, "TEAM07.jpg"⟩, "c7"),
         (⟨EXPORT_FOLDER, "TEAM08.jpg"⟩, "c8"),
         (⟨EXPORT_FOLDER, "TEAM09.jpg"⟩, "c9"),
         (⟨EXPORT_FOLDER, "TEAM10.jpg"⟩, "c10"),
         (⟨EXPORT_FOLDER, "TEAM11.jpg"⟩, "c11")],
         [("k08.jpg", "TEAM08.jpg", ⟨EXPORT_FOLDER, "TEAM08.jpg"⟩), ("k09.jpg", "TEAM09.jpg", ⟨EXPORT_FOLDER, "TEAM09.jpg"⟩), ("k10.jpg", "TEAM10.jpg", ⟨EXPORT_FOLDER, "TEAM10.jpg"⟩), ("k11.jpg", "TEAM11.jpg", ⟨EXPORT_FOLDER, "TEAM11.jpg"⟩)]) := by
      have hr : readFS [(⟨IMPORT_FOLDER, "k01.jpg"⟩, "c1"),
         (⟨IMPORT_FOLDER, "k02.jpg"⟩, "c2"),
         (⟨IMPORT_FOLDER, "k03.jpg"⟩, "c3"),
         (⟨IMPORT_FOLDER, "k04.jpg"⟩, "c4"),
         (⟨IMPORT_FOLDER, "k05.jpg"⟩, "c5"),
         (⟨IMPORT_FOLDER, "k06.jpg"⟩, "c6"),
         (⟨IMPORT_FOLDER, "k07.jpg"⟩, "c7"),
         (⟨IMPORT_FOLDER, "k08.jpg"⟩, "c8"),
         (⟨IMPORT_FOLDER, "k09.jpg"⟩, "c9"),
         (⟨IMPORT_FOLDER, "k10.jpg"⟩, "c10"),
         (⟨IMPORT_FOLDER, "k11.jpg"⟩, "c11"),
         (⟨EXPORT_FOLDER, "TEAM01.jpg"⟩, "c1"),
         (⟨EXPORT_FOLDER, "TEAM02.jpg"⟩, "c2"),
         (⟨EXPORT_FOLDER, "TEAM03.jpg"⟩, "c3"),
         (⟨EXPORT_FOLDER, "TEAM04.jpg"⟩, "c4"),
         (⟨EXPORT_FOLDER, "TEAM05.jpg"⟩, "c5"),
         (⟨EXPORT_FOLDER, "TEAM06.jpg"⟩, "c6"),
         (⟨EXPORT_FOLDER, "TEAM07.jpg"⟩, "c7")] ⟨IMPORT_FOLDER, "k08.jpg"⟩ = some "c8" := by decide
      have hl := bulk_conflict_loop_free [(⟨IMPORT_FOLDER, "k01.jpg"⟩, "c1"),
         (⟨IMPORT_FOLDER, "k02.jpg"⟩, "c2"),
         (⟨IMPORT_FOLDER, "k03.jpg"⟩, "c3"),
         (⟨IMPORT_FOLDER, "k04.jpg"⟩, "c4"),
         (⟨IMPORT_FOLDER, "k05.jpg"⟩, "c5"),
         (⟨IMPORT_FOLDER, "k06.jpg"⟩, "c6"),
         (⟨IMPORT_FOLDER, "k07.jpg"⟩, "c7"),
         (⟨IMPORT_FOLDER, "k08.jpg"⟩, "c8"),
         (⟨IMPORT_FOLDER, "k09.jpg"⟩, "c9"),
         (⟨IMPORT_FOLDER, "k10.jpg"⟩, "c10"),
         (⟨IMPORT_FOLDER, "k11.jpg"⟩, "c11"),
         (⟨EXPORT_FOLDER, "TEAM01.jpg"⟩, "c1"),
         (⟨EXPORT_FOLDER, "TEAM02.jpg"⟩, "c2"),
         (⟨EXPORT_FOLDER, "TEAM03.jpg"⟩, "c3"),
         (⟨EXPORT_FOLDER, "TEAM04.jpg"⟩, "c4"),
         (⟨EXPORT_FOLDER, "TEAM05.jpg"⟩, "c5"),
         (⟨EXPORT_FOLDER, "TEAM06.jpg"⟩, "c6"),
         (⟨EXPORT_FOLDER, "TEAM07.jpg"⟩, "c7")] EXPORT_FOLDER
        ("TEAM" ++ zeroPad BULK_NUM_DIGITS (7 + BULK_START_NUMBER)) ((splitext "k08.jpg").2)
        ("TEAM" ++ zeroPad BULK_NUM_DIGITS (7 + BULK_START_NUMBER) ++ (splitext "k08.jpg").2) 1 (by decide)
      have hw : writeFS [(⟨IMPORT_FOLDER, "k01.jpg"⟩, "c1"),
         (⟨IMPORT_FOLDER, "k02.jpg"⟩, "c2"),
         (⟨IMPORT_FOLDER, "k03.jpg"⟩, "c3"),
         (⟨IMPORT_FOLDER, "k04.jpg"⟩, "c4"),
         (⟨IMPORT_FOLDER, "k05.jpg"⟩, "c5"),
         (⟨IMPORT_FOLDER, "k06.jpg"⟩, "c6"),
         (⟨IMPORT_FOLDER, "k07.jpg"⟩, "c7"),
         (⟨IMPORT_FOLDER, "k08.jpg"⟩, "c8"),
         (⟨IMPORT_FOLDER, "k09.jpg"⟩, "c9"),
         (⟨IMPORT_FOLDER, "k10.jpg"⟩, "c10"),
         (⟨IMPORT_FOLDER, "k11.jpg"⟩, "c11"),
         (⟨EXPORT_FOLDER, "TEAM01.jpg"⟩, "c1"),
         (⟨EXPORT_FOLDER, "TEAM02.jpg"⟩, "c2"),
         (⟨EXPORT_FOLDER, "TEAM03.jpg"⟩, "c3"),
         (⟨EXPORT_FOLDER, "TEAM04.jpg"⟩, "c4"),
         (⟨EXPORT_FOLDER, "TEAM05.jpg"⟩, "c5"),
         (⟨EXPORT_FOLDER, "TEAM06.jpg"⟩, "c6"),
         (⟨EXPORT_FOLDER, "TEAM07.jpg"⟩, "c7")]
          ⟨EXPORT_FOLDER, "TEAM" ++ zeroPad BULK_NUM_DIGITS (7 + BULK_START_NUMBER) ++ (splitext "k08.jpg").2⟩ "c8" =
          [(⟨IMPORT_FOLDER, "k01.jpg"⟩, "c1"),
         (⟨IMPORT_FOLDER, "k02.jpg"⟩, "c2"),
         (⟨IMPORT_FOLDER, "k03.jpg"⟩, "c3"),
         (⟨IMPORT_FOLDER, "k04.jpg"⟩, "c4"),
         (⟨IMPORT_FOLDER, "k05.jpg"⟩, "c5"),
         (⟨IMPORT_FOLDER, "k06.jpg"⟩, "c6"),
         (⟨IMPORT_FOLDER, "k07.jpg"⟩, "c7"),
         (⟨IMPORT_FOLDER, "k08.jpg"⟩, "c8"),
         (⟨IMPORT_FOLDER, "k09.jpg"⟩, "c9"),
         (⟨IMPORT_FOLDER, "k10.jpg"⟩, "c10"),
         (⟨IMPORT_FOLDER, "k11.jpg"⟩, "c11"),
         (⟨EXPORT_FOLDER, "TEAM01.jpg"⟩, "c1"),
         (⟨EXPORT_FOLDER, "TEAM02.jpg"⟩, "c2"),
         (⟨EXPORT_FOLDER, "TEAM03.jpg"⟩, "c3"),
         (⟨EXPORT_FOLDER, "TEAM04.jpg"⟩, "c4"),
         (⟨EXPORT_FOLDER, "TEAM05.jpg"⟩, "c5"),
         (⟨EXPORT_FOLDER, "TEAM06.jpg"⟩, "c6"),
         (⟨EXPORT_FOLDER, "TEAM07.jpg"⟩, "c7"),
         (⟨EXPORT_FOLDER, "TEAM08.jpg"⟩, "c8")] := by decide
      simp only [bulk_rename_go_cons, hr, hl, hw, show (7 : Nat) + 1 = 8 from rfl, h8]
      decide
    have h6 : bulk_rename_go IMPORT_FOLDER EXPORT_FOLDER "TEAM" ["k07.jpg", "k08.jpg", "k09.jpg", "k10.jpg", "k11.jpg"] 6
        [(⟨IMPORT_FOLDER, "k01.jpg"⟩, "c1"),
         (⟨IMPORT_FOLDER, "k02.jpg"⟩, "c2"),
         (⟨IMPORT_FOLDER, "k03.jpg"⟩, "c3"),
         (⟨IMPORT_FOLDER, "k04.jpg"⟩, "c4"),
         (⟨IMPORT_FOLDER, "k05.jpg"⟩, "c5"),
         (⟨IMPORT_FOLDER, "k06.jpg"⟩, "c6"),
         (⟨IMPORT_FOLDER, "k07.jpg"⟩, "c7"),
         (⟨IMPORT_FOLDER, "k08.jpg"⟩, "c8"),
         (⟨IMPORT_FOLDER, "k09.jpg"⟩, "c9"),
         (⟨IMPORT_FOLDER, "k10.jpg"⟩, "c10"),
         (⟨IMPORT_FOLDER, "k11.jpg"⟩, "c11"),
         (⟨EXPORT_FOLDER, "TEAM01.jpg"⟩, "c1"),
         (⟨EXPORT_FOLDER, "TEAM02.jpg"⟩, "c2"),
         (⟨EXPORT_FOLDER, "TEAM03.jpg"⟩, "c3"),
         (⟨EXPORT_FOLDER, "TEAM04.jpg"⟩, "c4"),
         (⟨EXPORT_FOLDER, "TEAM05.jpg"⟩, "c5"),
         (⟨EXPORT_FOLDER, "TEAM06.jpg"⟩, "c6")] =
        ([(⟨IMPORT_FOLDER, "k01.jpg"⟩, "c1"),
         (⟨IMPORT_FOLDER, "k02.jpg"⟩, "c2"),
         (⟨IMPORT_FOLDER, "k03.jpg"⟩, "c3"),
         (⟨IMPORT_FOLDER, "k04.jpg"⟩, "c4"),
         (⟨IMPORT_FOLDER, "k05.jpg"⟩, "c5"),
         (⟨IMPORT_FOLDER, "k06.jpg"⟩, "c6"),
         (⟨IMPORT_FOLDER, "k07.jpg"⟩, "c7"),
         (⟨IMPORT_FOLDER, "k08.jpg"⟩, "c8"),
         (⟨IMPORT_FOLDER, "k09.jpg"⟩, "c9"),
         (⟨IMPORT_FOLDER, "k10.jpg"⟩, "c10"),
         (⟨IMPORT_FOLDER, "k11.jpg"⟩, "c11"),
         (⟨EXPORT_FOLDER, "TEAM01.jpg"⟩, "c1"),
         (⟨EXPORT_FOLDER, "TEAM02.jpg"⟩, "c2"),
         (⟨EXPORT_FOLDER, "TEAM03.jpg"⟩, "c3"),
         (⟨EXPORT_FOLDER, "TEAM04.jpg"⟩, "c4"),
         (⟨EXPORT_FOLDER, "TEAM05.jpg"⟩, "c5"),
         (⟨EXPORT_FOLDER, "TEAM06.jpg"⟩, "c6"),
         (⟨EXPORT_FOLDER, "TEAM07.jpg"⟩, "c7"),
         (⟨EXPORT_FOLDER, "TEAM08.jpg"⟩, "c8"),
         (⟨EXPORT_FOLDER, "TEAM09.jpg"⟩, "c9"),
         (⟨EXPORT_FOLDER, "TEAM10.jpg"⟩, "c10"),
         (⟨EXPORT_FOLDER, "TEAM11.jpg"⟩, "c11")],
         [("k07.jpg", "TEAM07.jpg", ⟨EXPORT_FOLDER, "TEAM07.jpg"⟩), ("k08.jpg", "TEAM08.jpg", ⟨EXPORT_FOLDER, "TEAM08.jpg"⟩), ("k09.jpg", "TEAM09.jpg", ⟨EXPORT_FOLDER, "TEAM09.jpg"⟩), ("k10.jpg", "TEAM10.jpg", ⟨EXPORT_FOLDER, "TEAM10.jpg"⟩), ("k11.jpg", "TEAM11.jpg", ⟨EXPORT_FOLDER, "TEAM11.jpg"⟩)]) := by
      have hr : readFS [(⟨IMPORT_FOLDER, "k01.jpg"⟩, "c1"),
         (⟨IMPORT_FOLDER, "k02.jpg"⟩, "c2"),
         (⟨IMPORT_FOLDER, "k03.jpg"⟩, "c3"),
         (⟨IMPORT_FOLDER, "k04.jpg"⟩, "c4"),
         (⟨IMPORT_FOLDER, "k05.jpg"⟩, "c5"),
         (⟨IMPORT_FOLDER, "k06.jpg"⟩, "c6"),
         (⟨IMPORT_FOLDER, "k07.jpg"⟩, "c7"),
         (⟨IMPORT_FOLDER, "k08.jpg"⟩, "c8"),
         (⟨IMPORT_FOLDER, "k09.jpg"⟩, "c9"),
         (⟨IMPORT_FOLDER, "k10.jpg"⟩, "c10"),
         (⟨IMPORT_FOLDER, "k11.jpg"⟩, "c11"),
         (⟨EXPORT_FOLDER, "TEAM01.jpg"⟩, "c1"),
         (⟨EXPORT_FOLDER, "TEAM02.jpg"⟩, "c2"),
         (⟨EXPORT_FOLDER, "TEAM03.jpg"⟩, "c3"),
         (⟨EXPORT_FOLDER, "TEAM04.jpg"⟩, "c4"),
         (⟨EXPORT_FOLDER, "TEAM05.jpg"⟩, "c5"),
         (⟨EXPORT_FOLDER, "TEAM06.jpg"⟩, "c6")] ⟨IMPORT_FOLDER, "k07.jpg"⟩ = some "c7" := by decide
      have hl := bulk_conflict_loop_free [(⟨IMPORT_FOLDER, "k01.jpg"⟩, "c1"),
         (⟨IMPORT_FOLDER, "k02.jpg"⟩, "c2"),
         (⟨IMPORT_FOLDER, "k03.jpg"⟩, "c3"),
         (⟨IMPORT_FOLDER, "k04.jpg"⟩, "c4"),
         (⟨IMPORT_FOLDER, "k05.jpg"⟩, "c5"),
         (⟨IMPORT_FOLDER, "k06.jpg"⟩, "c6"),
         (⟨IMPORT_FOLDER, "k07.jpg"⟩, "c7"),
         (⟨IMPORT_FOLDER, "k08.jpg"⟩, "c8"),
         (⟨IMPORT_FOLDER, "k09.jpg"⟩, "c9"),
         (⟨IMPORT_FOLDER, "k10.jpg"⟩, "c10"),
         (⟨IMPORT_FOLDER, "k11.jpg"⟩, "c11"),
         (⟨EXPORT_FOLDER, "TEAM01.jpg"⟩, "c1"),
         (⟨EXPORT_FOLDER, "TEAM02.jpg"⟩, "c2"),
         (⟨EXPORT_FOLDER, "TEAM03.jpg"⟩, "c3"),
         (⟨EXPORT_FOLDER, "TEAM04.jpg"⟩, "c4"),
         (⟨EXPORT_FOLDER, "TEAM05.jpg"⟩, "c5"),
         (⟨EXPORT_FOLDER, "TEAM06.jpg"⟩, "c6")] EXPORT_FOLDER
        ("TEAM" ++ zeroPad BULK_NUM_DIGITS (6 + BULK_START_NUMBER)) ((splitext "k07.jpg").2)
        ("TEAM" ++ zeroPad BULK_NUM_DIGITS (6 + BULK_START_NUMBER) ++ (splitext "k07.jpg").2) 1 (by decide)
      have hw : writeFS [(⟨IMPORT_FOLDER, "k01.jpg"⟩, "c1"),
         (⟨IMPORT_FOLDER, "k02.jpg"⟩, "c2"),
         (⟨IMPORT_FOLDER, "k03.jpg"⟩, "c3"),
         (⟨IMPORT_FOLDER, "k04.jpg"⟩, "c4"),
         (⟨IMPORT_FOLDER, "k05.jpg"⟩, "c5"),
         (⟨IMPORT_FOLDER, "k06.jpg"⟩, "c6"),
         (⟨IMPORT_FOLDER, "k07.jpg"⟩, "c7"),
         (⟨IMPORT_FOLDER, "k08.jpg"⟩, "c8"),
         (⟨IMPORT_FOLDER, "k09.jpg"⟩, "c9"),
         (⟨IMPORT_FOLDER, "k10.jpg"⟩, "c10"),
         (⟨IMPORT_FOLDER, "k11.jpg"⟩, "c11"),
         (⟨EXPORT_FOLDER, "TEAM01.jpg"⟩, "c1"),
         (⟨EXPORT_FOLDER, "TEAM02.jpg"⟩, "c2"),
         (⟨EXPORT_FOLDER, "TEAM03.jpg"⟩, "c3"),
         (⟨EXPORT_FOLDER, "TEAM04.jpg"⟩, "c4"),
         (⟨EXPORT_FOLDER, "TEAM05.jpg"⟩, "c5"),
         (⟨EXPORT_FOLDER, "TEAM06.jpg"⟩, "c6")]
          ⟨EXPORT_FOLDER, "TEAM" ++ zeroPad BULK_NUM_DIGITS (6 + BULK_START_NUMBER) ++ (splitext "k07.jpg").2⟩ "c7" =
          [(⟨IMPORT_FOLDER, "k01.jpg"⟩, "c1"),
         (⟨IMPORT_FOLDER, "k02.jpg"⟩, "c2"),
         (⟨IMPORT_FOLDER, "k03.jpg"⟩, "c3"),
         (⟨IMPORT_FOLDER, "k04.jpg"⟩, "c4"),
         (⟨IMPORT_FOLDER, "k05.jpg"⟩, "c5"),
         (⟨IMPORT_FOLDER, "k06.jpg"⟩, "c6"),
         (⟨IMPORT_FOLDER, "k07.jpg"⟩, "c7"),
         (⟨IMPORT_FOLDER, "k08.jpg"⟩, "c8"),
         (⟨IMPORT_FOLDER, "k09.jpg"⟩, "c9"),
         (⟨IMPORT_FOLDER, "k10.jpg"⟩, "c10"),
         (⟨IMPORT_FOLDER, "k11.jpg"⟩, "c11"),
         (⟨EXPORT_FOLDER, "TEAM01.jpg"⟩, "c1"),
         (⟨EXPORT_FOLDER, "TEAM02.jpg"⟩, "c2"),
         (⟨EXPORT_FOLDER, "TEAM03.jpg"⟩, "c3"),
         (⟨EXPORT_FOLDER, "TEAM04.jpg"⟩, "c4"),
         (⟨EXPORT_FOLDER, "TEAM05.jpg"⟩, "c5"),
         (⟨EXPORT_FOLDER, "TEAM06.jpg"⟩, "c6"),
         (⟨EXPORT_FOLDER, "TEAM07.jpg"⟩, "c7")] := by decide
      simp only [bulk_rename_go_cons, hr, hl, hw, show (6 : Nat) + 1 = 7 from rfl, h7]
      decide
    have h5 : bulk_rename_go IMPORT_FOLDER EXPORT_FOLDER "TEAM" ["k06.jpg", "k07.jpg", "k08.jpg", "k09.jpg", "k10.jpg", "k11.jpg"] 5
        [(⟨IMPORT_FOLDER, "k01.jpg"⟩, "c1"),
         (⟨IMPORT_FOLDER, "k02.jpg"⟩, "c2"),
         (⟨IMPORT_FOLDER, "k03.jpg"⟩, "c3"),
         (⟨IMPORT_FOLDER, "k04.jpg"⟩, "c4"),
         (⟨IMPORT_FOLDER, "k05.jpg"⟩, "c5"),
         (⟨IMPORT_FOLDER, "k06.jpg"⟩, "c6"),
         (⟨IMPORT_FOLDER, "k07.jpg"⟩, "c7"),
         (⟨IMPORT_FOLDER, "k08.jpg"⟩, "c8"),
         (⟨IMPORT_FOLDER, "k09.jpg"⟩, "c9"),
         (⟨IMPORT_FOLDER, "k10.jpg"⟩, "c10"),
         (⟨IMPORT_FOLDER, "k11.jpg"⟩, "c11"),
         (⟨EXPORT_FOLDER, "TEAM01.jpg"⟩, "c1"),
         (⟨EXPORT_FOLDER, "TEAM02.jpg"⟩, "c2"),
         (⟨EXPORT_FOLDER, "TEAM03.jpg"⟩, "c3"),
         (⟨EXPORT_FOLDER, "TEAM04.jpg"⟩, "c4"),
         (⟨EXPORT_FOLDER, "TEAM05.jpg"⟩, "c5")] =
        ([(⟨IMPORT_FOLDER, "k01.jpg"⟩, "c1"),
         (⟨IMPORT_FOLDER, "k02.jpg"⟩, "c2"),
         (⟨IMPORT_FOLDER, "k03.jpg"⟩, "c3"),
         (⟨IMPORT_FOLDER, "k04.jpg"⟩, "c4"),
         (⟨IMPORT_FOLDER, "k05.jpg"⟩, "c5"),
         (⟨IMPORT_FOLDER, "k06.jpg"⟩, "c6"),
         (⟨IMPORT_FOLDER, "k07.jpg"⟩, "c7"),
         (⟨IMPORT_FOLDER, "k08.jpg"⟩, "c8"),
         (⟨IMPORT_FOLDER, "k09.jpg"⟩, "c9"),
         (⟨IMPORT_FOLDER, "k10.jpg"⟩, "c10"),
         (⟨IMPORT_FOLDER, "k11.jpg"⟩, "c11"),
         (⟨EXPORT_FOLDER, "TEAM01.jpg"⟩, "c1"),
         (⟨EXPORT_FOLDER, "TEAM02.jpg"⟩, "c2"),
         (⟨EXPORT_FOLDER, "TEAM03.jpg"⟩, "c3"),
         (⟨EXPORT_FOLDER, "TEAM04.jpg"⟩, "c4"),
         (⟨EXPORT_FOLDER, "TEAM05.jpg"⟩, "c5"),
         (⟨EXPORT_FOLDER, "TEAM06.jpg"⟩, "c6"),
         (⟨EXPORT_FOLDER, "TEAM07.jpg"⟩, "c7"),
         (⟨EXPORT_FOLDER, "TEAM08.jpg"⟩, "c8"),
         (⟨EXPORT_FOLDER, "TEAM09.jpg"⟩, "c9"),
         (⟨EXPORT_FOLDER, "TEAM10.jpg"⟩, "c10"),
         (⟨EXPORT_FOLDER, "TEAM11.jpg"⟩, "c11")],
         [("k06.jpg", "TEAM06.jpg", ⟨EXPORT_FOLDER, "TEAM06.jpg"⟩), ("k07.jpg", "TEAM07.jpg", ⟨EXPORT_FOLDER, "TEAM07.jpg"⟩), ("k08.jpg", "TEAM08.jpg", ⟨EXPORT_FOLDER, "TEAM08.jpg"⟩), ("k09.jpg", "TEAM09.jpg", ⟨EXPORT_FOLDER, "TEAM09.jpg"⟩), ("k10.jpg", "TEAM10.jpg", ⟨EXPORT_FOLDER, "TEAM10.jpg"⟩), ("k11.jpg", "TEAM11.jpg", ⟨EXPORT_FOLDER, "TEAM11.jpg"⟩)]) := by
      have hr : readFS [(⟨IMPORT_FOLDER, "k01.jpg"⟩, "c1"),
         (⟨IMPORT_FOLDER, "k02.jpg"⟩, "c2"),
         (⟨IMPORT_FOLDER, "k03.jpg"⟩, "c3"),
         (⟨IMPORT_FOLDER, "k04.jpg"⟩, "c4"),
         (⟨IMPORT_FOLDER, "k05.jpg"⟩, "c5"),
         (⟨IMPORT_FOLDER, "k06.jpg"⟩, "c6"),
         (⟨IMPORT_FOLDER, "k07.jpg"⟩, "c7"),
         (⟨IMPORT_FOLDER, "k08.jpg"⟩, "c8"),
         (⟨IMPORT_FOLDER, "k09.jpg"⟩, "c9"),
         (⟨IMPORT_FOLDER, "k10.jpg"⟩, "c10"),
         (⟨IMPORT_FOLDER, "k11.jpg"⟩, "c11"),
         (⟨EXPORT_FOLDER, "TEAM01.jpg"⟩, "c1"),
         (⟨EXPORT_FOLDER, "TEAM02.jpg"⟩, "c2"),
         (⟨EXPORT_FOLDER, "TEAM03.jpg"⟩, "c3"),
         (⟨EXPORT_FOLDER, "TEAM04.jpg"⟩, "c4"),
         (⟨EXPORT_FOLDER, "TEAM05.jpg"⟩, "c5")] ⟨IMPORT_FOLDER, "k06.jpg"⟩ = some "c6" := by decide
      have hl := bulk_conflict_loop_free [(⟨IMPORT_FOLDER, "k01.jpg"⟩, "c1"),
         (⟨IMPORT_FOLDER, "k02.jpg"⟩, "c2"),
         (⟨IMPORT_FOLDER, "k03.jpg"⟩, "c3"),
         (⟨IMPORT_FOLDER, "k04.jpg"⟩, "c4"),
         (⟨IMPORT_FOLDER, "k05.jpg"⟩, "c5"),
         (⟨IMPORT_FOLDER, "k06.jpg"⟩, "c6"),
         (⟨IMPORT_FOLDER, "k07.jpg"⟩, "c7"),
         (⟨IMPORT_FOLDER, "k08.jpg"⟩, "c8"),
         (⟨IMPORT_FOLDER, "k09.jpg"⟩, "c9"),
         (⟨IMPORT_FOLDER, "k10.jpg"⟩, "c10"),
         (⟨IMPORT_FOLDER, "k11.jpg"⟩, "c11"),
         (⟨EXPORT_FOLDER, "TEAM01.jpg"⟩, "c1"),
         (⟨EXPORT_FOLDER, "TEAM02.jpg"⟩, "c2"),
         (⟨EXPORT_FOLDER, "TEAM03.jpg"⟩, "c3"),
         (⟨EXPORT_FOLDER, "TEAM04.jpg"⟩, "c4"),
         (⟨EXPORT_FOLDER, "TEAM05.jpg"⟩, "c5")] EXPORT_FOLDER
        ("TEAM" ++ zeroPad BULK_NUM_DIGITS (5 + BULK_START_NUMBER)) ((splitext "k06.jpg").2)
        ("TEAM" ++ zeroPad BULK_NUM_DIGITS (5 + BULK_START_NUMBER) ++ (splitext "k06.jpg").2) 1 (by decide)
      have hw : writeFS [(⟨IMPORT_FOLDER, "k01.jpg"⟩, "c1"),
         (⟨IMPORT_FOLDER, "k02.jpg"⟩, "c2"),
         (⟨IMPORT_FOLDER, "k03.jpg"⟩, "c3"),
         (⟨IMPORT_FOLDER, "k04.jpg"⟩, "c4"),
         (⟨IMPORT_FOLDER, "k05.jpg"⟩, "c5"),
         (⟨IMPORT_FOLDER, "k06.jpg"⟩, "c6"),
         (⟨IMPORT_FOLDER, "k07.jpg"⟩, "c7"),
         (⟨IMPORT_FOLDER, "k08.jpg"⟩, "c8"),
         (⟨IMPORT_FOLDER, "k09.jpg"⟩, "c9"),
         (⟨IMPORT_FOLDER, "k10.jpg"⟩, "c10"),
         (⟨IMPORT_FOLDER, "k11.jpg"⟩, "c11"),
         (⟨EXPORT_FOLDER, "TEAM01.jpg"⟩, "c1"),
         (⟨EXPORT_FOLDER, "TEAM02.jpg"⟩, "c2"),
         (⟨EXPORT_FOLDER, "TEAM03.jpg"⟩, "c3"),
         (⟨EXPORT_FOLDER, "TEAM04.jpg"⟩, "c4"),
         (⟨EXPORT_FOLDER, "TEAM05.jpg"⟩, "c5")]
          ⟨EXPORT_FOLDER, "TEAM" ++ zeroPad BULK_NUM_DIGITS (5 + BULK_START_NUMBER) ++ (splitext "k06.jpg").2⟩ "c6" =
          [(⟨IMPORT_FOLDER, "k01.jpg"⟩, "c1"),
         (⟨IMPORT_FOLDER, "k02.jpg"⟩, "c2"),
         (⟨IMPORT_FOLDER, "k03.jpg"⟩, "c3"),
         (⟨IMPORT_FOLDER, "k04.jpg"⟩, "c4"),
         (⟨IMPORT_FOLDER, "k05.jpg"⟩, "c5"),
         (⟨IMPORT_FOLDER, "k06.jpg"⟩, "c6"),
         (⟨IMPORT_FOLDER, "k07.jpg"⟩, "c7"),
         (⟨IMPORT_FOLDER, "k08.jpg"⟩, "c8"),
         (⟨IMPORT_FOLDER, "k09.jpg"⟩, "c9"),
         (⟨IMPORT_FOLDER, "k10.jpg"⟩, "c10"),
         (⟨IMPORT_FOLDER, "k11.jpg"⟩, "c11"),
         (⟨EXPORT_FOLDER, "TEAM01.jpg"⟩, "c1"),
         (⟨EXPORT_FOLDER, "TEAM02.jpg"⟩, "c2"),
         (⟨EXPORT_FOLDER, "TEAM03.jpg"⟩, "c3"),
         (⟨EXPORT_FOLDER, "TEAM04.jpg"⟩, "c4"),
         (⟨EXPORT_FOLDER, "TEAM05.jpg"⟩, "c5"),
         (⟨EXPORT_FOLDER, "TEAM06.jpg"⟩, "c6")] := by decide
      simp only [bulk_rename_go_cons, hr, hl, hw, show (5 : Nat) + 1 = 6 from rfl, h6]
      decide
    have h4 : bulk_rename_go IMPORT_FOLDER EXPORT_FOLDER "TEAM" ["k05.jpg", "k06.jpg", "k07.jpg", "k08.jpg", "k09.jpg", "k10.jpg", "k11.jpg"] 4
        [(⟨IMPORT_FOLDER, "k01.jpg"⟩, "c1"),
         (⟨IMPORT_FOLDER, "k02.jpg"⟩, "c2"),
         (⟨IMPORT_FOLDER, "k03.jpg"⟩, "c3"),
         (⟨IMPORT_FOLDER, "k04.jpg"⟩, "c4"),
         (⟨IMPORT_FOLDER, "k05.jpg"⟩, "c5"),
         (⟨IMPORT_FOLDER, "k06.jpg"⟩, "c6"),
         (⟨IMPORT_FOLDER, "k07.jpg"⟩, "c7"),
         (⟨IMPORT_FOLDER, "k08.jpg"⟩, "c8"),
         (⟨IMPORT_FOLDER, "k09.jpg"⟩, "c9"),
         (⟨IMPORT_FOLDER, "k10.jpg"⟩, "c10"),
         (⟨IMPORT_FOLDER, "k11.jpg"⟩, "c11"),
         (⟨EXPORT_FOLDER, "TEAM01.jpg"⟩, "c1"),
         (⟨EXPORT_FOLDER, "TEAM02.jpg"⟩, "c2"),
         (⟨EXPORT_FOLDER, "TEAM03.jpg"⟩, "c3"),
         (⟨EXPORT_FOLDER, "TEAM04.jpg"⟩, "c4")] =
        ([(⟨IMPORT_FOLDER, "k01.jpg"⟩, "c1"),
         (⟨IMPORT_FOLDER, "k02.jpg"⟩, "c2"),
         (⟨IMPORT_FOLDER, "k03.jpg"⟩, "c3"),
         (⟨IMPORT_FOLDER, "k04.jpg"⟩, "c4"),
         (⟨IMPORT_FOLDER, "k05.jpg"⟩, "c5"),
         (⟨IMPORT_FOLDER, "k06.jpg"⟩, "c6"),
         (⟨IMPORT_FOLDER, "k07.jpg"⟩, "c7"),
         (⟨IMPORT_FOLDER, "k08.jpg"⟩, "c8"),
         (⟨IMPORT_FOLDER, "k09.jpg"⟩, "c9"),
         (⟨IMPORT_FOLDER, "k10.jpg"⟩, "c10"),
         (⟨IMPORT_FOLDER, "k11.jpg"⟩, "c11"),
         (⟨EXPORT_FOLDER, "TEAM01.jpg"⟩, "c1"),
         (⟨EXPORT_FOLDER, "TEAM02.jpg"⟩, "c2"),
         (⟨EXPORT_FOLDER, "TEAM03.jpg"⟩, "c3"),
         (⟨EXPORT_FOLDER, "TEAM04.jpg"⟩, "c4"),
         (⟨EXPORT_FOLDER, "TEAM05.jpg"⟩, "c5"),
         (⟨EXPORT_FOLDER, "TEAM06.jpg"⟩, "c6"),
         (⟨EXPORT_FOLDER, "TEAM07.jpg"⟩, "c7"),
         (⟨EXPORT_FOLDER, "TEAM08.jpg"⟩, "c8"),
         (⟨EXPORT_FOLDER, "TEAM09.jpg"⟩, "c9"),
         (⟨EXPORT_FOLDER, "TEAM10.jpg"⟩, "c10"),
         (⟨EXPORT_FOLDER, "TEAM11.jpg"⟩, "c11")],
         [("k05.jpg", "TEAM05.jpg", ⟨EXPORT_FOLDER, "TEAM05.jpg"⟩), ("k06.jpg", "TEAM06.jpg", ⟨EXPORT_FOLDER, "TEAM06.jpg"⟩), ("k07.jpg", "TEAM07.jpg", ⟨EXPORT_FOLDER, "TEAM07.jpg"⟩), ("k08.jpg", "TEAM08.jpg", ⟨EXPORT_FOLDER, "TEAM08.jpg"⟩), ("k09.jpg", "TEAM09.jpg", ⟨EXPORT_FOLDER, "TEAM09.jpg"⟩), ("k10.jpg", "TEAM10.jpg", ⟨EXPORT_FOLDER, "TEAM10.jpg"⟩), ("k11.jpg", "TEAM11.jpg", ⟨EXPORT_FOLDER, "TEAM11.jpg"⟩)]) := by
      have hr : readFS [(⟨IMPORT_FOLDER, "k01.jpg"⟩, "c1"),
         (⟨IMPORT_FOLDER, "k02.jpg"⟩, "c2"),
         (⟨IMPORT_FOLDER, "k03.jpg"⟩, "c3"),
         (⟨IMPORT_FOLDER, "k04.jpg"⟩, "c4"),
         (⟨IMPORT_FOLDER, "k05.jpg"⟩, "c5"),
         (⟨IMPORT_FOLDER, "k06.jpg"⟩, "c6"),
         (⟨IMPORT_FOLDER, "k07.jpg"⟩, "c7"),
         (⟨IMPORT_FOLDER, "k08.jpg"⟩, "c8"),
         (⟨IMPORT_FOLDER, "k09.jpg"⟩, "c9"),
         (⟨IMPORT_FOLDER, "k10.jpg"⟩, "c10"),
         (⟨IMPORT_FOLDER, "k11.jpg"⟩, "c11"),
         (⟨EXPORT_FOLDER, "TEAM01.jpg"⟩, "c1"),
         (⟨EXPORT_FOLDER, "TEAM02.jpg"⟩, "c2"),
         (⟨EXPORT_FOLDER, "TEAM03.jpg"⟩, "c3"),
         (⟨EXPORT_FOLDER, "TEAM04.jpg"⟩, "c4")] ⟨IMPORT_FOLDER, "k05.jpg"⟩ = some "c5" := by decide
      have hl := bulk_conflict_loop_free [(⟨IMPORT_FOLDER, "k01.jpg"⟩, "c1"),
         (⟨IMPORT_FOLDER, "k02.jpg"⟩, "c2"),
         (⟨IMPORT_FOLDER, "k03.jpg"⟩, "c3"),
         (⟨IMPORT_FOLDER, "k04.jpg"⟩, "c4"),
         (⟨IMPORT_FOLDER, "k05.jpg"⟩, "c5"),
         (⟨IMPORT_FOLDER, "k06.jpg"⟩, "c6"),
         (⟨IMPORT_FOLDER, "k07.jpg"⟩, "c7"),
         (⟨IMPORT_FOLDER, "k08.jpg"⟩, "c8"),
         (⟨IMPORT_FOLDER, "k09.jpg"⟩, "c9"),
         (⟨IMPORT_FOLDER, "k10.jpg"⟩, "c10"),
         (⟨IMPORT_FOLDER, "k11.jpg"⟩, "c11"),
         (⟨EXPORT_FOLDER, "TEAM01.jpg"⟩, "c1"),
         (⟨EXPORT_FOLDER, "TEAM02.jpg"⟩, "c2"),
         (⟨EXPORT_FOLDER, "TEAM03.jpg"⟩, "c3"),
         (⟨EXPORT_FOLDER, "TEAM04.jpg"⟩, "c4")] EXPORT_FOLDER
        ("TEAM" ++ zeroPad BULK_NUM_DIGITS (4 + BULK_START_NUMBER)) ((splitext "k05.jpg").2)
        ("TEAM" ++ zeroPad BULK_NUM_DIGITS (4 + BULK_START_NUMBER) ++ (splitext "k05.jpg").2) 1 (by decide)
      have hw : writeFS [(⟨IMPORT_FOLDER, "k01.jpg"⟩, "c1"),
         (⟨IMPORT_FOLDER, "k02.jpg"⟩, "c2"),
         (⟨IMPORT_FOLDER, "k03.jpg"⟩, "c3"),
         (⟨IMPORT_FOLDER, "k04.jpg"⟩, "c4"),
         (⟨IMPORT_FOLDER, "k05.jpg"⟩, "c5"),
         (⟨IMPORT_FOLDER, "k06.jpg"⟩, "c6"),
         (⟨IMPORT_FOLDER, "k07.jpg"⟩, "c7"),
         (⟨IMPORT_FOLDER, "k08.jpg"⟩, "c8"),
         (⟨IMPORT_FOLDER, "k09.jpg"⟩, "c9"),
         (⟨IMPORT_FOLDER, "k10.jpg"⟩, "c10"),
         (⟨IMPORT_FOLDER, "k11.jpg"⟩, "c11"),
         (⟨EXPORT_FOLDER, "TEAM01.jpg"⟩, "c1"),
         (⟨EXPORT_FOLDER, "TEAM02.jpg"⟩, "c2"),
         (⟨EXPORT_FOLDER, "TEAM03.jpg"⟩, "c3"),
         (⟨EXPORT_FOLDER, "TEAM04.jpg"⟩, "c4")]
          ⟨EXPORT_FOLDER, "TEAM" ++ zeroPad BULK_NUM_DIGITS (4 + BULK_START_NUMBER) ++ (splitext "k05.jpg").2⟩ "c5" =
          [(⟨IMPORT_FOLDER, "k01.jpg"⟩, "c1"),
         (⟨IMPORT_FOLDER, "k02.jpg"⟩, "c2"),
         (⟨IMPORT_FOLDER, "k03.jpg"⟩, "c3"),
         (⟨IMPORT_FOLDER, "k04.jpg"⟩, "c4"),
         (⟨IMPORT_FOLDER, "k05.jpg"⟩, "c5"),
         (⟨IMPORT_FOLDER, "k06.jpg"⟩, "c6"),
         (⟨IMPORT_FOLDER, "k07.jpg"⟩, "c7"),
         (⟨IMPORT_FOLDER, "k08.jpg"⟩, "c8"),
         (⟨IMPORT_FOLDER, "k09.jpg"⟩, "c9"),
         (⟨IMPORT_FOLDER, "k10.jpg"⟩, "c10"),
         (⟨IMPORT_FOLDER, "k11.jpg"⟩, "c11"),
         (⟨EXPORT_FOLDER, "TEAM01.jpg"⟩, "c1"),
         (⟨EXPORT_FOLDER, "TEAM02.jpg"⟩, "c2"),
         (⟨EXPORT_FOLDER, "TEAM03.jpg"⟩, "c3"),
         (⟨EXPORT_FOLDER, "TEAM04.jpg"⟩, "c4"),
         (⟨EXPORT_FOLDER, "TEAM05.jpg"⟩, "c5")] := by decide
      simp only [bulk_rename_go_cons, hr, hl, hw, show (4 : Nat) + 1 = 5 from rfl, h5]
      decide
    have h3 : bulk_rename_go IMPORT_FOLDER EXPORT_FOLDER "TEAM" ["k04.jpg", "k05.jpg", "k06.jpg", "k07.jpg", "k08.jpg", "k09.jpg", "k10.jpg", "k11.jpg"] 3
        [(⟨IMPORT_FOLDER, "k01.jpg"⟩, "c1"),
         (⟨IMPORT_FOLDER, "k02.jpg"⟩, "c2"),
         (⟨IMPORT_FOLDER, "k03.jpg"⟩, "c3"),
         (⟨IMPORT_FOLDER, "k04.jpg"⟩, "c4"),
         (⟨IMPORT_FOLDER, "k05.jpg"⟩, "c5"),
         (⟨IMPORT_FOLDER, "k06.jpg"⟩, "c6"),
         (⟨IMPORT_FOLDER, "k07.jpg"⟩, "c7"),
         (⟨IMPORT_FOLDER, "k08.jpg"⟩, "c8"),
         (⟨IMPORT_FOLDER, "k09.jpg"⟩, "c9"),
         (⟨IMPORT_FOLDER, "k10.jpg"⟩, "c10"),
         (⟨IMPORT_FOLDER, "k11.jpg"⟩, "c11"),
         (⟨EXPORT_FOLDER, "TEAM01.jpg"⟩, "c1"),
         (⟨EXPORT_FOLDER, "TEAM02.jpg"⟩, "c2"),
         (⟨EXPORT_FOLDER, "TEAM03.jpg"⟩, "c3")] =
        ([(⟨IMPORT_FOLDER, "k01.jpg"⟩, "c1"),
         (⟨IMPORT_FOLDER, "k02.jpg"⟩, "c2"),
         (⟨IMPORT_FOLDER, "k03.jpg"⟩, "c3"),
         (⟨IMPORT_FOLDER, "k04.jpg"⟩, "c4"),
         (⟨IMPORT_FOLDER, "k05.jpg"⟩, "c5"),
         (⟨IMPORT_FOLDER, "k06.jpg"⟩, "c6"),
         (⟨IMPORT_FOLDER, "k07.jpg"⟩, "c7"),
         (⟨IMPORT_FOLDER, "k08.jpg"⟩, "c8"),
         (⟨IMPORT_FOLDER, "k09.jpg"⟩, "c9"),
         (⟨IMPORT_FOLDER, "k10.jpg"⟩, "c10"),
         (⟨IMPORT_FOLDER, "k11.jpg"⟩, "c11"),
         (⟨EXPORT_FOLDER, "TEAM01.jpg"⟩, "c1"),
         (⟨EXPORT_FOLDER, "TEAM02.jpg"⟩, "c2"),
         (⟨EXPORT_FOLDER, "TEAM03.jpg"⟩, "c3"),
         (⟨EXPORT_FOLDER, "TEAM04.jpg"⟩, "c4"),
         (⟨EXPORT_FOLDER, "TEAM05.jpg"⟩, "c5"),
         (⟨EXPORT_FOLDER, "TEAM06.jpg"⟩, "c6"),
         (⟨EXPORT_FOLDER, "TEAM07.jpg"⟩, "c7"),
         (⟨EXPORT_FOLDER, "TEAM08.jpg"⟩, "c8"),
         (⟨EXPORT_FOLDER, "TEAM09.jpg"⟩, "c9"),
         (⟨EXPORT_FOLDER, "TEAM10.jpg"⟩, "c10"),
         (⟨EXPORT_FOLDER, "TEAM11.jpg"⟩, "c11")],
         [("k04.jpg", "TEAM04.jpg", ⟨EXPORT_FOLDER, "TEAM04.jpg"⟩), ("k05.jpg", "TEAM05.jpg", ⟨EXPORT_FOLDER, "TEAM05.jpg"⟩), ("k06.jpg", "TEAM06.jpg", ⟨EXPORT_FOLDER, "TEAM06.jpg"⟩), ("k07.jpg", "TEAM07.jpg", ⟨EXPORT_FOLDER, "TEAM07.jpg"⟩), ("k08.jpg", "TEAM08.jpg", ⟨EXPORT_FOLDER, "TEAM08.jpg"⟩), ("k09.jpg", "TEAM09.jpg", ⟨EXPORT_FOLDER, "TEAM09.jpg"⟩), ("k10.jpg", "TEAM10.jpg", ⟨EXPORT_FOLDER, "TEAM10.jpg"⟩), ("k11.jpg", "TEAM11.jpg", ⟨EXPORT_FOLDER, "TEAM11.jpg"⟩)]) := by
      have hr : readFS [(⟨IMPORT_FOLDER, "k01.jpg"⟩, "c1"),
         (⟨IMPORT_FOLDER, "k02.jpg"⟩, "c2"),
         (⟨IMPORT_FOLDER, "k03.jpg"⟩, "c3"),
         (⟨IMPORT_FOLDER, "k04.jpg"⟩, "c4"),
         (⟨IMPORT_FOLDER, "k05.jpg"⟩, "c5"),
         (⟨IMPORT_FOLDER, "k06.jpg"⟩, "c6"),
         (⟨IMPORT_FOLDER, "k07.jpg"⟩, "c7"),
         (⟨IMPORT_FOLDER, "k08.jpg"⟩, "c8"),
         (⟨IMPORT_FOLDER, "k09.jpg"⟩, "c9"),
         (⟨IMPORT_FOLDER, "k10.jpg"⟩, "c10"),
         (⟨IMPORT_FOLDER, "k11.jpg"⟩, "c11"),
         (⟨EXPORT_FOLDER, "TEAM01.jpg"⟩, "c1"),
         (⟨EXPORT_FOLDER, "TEAM02.jpg"⟩, "c2"),
         (⟨EXPORT_FOLDER, "TEAM03.jpg"⟩, "c3")] ⟨IMPORT_FOLDER, "k04.jpg"⟩ = some "c4" := by decide
      have hl := bulk_conflict_loop_free [(⟨IMPORT_FOLDER, "k01.jpg"⟩, "c1"),
         (⟨IMPORT_FOLDER, "k02.jpg"⟩, "c2"),
         (⟨IMPORT_FOLDER, "k03.jpg"⟩, "c3"),
         (⟨IMPORT_FOLDER, "k04.jpg"⟩, "c4"),
         (⟨IMPORT_FOLDER, "k05.jpg"⟩, "c5"),
         (⟨IMPORT_FOLDER, "k06.jpg"⟩, "c6"),
         (⟨IMPORT_FOLDER, "k07.jpg"⟩, "c7"),
         (⟨IMPORT_FOLDER, "k08.jpg"⟩, "c8"),
         (⟨IMPORT_FOLDER, "k09.jpg"⟩, "c9"),
         (⟨IMPORT_FOLDER, "k10.jpg"⟩, "c10"),
         (⟨IMPORT_FOLDER, "k11.jpg"⟩, "c11"),
         (⟨EXPORT_FOLDER, "TEAM01.jpg"⟩, "c1"),
         (⟨EXPORT_FOLDER, "TEAM02.jpg"⟩, "c2"),
         (⟨EXPORT_FOLDER, "TEAM03.jpg"⟩, "c3")] EXPORT_FOLDER
        ("TEAM" ++ zeroPad BULK_NUM_DIGITS (3 + BULK_START_NUMBER)) ((splitext "k04.jpg").2)
        ("TEAM" ++ zeroPad BULK_NUM_DIGITS (3 + BULK_START_NUMBER) ++ (splitext "k04.jpg").2) 1 (by decide)
      have hw : writeFS [(⟨IMPORT_FOLDER, "k01.jpg"⟩, "c1"),
         (⟨IMPORT_FOLDER, "k02.jpg"⟩, "c2"),
         (⟨IMPORT_FOLDER, "k03.jpg"⟩, "c3"),
         (⟨IMPORT_FOLDER, "k04.jpg"⟩, "c4"),
         (⟨IMPORT_FOLDER, "k05.jpg"⟩, "c5"),
         (⟨IMPORT_FOLDER, "k06.jpg"⟩, "c6"),
         (⟨IMPORT_FOLDER, "k07.jpg"⟩, "c7"),
         (⟨IMPORT_FOLDER, "k08.jpg"⟩, "c8"),
         (⟨IMPORT_FOLDER, "k09.jpg"⟩, "c9"),
         (⟨IMPORT_FOLDER, "k10.jpg"⟩, "c10"),
         (⟨IMPORT_FOLDER, "k11.jpg"⟩, "c11"),
         (⟨EXPORT_FOLDER, "TEAM01.jpg"⟩, "c1"),
         (⟨EXPORT_FOLDER, "TEAM02.jpg"⟩, "c2"),
         (⟨EXPORT_FOLDER, "TEAM03.jpg"⟩, "c3")]
          ⟨EXPORT_FOLDER, "TEAM" ++ zeroPad BULK_NUM_DIGITS (3 + BULK_START_NUMBER) ++ (splitext "k04.jpg").2⟩ "c4" =
          [(⟨IMPORT_FOLDER, "k01.jpg"⟩, "c1"),
         (⟨IMPORT_FOLDER, "k02.jpg"⟩, "c2"),
         (⟨IMPORT_FOLDER, "k03.jpg"⟩, "c3"),
         (⟨IMPORT_FOLDER, "k04.jpg"⟩, "c4"),
         (⟨IMPORT_FOLDER, "k05.jpg"⟩, "c5"),
         (⟨IMPORT_FOLDER, "k06.jpg"⟩, "c6"),
         (⟨IMPORT_FOLDER, "k07.jpg"⟩, "c7"),
         (⟨IMPORT_FOLDER, "k08.jpg"⟩, "c8"),
         (⟨IMPORT_FOLDER, "k09.jpg"⟩, "c9"),
         (⟨IMPORT_FOLDER, "k10.jpg"⟩, "c10"),
         (⟨IMPORT_FOLDER, "k11.jpg"⟩, "c11"),
         (⟨EXPORT_FOLDER, "TEAM01.jpg"⟩, "c1"),
         (⟨EXPORT_FOLDER, "TEAM02.jpg"⟩, "c2"),
         (⟨EXPORT_FOLDER, "TEAM03.jpg"⟩, "c3"),
         (⟨EXPORT_FOLDER, "TEAM04.jpg"⟩, "c4")] := by decide
      simp only [bulk_rename_go_cons, hr, hl, hw, show (3 : Nat) + 1 = 4 from rfl, h4]
      decide
    have h2 : bulk_rename_go IMPORT_FOLDER EXPORT_FOLDER "TEAM" ["k03.jpg", "k04.jpg", "k05.jpg", "k06.jpg", "k07.jpg", "k08.jpg", "k09.jpg", "k10.jpg", "k11.jpg"] 2
        [(⟨IMPORT_FOLDER, "k01.jpg"⟩, "c1"),
         (⟨IMPORT_FOLDER, "k02.jpg"⟩, "c2"),
         (⟨IMPORT_FOLDER, "k03.jpg"⟩, "c3"),
         (⟨IMPORT_FOLDER, "k04.jpg"⟩, "c4"),
         (⟨IMPORT_FOLDER, "k05.jpg"⟩, "c5"),
         (⟨IMPORT_FOLDER, "k06.jpg"⟩, "c6"),
         (⟨IMPORT_FOLDER, "k07.jpg"⟩, "c7"),
         (⟨IMPORT_FOLDER, "k08.jpg"⟩, "c8"),
         (⟨IMPORT_FOLDER, "k09.jpg"⟩, "c9"),
         (⟨IMPORT_FOLDER, "k10.jpg"⟩, "c10"),
         (⟨IMPORT_FOLDER, "k11.jpg"⟩, "c11"),
         (⟨EXPORT_FOLDER, "TEAM01.jpg"⟩, "c1"),
         (⟨EXPORT_FOLDER, "TEAM02.jpg"⟩, "c2")] =
        ([(⟨IMPORT_FOLDER, "k01.jpg"⟩, "c1"),
         (⟨IMPORT_FOLDER, "k02.jpg"⟩, "c2"),
         (⟨IMPORT_FOLDER, "k03.jpg"⟩, "c3"),
         (⟨IMPORT_FOLDER, "k04.jpg"⟩, "c4"),
         (⟨IMPORT_FOLDER, "k05.jpg"⟩, "c5"),
         (⟨IMPORT_FOLDER, "k06.jpg"⟩, "c6"),
         (⟨IMPORT_FOLDER, "k07.jpg"⟩, "c7"),
         (⟨IMPORT_FOLDER, "k08.jpg"⟩, "c8"),
         (⟨IMPORT_FOLDER, "k09.jpg"⟩, "c9"),
         (⟨IMPORT_FOLDER, "k10.jpg"⟩, "c10"),
         (⟨IMPORT_FOLDER, "k11.jpg"⟩, "c11"),
         (⟨EXPORT_FOLDER, "TEAM01.jpg"⟩, "c1"),
         (⟨EXPORT_FOLDER, "TEAM02.jpg"⟩, "c2"),
         (⟨EXPORT_FOLDER, "TEAM03.jpg"⟩, "c3"),
         (⟨EXPORT_FOLDER, "TEAM04.jpg"⟩, "c4"),
         (⟨EXPORT_FOLDER, "TEAM05.jpg"⟩, "c5"),
         (⟨EXPORT_FOLDER, "TEAM06.jpg"⟩, "c6"),
         (⟨EXPORT_FOLDER, "TEAM07.jpg"⟩, "c7"),
         (⟨EXPORT_FOLDER, "TEAM08.jpg"⟩, "c8"),
         (⟨EXPORT_FOLDER, "TEAM09.jpg"⟩, "c9"),
         (⟨EXPORT_FOLDER, "TEAM10.jpg"⟩, "c10"),
         (⟨EXPORT_FOLDER, "TEAM11.jpg"⟩, "c11")],
         [("k03.jpg", "TEAM03.jpg", ⟨EXPORT_FOLDER, "TEAM03.jpg"⟩), ("k04.jpg", "TEAM04.jpg", ⟨EXPORT_FOLDER, "TEAM04.jpg"⟩), ("k05.jpg", "TEAM05.jpg", ⟨EXPORT_FOLDER, "TEAM05.jpg"⟩), ("k06.jpg", "TEAM06.jpg", ⟨EXPORT_FOLDER, "TEAM06.jpg"⟩), ("k07.jpg", "TEAM07.jpg", ⟨EXPORT_FOLDER, "TEAM07.jpg"⟩), ("k08.jpg", "TEAM08.jpg", ⟨EXPORT_FOLDER, "TEAM08.jpg"⟩), ("k09.jpg", "TEAM09.jpg", ⟨EXPORT_FOLDER, "TEAM09.jpg"⟩), ("k10.jpg", "TEAM10.jpg", ⟨EXPORT_FOLDER, "TEAM10.jpg"⟩), ("k11.jpg", "TEAM11.jpg", ⟨EXPORT_FOLDER, "TEAM11.jpg"⟩)]) := by
      have hr : readFS [(⟨IMPORT_FOLDER, "k01.jpg"⟩, "c1"),
         (⟨IMPORT_FOLDER, "k02.jpg"⟩, "c2"),
         (⟨IMPORT_FOLDER, "k03.jpg"⟩, "c3"),
         (⟨IMPORT_FOLDER, "k04.jpg"⟩, "c4"),
         (⟨IMPORT_FOLDER, "k05.jpg"⟩, "c5"),
         (⟨IMPORT_FOLDER, "k06.jpg"⟩, "c6"),
         (⟨IMPORT_FOLDER, "k07.jpg"⟩, "c7"),
         (⟨IMPORT_FOLDER, "k08.jpg"⟩, "c8"),
         (⟨IMPORT_FOLDER, "k09.jpg"⟩, "c9"),
         (⟨IMPORT_FOLDER, "k10.jpg"⟩, "c10"),
         (⟨IMPORT_FOLDER, "k11.jpg"⟩, "c11"),
         (⟨EXPORT_FOLDER, "TEAM01.jpg"⟩, "c1"),
         (⟨EXPORT_FOLDER, "TEAM02.jpg"⟩, "c2")] ⟨IMPORT_FOLDER, "k03.jpg"⟩ = some "c3" := by decide
      have hl := bulk_conflict_loop_free [(⟨IMPORT_FOLDER, "k01.jpg"⟩, "c1"),
         (⟨IMPORT_FOLDER, "k02.jpg"⟩, "c2"),
         (⟨IMPORT_FOLDER, "k03.jpg"⟩, "c3"),
         (⟨IMPORT_FOLDER, "k04.jpg"⟩, "c4"),
         (⟨IMPORT_FOLDER, "k05.jpg"⟩, "c5"),
         (⟨IMPORT_FOLDER, "k06.jpg"⟩, "c6"),
         (⟨IMPORT_FOLDER, "k07.jpg"⟩, "c7"),
         (⟨IMPORT_FOLDER, "k08.jpg"⟩, "c8"),
         (⟨IMPORT_FOLDER, "k09.jpg"⟩, "c9"),
         (⟨IMPORT_FOLDER, "k10.jpg"⟩, "c10"),
         (⟨IMPORT_FOLDER, "k11.jpg"⟩, "c11"),
         (⟨EXPORT_FOLDER, "TEAM01.jpg"⟩, "c1"),
         (⟨EXPORT_FOLDER, "TEAM02.jpg"⟩, "c2")] EXPORT_FOLDER
        ("TEAM" ++ zeroPad BULK_NUM_DIGITS (2 + BULK_START_NUMBER)) ((splitext "k03.jpg").2)
        ("TEAM" ++ zeroPad BULK_NUM_DIGITS (2 + BULK_START_NUMBER) ++ (splitext "k03.jpg").2) 1 (by decide)
      have hw : writeFS [(⟨IMPORT_FOLDER, "k01.jpg"⟩, "c1"),
         (⟨IMPORT_FOLDER, "k02.jpg"⟩, "c2"),
         (⟨IMPORT_FOLDER, "k03.jpg"⟩, "c3"),
         (⟨IMPORT_FOLDER, "k04.jpg"⟩, "c4"),
         (⟨IMPORT_FOLDER, "k05.jpg"⟩, "c5"),
         (⟨IMPORT_FOLDER, "k06.jpg"⟩, "c6"),
         (⟨IMPORT_FOLDER, "k07.jpg"⟩, "c7"),
         (⟨IMPORT_FOLDER, "k08.jpg"⟩, "c8"),
         (⟨IMPORT_FOLDER, "k09.jpg"⟩, "c9"),
         (⟨IMPORT_FOLDER, "k10.jpg"⟩, "c10"),
         (⟨IMPORT_FOLDER, "k11.jpg"⟩, "c11"),
         (⟨EXPORT_FOLDER, "TEAM01.jpg"⟩, "c1"),
         (⟨EXPORT_FOLDER, "TEAM02.jpg"⟩, "c2")]
          ⟨EXPORT_FOLDER, "TEAM" ++ zeroPad BULK_NUM_DIGITS (2 + BULK_START_NUMBER) ++ (splitext "k03.jpg").2⟩ "c3" =
          [(⟨IMPORT_FOLDER, "k01.jpg"⟩, "c1"),
         (⟨IMPORT_FOLDER, "k02.jpg"⟩, "c2"),
         (⟨IMPORT_FOLDER, "k03.jpg"⟩, "c3"),
         (⟨IMPORT_FOLDER, "k04.jpg"⟩, "c4"),
         (⟨IMPORT_FOLDER, "k05.jpg"⟩, "c5"),
         (⟨IMPORT_FOLDER, "k06.jpg"⟩, "c6"),
         (⟨IMPORT_FOLDER, "k07.jpg"⟩, "c7"),
         (⟨IMPORT_FOLDER, "k08.jpg"⟩, "c8"),
         (⟨IMPORT_FOLDER, "k09.jpg"⟩, "c9"),
         (⟨IMPORT_FOLDER, "k10.jpg"⟩, "c10"),
         (⟨IMPORT_FOLDER, "k11.jpg"⟩, "c11"),
         (⟨EXPORT_FOLDER, "TEAM01.jpg"⟩, "c1"),
         (⟨EXPORT_FOLDER, "TEAM02.jpg"⟩, "c2"),
         (⟨EXPORT_FOLDER, "TEAM03.jpg"⟩, "c3")] := by decide
      simp only [bulk_rename_go_cons, hr, hl, hw, show (2 : Nat) + 1 = 3 from rfl, h3]
      decide
    have h1 : bulk_rename_go IMPORT_FOLDER EXPORT_FOLDER "TEAM" ["k02.jpg", "k03.jpg", "k04.jpg", "k05.jpg", "k06.jpg", "k07.jpg", "k08.jpg", "k09.jpg", "k10.jpg", "k11.jpg"] 1
        [(⟨IMPORT_FOLDER, "k01.jpg"⟩, "c1"),
         (⟨IMPORT_FOLDER, "k02.jpg"⟩, "c2"),
         (⟨IMPORT_FOLDER, "k03.jpg"⟩, "c3"),
         (⟨IMPORT_FOLDER, "k04.jpg"⟩, "c4"),
         (⟨IMPORT_FOLDER, "k05.jpg"⟩, "c5"),
         (⟨IMPORT_FOLDER, "k06.jpg"⟩, "c6"),
         (⟨IMPORT_FOLDER, "k07.jpg"⟩, "c7"),
         (⟨IMPORT_FOLDER, "k08.jpg"⟩, "c8"),
         (⟨IMPORT_FOLDER, "k09.jpg"⟩, "c9"),
         (⟨IMPORT_FOLDER, "k10.jpg"⟩, "c10"),
         (⟨IMPORT_FOLDER, "k11.jpg"⟩, "c11"),
         (⟨EXPORT_FOLDER, "TEAM01.jpg"⟩, "c1")] =
        ([(⟨IMPORT_FOLDER, "k01.jpg"⟩, "c1"),
         (⟨IMPORT_FOLDER, "k02.jpg"⟩, "c2"),
         (⟨IMPORT_FOLDER, "k03.jpg"⟩, "c3"),
         (⟨IMPORT_FOLDER, "k04.jpg"⟩, "c4"),
         (⟨IMPORT_FOLDER, "k05.jpg"⟩, "c5"),
         (⟨IMPORT_FOLDER, "k06.jpg"⟩, "c6"),
         (⟨IMPORT_FOLDER, "k07.jpg"⟩, "c7"),
         (⟨IMPORT_FOLDER, "k08.jpg"⟩, "c8"),
         (⟨IMPORT_FOLDER, "k09.jpg"⟩, "c9"),
         (⟨IMPORT_FOLDER, "k10.jpg"⟩, "c10"),
         (⟨IMPORT_FOLDER, "k11.jpg"⟩, "c11"),
         (⟨EXPORT_FOLDER, "TEAM01.jpg"⟩, "c1"),
         (⟨EXPORT_FOLDER, "TEAM02.jpg"⟩, "c2"),
         (⟨EXPORT_FOLDER, "TEAM03.jpg"⟩, "c3"),
         (⟨EXPORT_FOLDER, "TEAM04.jpg"⟩, "c4"),
         (⟨EXPORT_FOLDER, "TEAM05.jpg"⟩, "c5"),
         (⟨EXPORT_FOLDER, "TEAM06.jpg"⟩, "c6"),
         (⟨EXPORT_FOLDER, "TEAM07.jpg"⟩, "c7"),
         (⟨EXPORT_FOLDER, "TEAM08.jpg"⟩, "c8"),
         (⟨EXPORT_FOLDER, "TEAM09.jpg"⟩, "c9"),
         (⟨EXPORT_FOLDER, "TEAM10.jpg"⟩, "c10"),
         (⟨EXPORT_FOLDER, "TEAM11.jpg"⟩, "c11")],
         [("k02.jpg", "TEAM02.jpg", ⟨EXPORT_FOLDER, "TEAM02.jpg"⟩), ("k03.jpg", "TEAM03.jpg", ⟨EXPORT_FOLDER, "TEAM03.jpg"⟩), ("k04.jpg", "TEAM04.jpg", ⟨EXPORT_FOLDER, "TEAM04.jpg"⟩), ("k05.jpg", "TEAM05.jpg", ⟨EXPORT_FOLDER, "TEAM05.jpg"⟩), ("k06.jpg", "TEAM06.jpg", ⟨EXPORT_FOLDER, "TEAM06.jpg"⟩), ("k07.jpg", "TEAM07.jpg", ⟨EXPORT_FOLDER, "TEAM07.jpg"⟩), ("k08.jpg", "TEAM08.jpg", ⟨EXPORT_FOLDER, "TEAM08.jpg"⟩), ("k09.jpg", "TEAM09.jpg", ⟨EXPORT_FOLDER, "TEAM09.jpg"⟩), ("k10.jpg", "TEAM10.jpg", ⟨EXPORT_FOLDER, "TEAM10.jpg"⟩), ("k11.jpg", "TEAM11.jpg", ⟨EXPORT_FOLDER, "TEAM11.jpg"⟩)]) := by
      have hr : readFS [(⟨IMPORT_FOLDER, "k01.jpg"⟩, "c1"),
         (⟨IMPORT_FOLDER, "k02.jpg"⟩, "c2"),
         (⟨IMPORT_FOLDER, "k03.jpg"⟩, "c3"),
         (⟨IMPORT_FOLDER, "k04.jpg"⟩, "c4"),
         (⟨IMPORT_FOLDER, "k05.jpg"⟩, "c5"),
         (⟨IMPORT_FOLDER, "k06.jpg"⟩, "c6"),
         (⟨IMPORT_FOLDER, "k07.jpg"⟩, "c7"),
         (⟨IMPORT_FOLDER, "k08.jpg"⟩, "c8"),
         (⟨IMPORT_FOLDER, "k09.jpg"⟩, "c9"),
         (⟨IMPORT_FOLDER, "k10.jpg"⟩, "c10"),
         (⟨IMPORT_FOLDER, "k11.jpg"⟩, "c11"),
         (⟨EXPORT_FOLDER, "TEAM01.jpg"⟩, "c1")] ⟨IMPORT_FOLDER, "k02.jpg"⟩ = some "c2" := by decide
      have hl := bulk_conflict_loop_free [(⟨IMPORT_FOLDER, "k01.jpg"⟩, "c1"),
         (⟨IMPORT_FOLDER, "k02.jpg"⟩, "c2"),
         (⟨IMPORT_FOLDER, "k03.jpg"⟩, "c3"),
         (⟨IMPORT_FOLDER, "k04.jpg"⟩, "c4"),
         (⟨IMPORT_FOLDER, "k05.jpg"⟩, "c5"),
         (⟨IMPORT_FOLDER, "k06.jpg"⟩, "c6"),
         (⟨IMPORT_FOLDER, "k07.jpg"⟩, "c7"),
         (⟨IMPORT_FOLDER, "k08.jpg"⟩, "c8"),
         (⟨IMPORT_FOLDER, "k09.jpg"⟩, "c9"),
         (⟨IMPORT_FOLDER, "k10.jpg"⟩, "c10"),
         (⟨IMPORT_FOLDER, "k11.jpg"⟩, "c11"),
         (⟨EXPORT_FOLDER, "TEAM01.jpg"⟩, "c1")] EXPORT_FOLDER
        ("TEAM" ++ zeroPad BULK_NUM_DIGITS (1 + BULK_START_NUMBER)) ((splitext "k02.jpg").2)
        ("TEAM" ++ zeroPad BULK_NUM_DIGITS (1 + BULK_START_NUMBER) ++ (splitext "k02.jpg").2) 1 (by decide)
      have hw : writeFS [(⟨IMPORT_FOLDER, "k01.jpg"⟩, "c1"),
         (⟨IMPORT_FOLDER, "k02.jpg"⟩, "c2"),
         (⟨IMPORT_FOLDER, "k03.jpg"⟩, "c3"),
         (⟨IMPORT_FOLDER, "k04.jpg"⟩, "c4"),
         (⟨IMPORT_FOLDER, "k05.jpg"⟩, "c5"),
         (⟨IMPORT_FOLDER, "k06.jpg"⟩, "c6"),
         (⟨IMPORT_FOLDER, "k07.jpg"⟩, "c7"),
         (⟨IMPORT_FOLDER, "k08.jpg"⟩, "c8"),
         (⟨IMPORT_FOLDER, "k09.jpg"⟩, "c9"),
         (⟨IMPORT_FOLDER, "k10.jpg"⟩, "c10"),
         (⟨IMPORT_FOLDER, "k11.jpg"⟩, "c11"),
         (⟨EXPORT_FOLDER, "TEAM01.jpg"⟩, "c1")]
          ⟨EXPORT_FOLDER, "TEAM" ++ zeroPad BULK_NUM_DIGITS (1 + BULK_START_NUMBER) ++ (splitext "k02.jpg").2⟩ "c2" =
          [(⟨IMPORT_FOLDER, "k01.jpg"⟩, "c1"),
         (⟨IMPORT_FOLDER, "k02.jpg"⟩, "c2"),
         (⟨IMPORT_FOLDER, "k03.jpg"⟩, "c3"),
         (⟨IMPORT_FOLDER, "k04.jpg"⟩, "c4"),
         (⟨IMPORT_FOLDER, "k05.jpg"⟩, "c5"),
         (⟨IMPORT_FOLDER, "k06.jpg"⟩, "c6"),
         (⟨IMPORT_FOLDER, "k07.jpg"⟩, "c7"),
         (⟨IMPORT_FOLDER, "k08.jpg"⟩, "c8"),
         (⟨IMPORT_FOLDER, "k09.jpg"⟩, "c9"),
         (⟨IMPORT_FOLDER, "k10.jpg"⟩, "c10"),
         (⟨IMPORT_FOLDER, "k11.jpg"⟩, "c11"),
         (⟨EXPORT_FOLDER, "TEAM01.jpg"⟩, "c1"),
         (⟨EXPORT_FOLDER, "TEAM02.jpg"⟩, "c2")] := by decide
      simp only [bulk_rename_go_cons, hr, hl, hw, show (1 : Nat) + 1 = 2 from rfl, h2]
      decide
    have h0 : bulk_rename_go IMPORT_FOLDER EXPORT_FOLDER "TEAM" ["k01.jpg", "k02.jpg", "k03.jpg", "k04.jpg", "k05.jpg", "k06.jpg", "k07.jpg", "k08.jpg", "k09.jpg", "k10.jpg", "k11.jpg"] 0
        [(⟨IMPORT_FOLDER, "k01.jpg"⟩, "c1"),
         (⟨IMPORT_FOLDER, "k02.jpg"⟩, "c2"),
         (⟨IMPORT_FOLDER, "k03.jpg"⟩, "c3"),
         (⟨IMPORT_FOLDER, "k04.jpg"⟩, "c4"),
         (⟨IMPORT_FOLDER, "k05.jpg"⟩, "c5"),
         (⟨IMPORT_FOLDER, "k06.jpg"⟩, "c6"),
         (⟨IMPORT_FOLDER, "k07.jpg"⟩, "c7"),
         (⟨IMPORT_FOLDER, "k08.jpg"⟩, "c8"),
         (⟨IMPORT_FOLDER, "k09.jpg"⟩, "c9"),
         (⟨IMPORT_FOLDER, "k10.jpg"⟩, "c10"),
         (⟨IMPORT_FOLDER, "k11.jpg"⟩, "c11")] =
        ([(⟨IMPORT_FOLDER, "k01.jpg"⟩, "c1"),
         (⟨IMPORT_FOLDER, "k02.jpg"⟩, "c2"),
         (⟨IMPORT_FOLDER, "k03.jpg"⟩, "c3"),
         (⟨IMPORT_FOLDER, "k04.jpg"⟩, "c4"),
         (⟨IMPORT_FOLDER, "k05.jpg"⟩, "c5"),
         (⟨IMPORT_FOLDER, "k06.jpg"⟩, "c6"),
         (⟨IMPORT_FOLDER, "k07.jpg"⟩, "c7"),
         (⟨IMPORT_FOLDER, "k08.jpg"⟩, "c8"),
         (⟨IMPORT_FOLDER, "k09.jpg"⟩, "c9"),
         (⟨IMPORT_FOLDER, "k10.jpg"⟩, "c10"),
         (⟨IMPORT_FOLDER, "k11.jpg"⟩, "c11"),
         (⟨EXPORT_FOLDER, "TEAM01.jpg"⟩, "c1"),
         (⟨EXPORT_FOLDER, "TEAM02.jpg"⟩, "c2"),
         (⟨EXPORT_FOLDER, "TEAM03.jpg"⟩, "c3"),
         (⟨EXPORT_FOLDER, "TEAM04.jpg"⟩, "c4"),
         (⟨EXPORT_FOLDER, "TEAM05.jpg"⟩, "c5"),
         (⟨EXPORT_FOLDER, "TEAM06.jpg"⟩, "c6"),
         (⟨EXPORT_FOLDER, "TEAM07.jpg"⟩, "c7"),
         (⟨EXPORT_FOLDER, "TEAM08.jpg"⟩, "c8"),
         (⟨EXPORT_FOLDER, "TEAM09.jpg"⟩, "c9"),
         (⟨EXPORT_FOLDER, "TEAM10.jpg"⟩, "c10"),
         (⟨EXPORT_FOLDER, "TEAM11.jpg"⟩, "c11")],
         [("k01.jpg", "TEAM01.jpg", ⟨EXPORT_FOLDER, "TEAM01.jpg"⟩), ("k02.jpg", "TEAM02.jpg", ⟨EXPORT_FOLDER, "TEAM02.jpg"⟩), ("k03.jpg", "TEAM03.jpg", ⟨EXPORT_FOLDER, "TEAM03.jpg"⟩), ("k04.jpg", "TEAM04.jpg", ⟨EXPORT_FOLDER, "TEAM04.jpg"⟩), ("k05.jpg", "TEAM05.jpg", ⟨EXPORT_FOLDER, "TEAM05.jpg"⟩), ("k06.jpg", "TEAM06.jpg", ⟨EXPORT_FOLDER, "TEAM06.jpg"⟩), ("k07.jpg", "TEAM07.jpg", ⟨EXPORT_FOLDER, "TEAM07.jpg"⟩), ("k08.jpg", "TEAM08.jpg", ⟨EXPORT_FOLDER, "TEAM08.jpg"⟩), ("k09.jpg", "TEAM09.jpg", ⟨EXPORT_FOLDER, "TEAM09.jpg"⟩), ("k10.jpg", "TEAM10.jpg", ⟨EXPORT_FOLDER, "TEAM10.jpg"⟩), ("k11.jpg", "TEAM11.jpg", ⟨EXPORT_FOLDER, "TEAM11.jpg"⟩)]) := by
      have hr : readFS [(⟨IMPORT_FOLDER, "k01.jpg"⟩, "c1"),
         (⟨IMPORT_FOLDER, "k02.jpg"⟩, "c2"),
         (⟨IMPORT_FOLDER, "k03.jpg"⟩, "c3"),
         (⟨IMPORT_FOLDER, "k04.jpg"⟩, "c4"),
         (⟨IMPORT_FOLDER, "k05.jpg"⟩, "c5"),
         (⟨IMPORT_FOLDER, "k06.jpg"⟩, "c6"),
         (⟨IMPORT_FOLDER, "k07.jpg"⟩, "c7"),
         (⟨IMPORT_FOLDER, "k08.jpg"⟩, "c8"),
         (⟨IMPORT_FOLDER, "k09.jpg"⟩, "c9"),
         (⟨IMPORT_FOLDER, "k10.jpg"⟩, "c10"),
         (⟨IMPORT_FOLDER, "k11.jpg"⟩, "c11")] ⟨IMPORT_FOLDER, "k01.jpg"⟩ = some "c1" := by decide
      have hl := bulk_conflict_loop_free [(⟨IMPORT_FOLDER, "k01.jpg"⟩, "c1"),
         (⟨IMPORT_FOLDER, "k02.jpg"⟩, "c2"),
         (⟨IMPORT_FOLDER, "k03.jpg"⟩, "c3"),
         (⟨IMPORT_FOLDER, "k04.jpg"⟩, "c4"),
         (⟨IMPORT_FOLDER, "k05.jpg"⟩, "c5"),
         (⟨IMPORT_FOLDER, "k06.jpg"⟩, "c6"),
         (⟨IMPORT_FOLDER, "k07.jpg"⟩, "c7"),
         (⟨IMPORT_FOLDER, "k08.jpg"⟩, "c8"),
         (⟨IMPORT_FOLDER, "k09.jpg"⟩, "c9"),
         (⟨IMPORT_FOLDER, "k10.jpg"⟩, "c10"),
         (⟨IMPORT_FOLDER, "k11.jpg"⟩, "c11")] EXPORT_FOLDER
        ("TEAM" ++ zeroPad BULK_NUM_DIGITS (0 + BULK_START_NUMBER)) ((splitext "k01.jpg").2)
        ("TEAM" ++ zeroPad BULK_NUM_DIGITS (0 + BULK_START_NUMBER) ++ (splitext "k01.jpg").2) 1 (by decide)
      have hw : writeFS [(⟨IMPORT_FOLDER, "k01.jpg"⟩, "c1"),
         (⟨IMPORT_FOLDER, "k02.jpg"⟩, "c2"),
         (⟨IMPORT_FOLDER, "k03.jpg"⟩, "c3"),
         (⟨IMPORT_FOLDER, "k04.jpg"⟩, "c4"),
         (⟨IMPORT_FOLDER, "k05.jpg"⟩, "c5"),
         (⟨IMPORT_FOLDER, "k06.jpg"⟩, "c6"),
         (⟨IMPORT_FOLDER, "k07.jpg"⟩, "c7"),
         (⟨IMPORT_FOLDER, "k08.jpg"⟩, "c8"),
         (⟨IMPORT_FOLDER, "k09.jpg"⟩, "c9"),
         (⟨IMPORT_FOLDER, "k10.jpg"⟩, "c10"),
         (⟨IMPORT_FOLDER, "k11.jpg"⟩, "c11")]
          ⟨EXPORT_FOLDER, "TEAM" ++ zeroPad BULK_NUM_DIGITS (0 + BULK_START_NUMBER) ++ (splitext "k01.jpg").2⟩ "c1" =
          [(⟨IMPORT_FOLDER, "k01.jpg"⟩, "c1"),
         (⟨IMPORT_FOLDER, "k02.jpg"⟩, "c2"),
         (⟨IMPORT_FOLDER, "k03.jpg"⟩, "c3"),
         (⟨IMPORT_FOLDER, "k04.jpg"⟩, "c4"),
         (⟨IMPORT_FOLDER, "k05.jpg"⟩, "c5"),
         (⟨IMPORT_FOLDER, "k06.jpg"⟩, "c6"),
         (⟨IMPORT_FOLDER, "k07.jpg"⟩, "c7"),
         (⟨IMPORT_FOLDER, "k08.jpg"⟩, "c8"),
         (⟨IMPORT_FOLDER, "k09.jpg"⟩, "c9"),
         (⟨IMPORT_FOLDER, "k10.jpg"⟩, "c10"),
         (⟨IMPORT_FOLDER, "k11.jpg"⟩, "c11"),
         (⟨EXPORT_FOLDER, "TEAM01.jpg"⟩, "c1")] := by decide
      simp only [bulk_rename_go_cons, hr, hl, hw, show (0 : Nat) + 1 = 1 from rfl, h1]
      decide

    have hsort : sortStrings ["k10.jpg", "k01.jpg", "k02.jpg", "k03.jpg", "k04.jpg",
        "k05.jpg", "k06.jpg", "k07.jpg", "k08.jpg", "k09.jpg", "k11.jpg"] =
        ["k01.jpg", "k02.jpg", "k03.jpg", "k04.jpg", "k05.jpg", "k06.jpg", "k07.jpg",
         "k08.jpg", "k09.jpg", "k10.jpg", "k11.jpg"] := by decide
    rw [bulk_rename_files, hsort, h0]
    decide
  refine ⟨rfl, by decide, by decide, hmain, ?_⟩
  rw [hmain]
  decide

set_option maxHeartbeats 1000000 in
/-- Claim C7, counterexample to the claim as stated: with 3 files the bulk
rename of new files still pads to 2 digits — the generated names are
`TEAM01.jpg TEAM02.jpg TEAM03.jpg`, not the one-digit `TEAM1.jpg …` that
"padding width computed from the total count (3 files → 1 digit)"
requires. -/
theorem C7_three_files_counterexample :
    (bulk_rename_files IMPORT_FOLDER EXPORT_FOLDER "TEAM" ["b.jpg", "a.jpg", "c.jpg"]
      [(⟨IMPORT_FOLDER, "a.jpg"⟩, "c1"),
       (⟨IMPORT_FOLDER, "b.jpg"⟩, "c2"),
       (⟨IMPORT_FOLDER, "c.jpg"⟩, "c3")]).2.map (fun e => e.2.1) =
      ["TEAM01.jpg", "TEAM02.jpg", "TEAM03.jpg"] ∧
    (bulk_rename_files IMPORT_FOLDER EXPORT_FOLDER "TEAM" ["b.jpg", "a.jpg", "c.jpg"]
      [(⟨IMPORT_FOLDER, "a.jpg"⟩, "c1"),
       (⟨IMPORT_FOLDER, "b.jpg"⟩, "c2"),
       (⟨IMPORT_FOLDER, "c.jpg"⟩, "c3")]).2.map (fun e => e.2.1) ≠
      ["TEAM1.jpg", "TEAM2.jpg", "TEAM3.jpg"] := by
  have hmain :
      (bulk_rename_files IMPORT_FOLDER EXPORT_FOLDER "TEAM" ["b.jpg", "a.jpg", "c.jpg"]
        [(⟨IMPORT_FOLDER, "a.jpg"⟩, "c1"),
         (⟨IMPORT_FOLDER, "b.jpg"⟩, "c2"),
         (⟨IMPORT_FOLDER, "c.jpg"⟩, "c3")]).2.map (fun e => e.2.1) =
        ["TEAM01.jpg", "TEAM02.jpg", "TEAM03.jpg"] := by
    have g3 : bulk_rename_go IMPORT_FOLDER EXPORT_FOLDER "TEAM" [] 3
        [(⟨IMPORT_FOLDER, "a.jpg"⟩, "c1"),
         (⟨IMPORT_FOLDER, "b.jpg"⟩, "c2"),
         (⟨IMPORT_FOLDER, "c.jpg"⟩, "c3"),
         (⟨EXPORT_FOLDER, "TEAM01.jpg"⟩, "c1"),
         (⟨EXPORT_FOLDER, "TEAM02.jpg"⟩, "c2"),
         (⟨EXPORT_FOLDER, "TEAM03.jpg"⟩, "c3")] = ([(⟨IMPORT_FOLDER, "a.jpg"⟩, "c1"),
         (⟨IMPORT_FOLDER, "b.jpg"⟩, "c2"),
         (⟨IMPORT_FOLDER, "c.jpg"⟩, "c3"),
         (⟨EXPORT_FOLDER, "TEAM01.jpg"⟩, "c1"),
         (⟨EXPORT_FOLDER, "TEAM02.jpg"⟩, "c2"),
         (⟨EXPORT_FOLDER, "TEAM03.jpg"⟩, "c3")], []) := rfl
    have g2 : bulk_rename_go IMPORT_FOLDER EXPORT_FOLDER "TEAM" ["c.jpg"] 2
        [(⟨IMPORT_FOLDER, "a.jpg"⟩, "c1"),
         (⟨IMPORT_FOLDER, "b.jpg"⟩, "c2"),
         (⟨IMPORT_FOLDER, "c.jpg"⟩, "c3"),
         (⟨EXPORT_FOLDER, "TEAM01.jpg"⟩, "c1"),
         (⟨EXPORT_FOLDER, "TEAM02.jpg"⟩, "c2")] =
        ([(⟨IMPORT_FOLDER, "a.jpg"⟩, "c1"),
         (⟨IMPORT_FOLDER, "b.jpg"⟩, "c2"),
         (⟨IMPORT_FOLDER, "c.jpg"⟩, "c3"),
         (⟨EXPORT_FOLDER, "TEAM01.jpg"⟩, "c1"),
         (⟨EXPORT_FOLDER, "TEAM02.jpg"⟩, "c2"),
         (⟨EXPORT_FOLDER, "TEAM03.jpg"⟩, "c3")],
         [("c.jpg", "TEAM03.jpg", ⟨EXPORT_FOLDER, "TEAM03.jpg"⟩)]) := by
      have hr : readFS [(⟨IMPORT_FOLDER, "a.jpg"⟩, "c1"),
         (⟨IMPORT_FOLDER, "b.jpg"⟩, "c2"),
         (⟨IMPORT_FOLDER, "c.jpg"⟩, "c3"),
         (⟨EXPORT_FOLDER, "TEAM01.jpg"⟩, "c1"),
         (⟨EXPORT_FOLDER, "TEAM02.jpg"⟩, "c2")] ⟨IMPORT_FOLDER, "c.jpg"⟩ = some "c3" := by decide
      have hl := bulk_conflict_loop_free [(⟨IMPORT_FOLDER, "a.jpg"⟩, "c1"),
         (⟨IMPORT_FOLDER, "b.jpg"⟩, "c2"),
         (⟨IMPORT_FOLDER, "c.jpg"⟩, "c3"),
         (⟨EXPORT_FOLDER, "TEAM01.jpg"⟩, "c1"),
         (⟨EXPORT_FOLDER, "TEAM02.jpg"⟩, "c2")] EXPORT_FOLDER
        ("TEAM" ++ zeroPad BULK_NUM_DIGITS (2 + BULK_START_NUMBER)) ((splitext "c.jpg").2)
        ("TEAM" ++ zeroPad BULK_NUM_DIGITS (2 + BULK_START_NUMBER) ++ (splitext "c.jpg").2) 1 (by decide)
      have hw : writeFS [(⟨IMPORT_FOLDER, "a.jpg"⟩, "c1"),
         (⟨IMPORT_FOLDER, "b.jpg"⟩, "c2"),
         (⟨IMPORT_FOLDER, "c.jpg"⟩, "c3"),
         (⟨EXPORT_FOLDER, "TEAM01.jpg"⟩, "c1"),
         (⟨EXPORT_FOLDER, "TEAM02.jpg"⟩, "c2")]
          ⟨EXPORT_FOLDER, "TEAM" ++ zeroPad BULK_NUM_DIGITS (2 + BULK_START_NUMBER) ++ (splitext "c.jpg").2⟩ "c3" =
          [(⟨IMPORT_FOLDER, "a.jpg"⟩, "c1"),
         (⟨IMPORT_FOLDER, "b.jpg"⟩, "c2"),
         (⟨IMPORT_FOLDER, "c.jpg"⟩, "c3"),
         (⟨EXPORT_FOLDER, "TEAM01.jpg"⟩, "c1"),
         (⟨EXPORT_FOLDER, "TEAM02.jpg"⟩, "c2"),
         (⟨EXPORT_FOLDER, "TEAM03.jpg"⟩, "c3")] := by decide
      simp only [bulk_rename_go_cons, hr, hl, hw, show (2 : Nat) + 1 = 3 from rfl, g3]
      decide
    have g1 : bulk_rename_go IMPORT_FOLDER EXPORT_FOLDER "TEAM" ["b.jpg", "c.jpg"] 1
        [(⟨IMPORT_FOLDER, "a.jpg"⟩, "c1"),
         (⟨IMPORT_FOLDER, "b.jpg"⟩, "c2"),
         (⟨IMPORT_FOLDER, "c.jpg"⟩, "c3"),
         (⟨EXPORT_FOLDER, "TEAM01.jpg"⟩, "c1")] =
        ([(⟨IMPORT_FOLDER, "a.jpg"⟩, "c1"),
         (⟨IMPORT_FOLDER, "b.jpg"⟩, "c2"),
         (⟨IMPORT_FOLDER, "c.jpg"⟩, "c3"),
         (⟨EXPORT_FOLDER, "TEAM01.jpg"⟩, "c1"),
         (⟨EXPORT_FOLDER, "TEAM02.jpg"⟩, "c2"),
         (⟨EXPORT_FOLDER, "TEAM03.jpg"⟩, "c3")],
         [("b.jpg", "TEAM02.jpg", ⟨EXPORT_FOLDER, "TEAM02.jpg"⟩), ("c.jpg", "TEAM03.jpg", ⟨EXPORT_FOLDER, "TEAM03.jpg"⟩)]) := by
      have hr : readFS [(⟨IMPORT_FOLDER, "a.jpg"⟩, "c1"),
         (⟨IMPORT_FOLDER, "b.jpg"⟩, "c2"),
         (⟨IMPORT_FOLDER, "c.jpg"⟩, "c3"),
         (⟨EXPORT_FOLDER, "TEAM01.jpg"⟩, "c1")] ⟨IMPORT_FOLDER, "b.jpg"⟩ = some "c2" := by decide
      have hl := bulk_conflict_loop_free [(⟨IMPORT_FOLDER, "a.jpg"⟩, "c1"),
         (⟨IMPORT_FOLDER, "b.jpg"⟩, "c2"),
         (⟨IMPORT_FOLDER, "c.jpg"⟩, "c3"),
         (⟨EXPORT_FOLDER, "TEAM01.jpg"⟩, "c1")] EXPORT_FOLDER
        ("TEAM" ++ zeroPad BULK_NUM_DIGITS (1 + BULK_START_NUMBER)) ((splitext "b.jpg").2)
        ("TEAM" ++ zeroPad BULK_NUM_DIGITS (1 + BULK_START_NUMBER) ++ (splitext "b.jpg").2) 1 (by decide)
      have hw : writeFS [(⟨IMPORT_FOLDER, "a.jpg"⟩, "c1"),
         (⟨IMPORT_FOLDER, "b.jpg"⟩, "c2"),
         (⟨IMPORT_FOLDER, "c.jpg"⟩, "c3"),
         (⟨EXPORT_FOLDER, "TEAM01.jpg"⟩, "c1")]
          ⟨EXPORT_FOLDER, "TEAM" ++ zeroPad BULK_NUM_DIGITS (1 + BULK_START_NUMBER) ++ (splitext "b.jpg").2⟩ "c2" =
          [(⟨IMPORT_FOLDER, "a.jpg"⟩, "c1"),
         (⟨IMPORT_FOLDER, "b.jpg"⟩, "c2"),
         (⟨IMPORT_FOLDER, "c.jpg"⟩, "c3"),
         (⟨EXPORT_FOLDER, "TEAM01.jpg"⟩, "c1"),
         (⟨EXPORT_FOLDER, "TEAM02.jpg"⟩, "c2")] := by decide
      simp only [bulk_rename_go_cons, hr, hl, hw, show (1 : Nat) + 1 = 2 from rfl, g2]
      decide
    have g0 : bulk_rename_go IMPORT_FOLDER EXPORT_FOLDER "TEAM" ["a.jpg", "b.jpg", "c.jpg"] 0
        [(⟨IMPORT_FOLDER, "a.jpg"⟩, "c1"),
         (⟨IMPORT_FOLDER, "b.jpg"⟩, "c2"),
         (⟨IMPORT_FOLDER, "c.jpg"⟩, "c3")] =
        ([(⟨IMPORT_FOLDER, "a.jpg"⟩, "c1"),
         (⟨IMPORT_FOLDER, "b.jpg"⟩, "c2"),
         (⟨IMPORT_FOLDER, "c.jpg"⟩, "c3"),
         (⟨EXPORT_FOLDER, "TEAM01.jpg"⟩, "c1"),
         (⟨EXPORT_FOLDER, "TEAM02.jpg"⟩, "c2"),
         (⟨EXPORT_FOLDER, "TEAM03.jpg"⟩, "c3")],
         [("a.jpg", "TEAM01.jpg", ⟨EXPORT_FOLDER, "TEAM01.jpg"⟩), ("b.jpg", "TEAM02.jpg", ⟨EXPORT_FOLDER, "TEAM02.jpg"⟩), ("c.jpg", "TEAM03.jpg", ⟨EXPORT_FOLDER, "TEAM03.jpg"⟩)]) := by
      have hr : readFS [(⟨IMPORT_FOLDER, "a.jpg"⟩, "c1"),
         (⟨IMPORT_FOLDER, "b.jpg"⟩, "c2"),
         (⟨IMPORT_FOLDER, "c.jpg"⟩, "c3")] ⟨IMPORT_FOLDER, "a.jpg"⟩ = some "c1" := by decide
      have hl := bulk_conflict_loop_free [(⟨IMPORT_FOLDER, "a.jpg"⟩, "c1"),
         (⟨IMPORT_FOLDER, "b.jpg"⟩, "c2"),
         (⟨IMPORT_FOLDER, "c.jpg"⟩, "c3")] EXPORT_FOLDER
        ("TEAM" ++ zeroPad BULK_NUM_DIGITS (0 + BULK_START_NUMBER)) ((splitext "a.jpg").2)
        ("TEAM" ++ zeroPad BULK_NUM_DIGITS (0 + BULK_START_NUMBER) ++ (splitext "a.jpg").2) 1 (by decide)
      have hw : writeFS [(⟨IMPORT_FOLDER, "a.jpg"⟩, "c1"),
         (⟨IMPORT_FOLDER, "b.jpg"⟩, "c2"),
         (⟨IMPORT_FOLDER, "c.jpg"⟩, "c3")]
          ⟨EXPORT_FOLDER, "TEAM" ++ zeroPad BULK_NUM_DIGITS (0 + BULK_START_NUMBER) ++ (splitext "a.jpg").2⟩ "c1" =
          [(⟨IMPORT_FOLDER, "a.jpg"⟩, "c1"),
         (⟨IMPORT_FOLDER, "b.jpg"⟩, "c2"),
         (⟨IMPORT_FOLDER, "c.jpg"⟩, "c3"),
         (⟨EXPORT_FOLDER, "TEAM01.jpg"⟩, "c1")] := by decide
      simp only [bulk_rename_go_cons, hr, hl, hw, show (0 : Nat) + 1 = 1 from rfl, g1]
      decide

    have hsort : sortStrings ["b.jpg", "a.jpg", "c.jpg"] = ["a.jpg", "b.jpg", "c.jpg"] := by
      decide
    rw [bulk_rename_files, hsort, g0]
    decide
  refine ⟨hmain, ?_⟩
  rw [hmain]
  decide

set_option maxHeartbeats 1000000 in
/-- Claim C8, witness: with `TEAM01.jpg` already present in the export
folder, the bulk step writes `TEAM01_conflict_1.jpg` instead, and the
pre-existing file still reads its old content afterwards. -/
theorem C8_bulk_no_overwrite_witness :
    readFS (bulk_rename_files IMPORT_FOLDER EXPORT_FOLDER "TEAM" ["a.jpg"]
      [(⟨IMPORT_FOLDER, "a.jpg"⟩, "NEW"), (⟨EXPORT_FOLDER, "TEAM01.jpg"⟩, "OLD")]).1
      ⟨EXPORT_FOLDER, "TEAM01.jpg"⟩ = some "OLD" ∧
    (bulk_rename_files IMPORT_FOLDER EXPORT_FOLDER "TEAM" ["a.jpg"]
      [(⟨IMPORT_FOLDER, "a.jpg"⟩, "NEW"), (⟨EXPORT_FOLDER, "TEAM01.jpg"⟩, "OLD")]).2.map
      (fun e => e.2.1) = ["TEAM01_conflict_1.jpg"] ∧
    readFS (bulk_rename_files IMPORT_FOLDER EXPORT_FOLDER "TEAM" ["a.jpg"]
      [(⟨IMPORT_FOLDER, "a.jpg"⟩, "NEW"), (⟨EXPORT_FOLDER, "TEAM01.jpg"⟩, "OLD")]).1
      ⟨EXPORT_FOLDER, "TEAM01_conflict_1.jpg"⟩ = some "NEW" := by
  have hrun : bulk_rename_files IMPORT_FOLDER EXPORT_FOLDER "TEAM" ["a.jpg"]
      [(⟨IMPORT_FOLDER, "a.jpg"⟩, "NEW"), (⟨EXPORT_FOLDER, "TEAM01.jpg"⟩, "OLD")] =
      ([(⟨IMPORT_FOLDER, "a.jpg"⟩, "NEW"), (⟨EXPORT_FOLDER, "TEAM01.jpg"⟩, "OLD"),
        (⟨EXPORT_FOLDER, "TEAM01_conflict_1.jpg"⟩, "NEW")],
       [("a.jpg", "TEAM01_conflict_1.jpg", ⟨EXPORT_FOLDER, "TEAM01_conflict_1.jpg"⟩)]) := by
    simp [bulk_rename_files, bulk_rename_go, sortStrings, insertSorted, bulk_conflict_loop,
      splitext, lastDotIdx, zeroPad, readFS, existsFS, writeFS, IMPORT_FOLDER, EXPORT_FOLDER,
      BULK_NUM_DIGITS, BULK_START_NUMBER]
    decide
  have hpres := (C8_bulk_no_overwrite IMPORT_FOLDER EXPORT_FOLDER "TEAM" ["a.jpg"]
    [(⟨IMPORT_FOLDER, "a.jpg"⟩, "NEW"), (⟨EXPORT_FOLDER, "TEAM01.jpg"⟩, "OLD")]
    ⟨EXPORT_FOLDER, "TEAM01.jpg"⟩ (by decide)).1
  refine ⟨hpres.trans (by decide), ?_, ?_⟩
  · rw [hrun]
    decide
  · rw [hrun]
    decide

theorem setAdd_mem (s : List String) (x y : String) : y ∈ setAdd s x ↔ y ∈ s ∨ y = x := by
  unfold setAdd
  by_cases h : x ∈ s
  · simp only [if_pos h]
    constructor
    · exact Or.inl
    · rintro (h' | rfl)
      · exact h'
      · exact h
  · simp [if_neg h]

theorem setAdd_nodup (s : List String) (x : String) (h : s.Nodup) : (setAdd s x).Nodup := by
  unfold setAdd
  by_cases hm : x ∈ s
  · simpa [if_pos hm] using h
  · simp [if_neg hm, List.nodup_append, h, hm]

theorem originals_fold_mem (rows : List (List String)) :
    ∀ (acc : List String) (x : String),
      (x ∈ rows.foldl (fun acc row =>
        match row with
        | _ :: y :: _ => setAdd acc y
        | _ => acc) acc) ↔ x ∈ acc ∨ ∃ row ∈ rows, row.get? 1 = some x := by
  induction rows with
  | nil => intro acc x; simp
  | cons r rest ih =>
    intro acc x
    cases r with
    | nil =>
      rw [List.foldl_cons]
      rw [ih acc x]
      simp
    | cons a t1 =>
      cases t1 with
      | nil =>
        rw [List.foldl_cons]
        rw [ih acc x]
        simp
      | cons y t =>
        rw [List.foldl_cons]
        rw [ih (setAdd acc y) x]
        simp only [setAdd_mem, List.mem_cons, List.get?]
        constructor
        · rintro ((hacc | rfl) | ⟨row, hrow, hget⟩)
          · exact Or.inl hacc
          · exact Or.inr ⟨a :: x :: t, Or.inl rfl, rfl⟩
          · exact Or.inr ⟨row, Or.inr hrow, hget⟩
        · rintro (hacc | ⟨row, (rfl | hrow), hget⟩)
          · exact Or.inl (Or.inl hacc)
          · simp at hget
            exact Or.inl (Or.inr hget.symm)
          · exact Or.inr ⟨row, hrow, hget⟩

theorem originals_fold_nodup (rows : List (List String)) :
    ∀ acc : List String, acc.Nodup →
      (rows.foldl (fun acc row =>
        match row with
        | _ :: y :: _ => setAdd acc y
        | _ => acc) acc).Nodup := by
  induction rows with
  | nil => intro acc h; exact h
  | cons r rest ih =>
    intro acc h
    rw [List.foldl_cons]
    cases r with
    | nil => exact ih acc h
    | cons a t1 =>
      cases t1 with
      | nil => exact ih acc h
      | cons y t => exact ih (setAdd acc y) (setAdd_nodup acc y h)

theorem read_uploaded_originals_mem (header : List String) (rows : List (List String))
    (hlen : 1 < header.length) (x : String) :
    x ∈ read_uploaded_originals (some (header :: rows)) ↔
      ∃ row ∈ rows, row.get? 1 = some x := by
  have hne : header ≠ [] := by
    intro e
    subst e
    simp at hlen
  simp only [read_uploaded_originals]
  rw [if_neg hne, if_neg (by omega)]
  rw [originals_fold_mem rows [] x]
  simp

theorem read_uploaded_originals_nodup (file : Option Csv) :
    (read_uploaded_originals file).Nodup := by
  match file with
  | none => exact List.nodup_nil
  | some [] => exact List.nodup_nil
  | some (h :: rest) =>
    simp only [read_uploaded_originals]
    by_cases h1 : h = []
    · simp [h1]
    · rw [if_neg h1]
      by_cases h2 : h.length ≤ 1
      · simp [h2]
      · rw [if_neg h2]
        exact originals_fold_nodup rest [] List.nodup_nil

theorem pyStrLt_irrefl (cs : List Char) : pyStrLt cs cs = false := by
  induction cs with
  | nil => rfl
  | cons a as ih => simp [pyStrLt, ih]

theorem pyStrLt_trans (a : List Char) : ∀ b c : List Char,
    pyStrLt a b = true → pyStrLt b c = true → pyStrLt a c = true := by
  induction a with
  | nil =>
    intro b c h1 h2
    cases b with
    | nil => simp [pyStrLt] at h1
    | cons bh bt =>
      cases c with
      | nil => simp [pyStrLt] at h2
      | cons ch ct => simp [pyStrLt]
  | cons ah t ih =>
    intro b c h1 h2
    cases b with
    | nil => simp [pyStrLt] at h1
    | cons bh bt =>
      cases c with
      | nil => simp [pyStrLt] at h2
      | cons ch ct =>
        simp only [pyStrLt] at h1 h2 ⊢
        split at h1
        · rename_i h_ab
          split at h2
          · rename_i h_bc
            rw [if_pos (by omega)]
          · split at h2
            · simp at h2
            · rename_i h_nbc h_ncb
              rw [if_pos (by omega)]
        · split at h1
          · simp at h1
          · rename_i h_nab h_nba
            split at h2
            · rename_i h_bc
              rw [if_pos (by omega)]
            · split at h2
              · simp at h2
              · rename_i h_nbc h_ncb
                rw [if_neg (by omega), if_neg (by omega)]
                exact ih bt ct h1 h2

theorem pyStrLt_eq_of_not (a : List Char) : ∀ b : List Char,
    pyStrLt a b = false → pyStrLt b a = false → a = b := by
  induction a with
  | nil =>
    intro b h1 _
    cases b with
    | nil => rfl
    | cons bh bt => simp [pyStrLt] at h1
  | cons ah t ih =>
    intro b h1 h2
    cases b with
    | nil => simp [pyStrLt] at h2
    | cons bh bt =>
      simp only [pyStrLt] at h1 h2
      by_cases hab : ah.toNat < bh.toNat
      · simp [hab] at h1
      · by_cases hba : bh.toNat < ah.toNat
        · simp [hba] at h2
        · have hnat : ah.toNat = bh.toNat := by omega
          have hch : ah = bh := Char.eq_of_val_eq (UInt32.toNat.inj hnat)
          have ht : t = bt := ih bt (by simpa [hab, hba] using h1) (by simpa [hab, hba] using h2)
          rw [hch, ht]

theorem pyStrLe_trans (a b c : String) (h1 : pyStrLe a b = true) (h2 : pyStrLe b c = true) :
    pyStrLe a c = true := by
  unfold pyStrLe at h1 h2 ⊢
  simp only [Bool.not_eq_true'] at h1 h2 ⊢
  cases hbc : pyStrLt b.toList c.toList
  · have he : b.toList = c.toList := pyStrLt_eq_of_not _ _ hbc h2
    rw [← he]
    exact h1
  · cases hca : pyStrLt c.toList a.toList
    · rfl
    · have htr := pyStrLt_trans b.toList c.toList a.toList hbc hca
      rw [h1] at htr
      cases htr

theorem isSortedStr_cons_iff (x : String) (l : List String) :
    isSortedStr (x :: l) = true ↔
      (∀ y ∈ l, pyStrLe x y = true) ∧ isSortedStr l = true := by
  induction l generalizing x with
  | nil => simp [isSortedStr]
  | cons y ys ih =>
    simp only [isSortedStr, Bool.and_eq_true]
    constructor
    · rintro ⟨hxy, hrest⟩
      obtain ⟨hall, _⟩ := (ih y).mp hrest
      refine ⟨?_, hrest⟩
      intro z hz
      rcases List.mem_cons.mp hz with rfl | hz'
      · exact hxy
      · exact pyStrLe_trans x y z hxy (hall z hz')
    · rintro ⟨hall, hsorted⟩
      exact ⟨hall y (List.mem_cons_self y ys), hsorted⟩

theorem isSortedStr_filter (p : String → Bool) (l : List String)
    (h : isSortedStr l = true) : isSortedStr (l.filter p) = true := by
  induction l with
  | nil => rfl
  | cons x xs ih =>
    obtain ⟨hall, hxs⟩ := (isSortedStr_cons_iff x xs).mp h
    by_cases hp : p x = true
    · rw [List.filter_cons_of_pos hp, isSortedStr_cons_iff]
      refine ⟨?_, ih hxs⟩
      intro y hy
      exact hall y (List.mem_of_mem_filter hy)
    · rw [List.filter_cons_of_neg (by simp [hp])]
      exact ih hxs

/-- Claim C1 (amended): the duplicate filter returns exactly the candidates
whose name is not in the set of distinct `original_name` values of the
ledger's rows, preserving the order of the candidate listing (so the
result is sorted whenever the listing is sorted, as in the drive-download
path — but the filter itself does not sort, see the counterexample); with
originals `{A.jpg, B.jpg}` logged and candidates `{A.jpg, C.jpg}` the
result is exactly `{C.jpg}`. -/
theorem C1_duplicate_filter (candidates originals : List String)
    (header : List String) (rows : List (List String)) (hlen : 1 < header.length) :
    (∀ f, f ∈ filter_files candidates originals ↔ f ∈ candidates ∧ f ∉ originals) ∧
    List.Sublist (filter_files candidates originals) candidates ∧
    (isSortedStr candidates = true → isSortedStr (filter_files candidates originals) = true) ∧
    (∀ x, x ∈ read_uploaded_originals (some (header :: rows)) ↔
      ∃ row ∈ rows, row.get? 1 = some x) ∧
    (read_uploaded_originals (some (header :: rows))).Nodup ∧
    filter_files ["A.jpg", "C.jpg"] (read_uploaded_originals (some [CSV_HEADER,
      ["t1", "A.jpg", "r1", "u1"], ["t2", "B.jpg", "r2", "u2"]])) = ["C.jpg"] := by
  refine ⟨?_, List.filter_sublist _, isSortedStr_filter _ candidates, ?_, ?_, by decide⟩
  · intro f
    simp [filter_files]
  · exact read_uploaded_originals_mem header rows hlen
  · exact read_uploaded_originals_nodup (some (header :: rows))

/-- Claim C1, witness: the characterization at the spec's example — with
`A.jpg` and `B.jpg` logged and candidates `A.jpg, C.jpg`, only `C.jpg`
survives, and a sorted candidate listing gives a sorted result. -/
theorem C1_duplicate_filter_witness :
    ("C.jpg" ∈ filter_files ["A.jpg", "C.jpg"] ["A.jpg", "B.jpg"] ∧
      "A.jpg" ∉ filter_files ["A.jpg", "C.jpg"] ["A.jpg", "B.jpg"]) ∧
    isSortedStr (filter_files ["A.jpg", "C.jpg"] ["A.jpg", "B.jpg"]) = true ∧
    filter_files ["A.jpg", "C.jpg"] (read_uploaded_originals (some [CSV_HEADER,
      ["t1", "A.jpg", "r1", "u1"], ["t2", "B.jpg", "r2", "u2"]])) = ["C.jpg"] := by
  have h := C1_duplicate_filter ["A.jpg", "C.jpg"] ["A.jpg", "B.jpg"] CSV_HEADER
    [["t1", "A.jpg", "r1", "u1"], ["t2", "B.jpg", "r2", "u2"]] (by decide)
  refine ⟨⟨(h.1 "C.jpg").mpr (by decide), fun hc => ?_⟩, h.2.2.1 (by decide), h.2.2.2.2.2⟩
  exact ((h.1 "A.jpg").mp hc).2 (by decide)

/-- Claim C1, counterexample to "in deterministic (sorted) order": at the
cited call site (`start_script`, local import) the filter preserves the
directory-listing order, so an unsorted listing yields an unsorted
files-to-process list. -/
theorem C1_sorted_order_counterexample :
    filter_files ["B.jpg", "A.jpg"] (read_uploaded_originals (some [CSV_HEADER])) =
      ["B.jpg", "A.jpg"] ∧
    isSortedStr (filter_files ["B.jpg", "A.jpg"]
      (read_uploaded_originals (some [CSV_HEADER]))) = false ∧
    sortStrings (filter_files ["B.jpg", "A.jpg"]
      (read_uploaded_originals (some [CSV_HEADER]))) = ["A.jpg", "B.jpg"] := by
  refine ⟨by decide, by decide, by decide⟩
